import Mathlib

/-!
# Booking and payment core of the real-estate platform

A shallow embedding of

* `server/src/controllers/apartmentController.js` (`bookApartment`),
* `server/src/controllers/paymentController.js` (`createPayment`, `generateInvoice`,
  `getAllUserPaymentsController`),
* `server/src/models/paymentModel.js` (`paymentModel.validate`),
* `client/src/components/PropertyComponents/PaymentForm.jsx` (`validateForm`,
  `handleSubmit`),

followed by theorems about them.

## Modelling conventions

* A request body is parsed JSON.  `JsVal` is the JavaScript value of a body
  field; a field that is absent from the body is `JsVal.undefined`.  JSON
  numbers are modelled as integers (what the code does with a number in the
  parts modelled here depends only on whether it is zero, and on its decimal
  text).
* The relational store is three tables of rows.  A call talks to the store
  through a numbered sequence of store calls; `Env.fault k` says whether the
  `k`-th store call of the request throws.  The committed tables change only
  when `commit` succeeds; the open transaction works on its own copy.
* Whatever the store and the clock answer (generated ids, `NOW()`,
  `Date.now()`, how a bound parameter is compared with an id column) is an
  input, collected in `Env`; what the lookups and the aggregator of
  `generateInvoice` answer is an input collected in `InvoiceEnv`, what the queries of
  `getAllUserPaymentsController` answer an input collected in `HistoryEnv`.
* The built-in `parseFloat` is an input of the form functions; its answer is `NaN`, an
  infinity or a finite number.
* A row object and an invoice are objects (`JsFields`); `{ ...a, ...b }` is
  `JsFields.assign`.
* Requests in flight together take turns at their store calls (`InFlight.step`, the
  body of `bookApartment` from one `await` to the next).  What the store does with
  several open transactions is taken from section 5 of the specification:
  read-committed isolation and row write locks (`Txn`).  A request run alone in this
  way ends as `bookApartment` says (`alone_eq_bookApartment`).
-/

namespace RealEstate

/-! ## JavaScript values -/

mutual
/-- A parsed JSON value, or `undefined` for an absent field. -/
inductive JsVal where
  | undefined
  | null
  | bool (b : Bool)
  | num (n : Int)
  | str (s : String)
  | arr (xs : JsList)
  | obj (fs : JsFields)
  deriving DecidableEq
/-- The elements of a JSON array. -/
inductive JsList where
  | nil
  | cons (x : JsVal) (xs : JsList)
  deriving DecidableEq
/-- The own properties of a JSON object (one entry per key). -/
inductive JsFields where
  | nil
  | cons (k : String) (v : JsVal) (fs : JsFields)
  deriving DecidableEq
end

instance : Inhabited JsVal := ⟨JsVal.undefined⟩

/-- Own-property lookup in an object's field list; `undefined` when the key is absent. -/
def JsFields.lookup : JsFields → String → JsVal
  | .nil, _ => .undefined
  | .cons k v fs, key => if k = key then v else fs.lookup key

/-- Whether the object has an own property of that name. -/
def JsFields.hasKey : JsFields → String → Bool
  | .nil, _ => false
  | .cons k _ fs, key => k == key || fs.hasKey key

/-- Build an object from a list of key/value pairs. -/
def JsFields.ofList : List (String × JsVal) → JsFields
  | [] => .nil
  | (k, v) :: rest => .cons k v (JsFields.ofList rest)

namespace JsVal

/-- JavaScript truthiness (`ToBoolean`): `undefined`, `null`, `false`, `0` and `""`
are falsy, every other value (every array and object included) is truthy. -/
def truthy : JsVal → Bool
  | .undefined => false
  | .null => false
  | .bool b => b
  | .num n => n != 0
  | .str s => s != ""
  | .arr _ => true
  | .obj _ => true

/-- The JavaScript `a || b`. -/
def or (a b : JsVal) : JsVal := if a.truthy then a else b

/-- Property read `v.key`.  An object yields its own property; a string, number,
boolean or array has no property of the names read by this code, so the read is
`undefined`.  (Every read in the modelled code is guarded by a truthiness test of
the receiver, so the receiver is never `null` or `undefined`.) -/
def get : JsVal → String → JsVal
  | .obj fs, key => fs.lookup key
  | _, _ => .undefined

end JsVal

mutual
/-- The string form of a value: `String(v)`, which for the values that reach it is
also what `v.toString()` and a template literal produce.  `none` stands for a thrown
`TypeError`: an object whose own `toString` property shadows the inherited method
(a JSON value is never callable). -/
def JsVal.toStr : JsVal → Option String
  | .undefined => some "undefined"
  | .null => some "null"
  | .bool b => some (if b then "true" else "false")
  | .num n => some (toString n)
  | .str s => some s
  | .arr xs => JsList.join xs
  | .obj fs => if fs.hasKey "toString" then none else some "[object Object]"
/-- Array join with separator `,`; `null` and `undefined` elements print as the empty string. -/
def JsList.join : JsList → Option String
  | .nil => some ""
  | .cons x xs =>
    let head : Option String :=
      match x with
      | .undefined => some ""
      | .null => some ""
      | y => JsVal.toStr y
    match xs with
    | .nil => head
    | rest =>
      match head, JsList.join rest with
      | some a, some b => some (a ++ "," ++ b)
      | _, _ => none
end

/-- The method call `v.toString()`: a `TypeError` on `null`/`undefined`, otherwise
the string form. -/
def JsVal.callToString : JsVal → Option String
  | .undefined => none
  | .null => none
  | v => v.toStr

/-- Replace the first occurrence of `pat` in `s` by nothing (lists of characters). -/
def removeFirst (pat : List Char) : List Char → List Char
  | [] => []
  | c :: cs =>
    if pat.isPrefixOf (c :: cs) then (c :: cs).drop pat.length
    else c :: removeFirst pat cs

/-- The prefix that marks a demo unit. -/
def fallbackMarker : String := "fallback-"

/-- String `startsWith`. -/
def startsWith (s pre : String) : Bool := pre.data.isPrefixOf s.data

/-- The method call `v.replace("fallback-", "")`: only a string has the method; any
other value throws a `TypeError` (`none`). -/
def JsVal.replaceFallback : JsVal → Option String
  | .str s => some (String.mk (removeFirst fallbackMarker.data s.data))
  | _ => none

/-! ## Requests and responses -/

/-- The fields `bookApartment` destructures from `req.body`. -/
structure BookingRequest where
  user_id : JsVal
  property_id : JsVal
  unit_id : JsVal
  total_price : JsVal
  amount_paid : JsVal
  payment_method : JsVal
  payment_details : JsVal
  status : JsVal
  property_name : JsVal
  deriving DecidableEq

/-- The `data` object of a successful booking response. -/
structure BookingData where
  payment_id : Nat
  invoice_number : String
  deriving DecidableEq

/-- What `res.status(..).json(..)` sends. -/
structure Response where
  status : Nat
  success : Bool
  message : String
  error : Option String
  data : Option BookingData
  deriving DecidableEq

/-- A `res.status(code).json({ success: false, message })` answer. -/
def failure (code : Nat) (message : String) : Response :=
  { status := code, success := false, message := message, error := none, data := none }

/-- Line 280: a required field is missing. -/
def missingBookingFields : Response := failure 400 "All booking fields are required"

/-- Lines 289 and 51: the method is not one of the accepted ones. -/
def invalidMethod : Response := failure 400 "Only credit card and UPI payments are accepted"

/-- Lines 303 and 65: a card field is missing. -/
def cardDetailsRequired : Response := failure 400 "All credit card details are required"

/-- Lines 310 and 72: the UPI id is missing. -/
def upiIdRequired : Response := failure 400 "UPI ID is required for UPI payments"

/-- Line 385: the unit is not available. -/
def unitUnavailable : Response := failure 400 "Unit is not available for booking"

/-- Line 436: the answer of the inner `catch`. -/
def bookingFailed (e : String) : Response :=
  { status := 500, success := false, message := "Failed to process booking",
    error := some e, data := none }

/-- Line 446: the answer of the outer `catch`. -/
def bookingServerError (e : String) : Response :=
  { status := 500, success := false,
    message := "Server error while processing apartment booking",
    error := some e, data := none }

/-- Line 425: the booking succeeded. -/
def bookingSucceeded (paymentId : Nat) (invoiceNumber : String) : Response :=
  { status := 200, success := true, message := "Apartment booked successfully",
    error := none, data := some { payment_id := paymentId, invoice_number := invoiceNumber } }

/-- The accepted method names (`validMethods`, lines 287 and 49). -/
def validMethods : List JsVal := [.str "credit_card", .str "card", .str "upi"]

/-- The method/detail checks shared verbatim by `bookApartment` (lines 286-315) and
`createPayment` (lines 48-77): `some r` is the 400 answer, `none` means accepted. -/
def checkMethodAndDetails (payment_method payment_details : JsVal) : Option Response :=
  if !validMethods.contains payment_method then some invalidMethod
  else if payment_method = .str "credit_card" || payment_method = .str "card" then
    if !(payment_details.get "card_holder").truthy ||
       !(payment_details.get "card_number").truthy ||
       !(payment_details.get "expiry_date").truthy ||
       !(payment_details.get "cvv").truthy
    then some cardDetailsRequired
    else none
  else if payment_method = .str "upi" then
    if !(payment_details.get "upi_id").truthy then some upiIdRequired else none
  else none

/-- The request validation of `bookApartment`, lines 263-315: `some r` is the answer
sent to a rejected request, `none` means the request goes on to the transaction. -/
def validateBooking (req : BookingRequest) : Option Response :=
  if !req.user_id.truthy || !req.property_id.truthy || !req.unit_id.truthy ||
     !req.amount_paid.truthy || !req.payment_method.truthy || !req.payment_details.truthy
  then some missingBookingFields
  else checkMethodAndDetails req.payment_method req.payment_details

/-! ## The relational store -/

/-- A row of `payments` (columns written by `bookApartment`, lines 325-343; the
`payment_details` column holds the JSON text of the value kept here). -/
structure PaymentRow where
  id : Nat
  user_id : JsVal
  property_id : JsVal
  total_price : JsVal
  amount_paid : JsVal
  payment_method : JsVal
  payment_details : JsVal
  status : JsVal
  payment_date : Nat
  invoice_number : JsVal
  deriving DecidableEq

/-- A row of `apartment_bookings` (lines 356-374 and 393-402). -/
structure BookingRow where
  id : Nat
  user_id : JsVal
  apartment_id : JsVal
  unit_id : JsVal
  payment_id : Nat
  booking_date : Nat
  amount : JsVal
  status : String
  notes : Option String
  deriving DecidableEq

/-- A row of `apartment_units`. -/
structure UnitRow where
  id : Nat
  apartment_id : Nat
  unit_number : String
  floor_number : Int
  price : Int
  bedrooms : Nat
  bathrooms : Nat
  area : Int
  status : String
  deriving DecidableEq

/-- The tables the booking flow reads and writes. -/
structure Store where
  payments : List PaymentRow
  apartment_bookings : List BookingRow
  apartment_units : List UnitRow
  deriving DecidableEq

/-- The store calls `bookApartment` makes, in the words of the source. -/
inductive Op where
  | getConnection
  | beginTransaction
  | insertPayment
  | selectUnit
  | insertBooking
  | updateUnit
  | stampInvoice
  | commit
  | rollback
  | release
  deriving DecidableEq

/-- What one call receives from outside the source.

* `fault k`: the error thrown by the `k`-th store call of this request (counting from
  0, in the order the calls are made), `none` when that call succeeds;
* `paymentInsertId`, `bookingInsertId`: the `insertId` the store answers to the two inserts;
* `storeNow`: the store clock `NOW()`; `dateNow`: `Date.now()` in milliseconds;
* `idOf v`: the id value as which the store compares the bound parameter `v` with an
  `id` column (`none`: it equals no id). -/
structure Env where
  fault : Nat → Option String
  paymentInsertId : Nat
  bookingInsertId : Nat
  storeNow : Nat
  dateNow : Nat
  idOf : JsVal → Option Nat

/-- The connection as the call sees it: the committed tables, the tables of the open
transaction (`none`: no transaction is open), and the store calls made so far. -/
structure Conn where
  committed : Store
  txn : Option Store
  log : List Op
  deriving DecidableEq

/-- The tables a query of the connection reads. -/
def Conn.view (w : Conn) : Store := w.txn.getD w.committed

/-- A write inside the open transaction (every write of the modelled code follows a
successful `beginTransaction`). -/
def Conn.write (f : Store → Store) (w : Conn) : Conn := { w with txn := w.txn.map f }

/-- The error with which the next store call of the connection throws, if it does. -/
def thrown (env : Env) (w : Conn) : Option String := env.fault w.log.length

/-- The connection after one more store call has been made. -/
def Conn.logged (op : Op) (w : Conn) : Conn := { w with log := w.log ++ [op] }

/-- The effect of `beginTransaction`: the transaction starts from the committed tables. -/
def Conn.beginTxn (w : Conn) : Conn := { w with txn := some w.committed }

/-- The effect of `commit`: the tables of the transaction become the committed ones. -/
def Conn.commitTxn (w : Conn) : Conn := { w with committed := w.view, txn := none }

/-- The effect of `rollback`: the tables of the transaction are dropped. -/
def Conn.rollbackTxn (w : Conn) : Conn := { w with txn := none }

/-- The message of a `TypeError` thrown by the JavaScript runtime. -/
def typeError : String := "TypeError"

/-- The row of lines 335-343. -/
def paymentRowOf (env : Env) (req : BookingRequest) : PaymentRow :=
  { id := env.paymentInsertId
    user_id := req.user_id
    property_id := req.property_id
    total_price := req.total_price.or req.amount_paid
    amount_paid := req.amount_paid
    payment_method :=
      if req.payment_method = .str "card" then .str "credit_card" else req.payment_method
    payment_details := req.payment_details
    status := .str "completed"
    payment_date := env.storeNow
    invoice_number := .null }

/-- The row of lines 366-374 (demo unit). -/
def fallbackBookingRowOf (env : Env) (req : BookingRequest) (paymentId : Nat)
    (stripped : String) : BookingRow :=
  { id := env.bookingInsertId
    user_id := req.user_id
    apartment_id := req.property_id
    unit_id := .str stripped
    payment_id := paymentId
    booking_date := env.storeNow
    amount := req.amount_paid
    status := "confirmed"
    notes := some "Demo booking - Unit is a fallback demo unit" }

/-- The row of line 402 (real unit). -/
def bookingRowOf (env : Env) (req : BookingRequest) (paymentId : Nat) : BookingRow :=
  { id := env.bookingInsertId
    user_id := req.user_id
    apartment_id := req.property_id
    unit_id := req.unit_id
    payment_id := paymentId
    booking_date := env.storeNow
    amount := req.amount_paid
    status := "confirmed"
    notes := none }

/-- The rows selected by `SELECT * FROM apartment_units WHERE id = ? AND status = 'available'`. -/
def selectAvailable (env : Env) (unit_id : JsVal) (s : Store) : List UnitRow :=
  s.apartment_units.filter (fun u => env.idOf unit_id = some u.id && u.status = "available")

/-- The effect of `UPDATE apartment_units SET status = 'booked' WHERE id = ?`. -/
def markBooked (env : Env) (unit_id : JsVal) (s : Store) : Store :=
  { s with apartment_units :=
      s.apartment_units.map (fun u =>
        if env.idOf unit_id = some u.id then { u with status := "booked" } else u) }

/-- The effect of `UPDATE payments SET invoice_number = ? WHERE id = ?`. -/
def stampInvoice (invoiceNumber : String) (paymentId : Nat) (s : Store) : Store :=
  { s with payments :=
      s.payments.map (fun p =>
        if p.id = paymentId then { p with invoice_number := .str invoiceNumber } else p) }

/-- The invoice reference of lines 413-415; `none` when the template literal throws. -/
def invoiceNumberOf (property_id : JsVal) (dateNow : Nat) : Option String :=
  match property_id.toStr with
  | none => none
  | some p => some ("APT-" ++ p ++ "-" ++ toString (dateNow / 1000))

/-! ## `bookApartment`

Every awaited store call has the same shape: `thrown env w` is consulted, the call
is recorded with `Conn.logged`, and on success its effect is applied. -/

/-- Lines 348-410: the branch on the demo marker.  The result is a thrown error, an
early `return` of a response (`some r`), or normal completion (`none`). -/
def bookUnit (env : Env) (req : BookingRequest) (paymentId : Nat) (w : Conn) :
    Except String (Option Response) × Conn :=
  -- line 349
  match req.unit_id.callToString with
  | none => (.error typeError, w)
  | some text =>
    if startsWith text fallbackMarker then
      -- lines 355-375; the arguments are evaluated before the query is sent
      match req.unit_id.replaceFallback with
      | none => (.error typeError, w)
      | some stripped =>
        match thrown env w with
        | some e => (.error e, w.logged .insertBooking)
        | none =>
          (.ok none, (w.logged .insertBooking).write (fun s => { s with apartment_bookings :=
            s.apartment_bookings ++ [fallbackBookingRowOf env req paymentId stripped] }))
    else
      -- lines 378-381
      match thrown env w with
      | some e => (.error e, w.logged .selectUnit)
      | none =>
        let w1 := w.logged .selectUnit
        let unitResult := selectAvailable env req.unit_id w1.view
        if unitResult.length = 0 then
          -- lines 384-388
          match thrown env w1 with
          | some e => (.error e, w1.logged .rollback)
          | none => (.ok (some unitUnavailable), (w1.logged .rollback).rollbackTxn)
        else
          -- lines 392-403
          match thrown env w1 with
          | some e => (.error e, w1.logged .insertBooking)
          | none =>
            let w2 := (w1.logged .insertBooking).write (fun s => { s with apartment_bookings :=
              s.apartment_bookings ++ [bookingRowOf env req paymentId] })
            -- lines 406-409
            match thrown env w2 with
            | some e => (.error e, w2.logged .updateUnit)
            | none => (.ok none, (w2.logged .updateUnit).write (markBooked env req.unit_id))

/-- Lines 412-432: invoice reference, stamp, commit, answer. -/
def finishBooking (env : Env) (req : BookingRequest) (paymentId : Nat) (w : Conn) :
    Except String Response × Conn :=
  match invoiceNumberOf req.property_id env.dateNow with
  | none => (.error typeError, w)
  | some invoiceNumber =>
    match thrown env w with
    | some e => (.error e, w.logged .stampInvoice)
    | none =>
      let w1 := (w.logged .stampInvoice).write (stampInvoice invoiceNumber paymentId)
      match thrown env w1 with
      | some e => (.error e, w1.logged .commit)
      | none =>
        (.ok (bookingSucceeded paymentId invoiceNumber), (w1.logged .commit).commitTxn)

/-- Lines 320-432: the body of the inner `try`. -/
def transaction (env : Env) (req : BookingRequest) (w : Conn) :
    Except String Response × Conn :=
  -- line 321
  match thrown env w with
  | some e => (.error e, w.logged .beginTransaction)
  | none =>
    let w1 := (w.logged .beginTransaction).beginTxn
    -- lines 324-346
    match thrown env w1 with
    | some e => (.error e, w1.logged .insertPayment)
    | none =>
      let w2 := (w1.logged .insertPayment).write
        (fun s => { s with payments := s.payments ++ [paymentRowOf env req] })
      let paymentId := env.paymentInsertId
      match bookUnit env req paymentId w2 with
      | (.error e, w3) => (.error e, w3)
      | (.ok (some r), w3) => (.ok r, w3)
      | (.ok none, w3) => finishBooking env req paymentId w3

/-- The outcome of one request: the answer sent and the connection state left behind. -/
structure Run where
  response : Response
  conn : Conn
  deriving DecidableEq

/-- The committed tables after the call. -/
def Run.store (r : Run) : Store := r.conn.committed

/-- The controller `bookApartment` (lines 247-452) run on the committed tables `db`.
`connection.release()` (the `finally` of line 442) is synchronous; it is recorded in
the log and does not throw. -/
def bookApartment (env : Env) (db : Store) (req : BookingRequest) : Run :=
  let w0 : Conn := { committed := db, txn := none, log := [] }
  match validateBooking req with
  | some r => { response := r, conn := w0 }
  | none =>
    -- line 318
    match thrown env w0 with
    | some e => { response := bookingServerError e, conn := w0.logged .getConnection }
    | none =>
      match transaction env req (w0.logged .getConnection) with
      | (.ok r, w) => { response := r, conn := w.logged .release }
      | (.error e, w) =>
        -- lines 433-440
        match thrown env w with
        | some e2 =>
          { response := bookingServerError e2, conn := (w.logged .rollback).logged .release }
        | none =>
          { response := bookingFailed e, conn := (w.logged .rollback).rollbackTxn.logged .release }

/-! ## Sequential runs of `bookApartment` -/

/-- One request together with what the outside answers during it. -/
abbrev Call := Env × BookingRequest

/-- The committed tables after the calls have run one after the other. -/
def runAll : Store → List Call → Store
  | db, [] => db
  | db, c :: rest => runAll (bookApartment c.1 db c.2).store rest

/-- The request addresses the real (non-demo) unit with id `u`: line 349 finds no demo
marker and the store compares the bound `unit_id` as `u`. -/
def targets (u : Nat) (c : Call) : Bool :=
  match c.2.unit_id.callToString with
  | some text => !startsWith text fallbackMarker && c.1.idOf c.2.unit_id = some u
  | none => false

/-- How many of the calls addressed the real unit `u` and were answered with success. -/
def successesFor (u : Nat) : Store → List Call → Nat
  | _, [] => 0
  | db, c :: rest =>
    (if targets u c && (bookApartment c.1 db c.2).response.success then 1 else 0) +
      successesFor u (bookApartment c.1 db c.2).store rest

/-- The only change a booking may make to a unit row: the status stays or becomes
`booked`, every other column is kept. -/
def UnitRow.keptOrBooked (before after : UnitRow) : Prop :=
  after = before ∨ after = { before with status := "booked" }

/-- No row of the unit with id `u` is available. -/
def NoneAvailable (u : Nat) (s : Store) : Prop :=
  ∀ r ∈ s.apartment_units, r.id = u → r.status ≠ "available"

/-- The preconditions of a booking request in the words of the specification: all six
fields present, the method one of the three accepted names, and the details complete
for the method (the four card fields for `credit_card`/`card`, the UPI id for `upi`). -/
def BookingRequest.MeetsPreconditions (req : BookingRequest) : Prop :=
  (req.user_id.truthy = true ∧ req.property_id.truthy = true ∧ req.unit_id.truthy = true ∧
    req.amount_paid.truthy = true ∧ req.payment_method.truthy = true ∧
    req.payment_details.truthy = true) ∧
  (req.payment_method = .str "credit_card" ∨ req.payment_method = .str "card" ∨
    req.payment_method = .str "upi") ∧
  ((req.payment_method = .str "credit_card" ∨ req.payment_method = .str "card") →
    (req.payment_details.get "card_holder").truthy = true ∧
    (req.payment_details.get "card_number").truthy = true ∧
    (req.payment_details.get "expiry_date").truthy = true ∧
    (req.payment_details.get "cvv").truthy = true) ∧
  (req.payment_method = .str "upi" → (req.payment_details.get "upi_id").truthy = true)

/-! ## `paymentModel` and `createPayment` -/

/-- The fields `createPayment` destructures from `req.body` (lines 14-23). -/
structure PaymentRequest where
  user_id : JsVal
  property_id : JsVal
  total_price : JsVal
  amount_paid : JsVal
  payment_method : JsVal
  payment_details : JsVal
  status : JsVal
  invoice_number : JsVal
  deriving DecidableEq

/-- An instance of the class `paymentModel` (`paymentModel.js`, lines 2-12);
`payment_date` is the time value of its `Date`. -/
structure PaymentModel where
  user_id : JsVal
  property_id : JsVal
  total_price : JsVal
  amount_paid : JsVal
  payment_method : JsVal
  payment_details : JsVal
  status : JsVal
  payment_date : Nat
  invoice_number : JsVal
  deriving DecidableEq

/-- The result object of `validate()`. -/
structure Validation where
  valid : Bool
  message : Option String
  deriving DecidableEq

/-- The method `paymentModel.validate` (`paymentModel.js`, lines 15-60). -/
def PaymentModel.validate (m : PaymentModel) : Validation :=
  if !m.user_id.truthy || !m.property_id.truthy || !m.amount_paid.truthy ||
     !m.payment_method.truthy || !m.payment_details.truthy || !m.status.truthy
  then { valid := false, message := some "All payment fields are required" }
  else if !([JsVal.str "credit_card", JsVal.str "upi"].contains m.payment_method) then
    { valid := false, message := some "Only credit card and UPI payments are accepted" }
  else if m.payment_method = .str "credit_card" then
    if !(m.payment_details.get "card_holder").truthy ||
       !(m.payment_details.get "card_number").truthy ||
       !(m.payment_details.get "expiry_date").truthy ||
       !(m.payment_details.get "cvv").truthy
    then { valid := false, message := some "All credit card details are required" }
    else { valid := true, message := none }
  else if m.payment_method = .str "upi" then
    if !(m.payment_details.get "upi_id").truthy
    then { valid := false, message := some "UPI ID is required for UPI payments" }
    else { valid := true, message := none }
  else { valid := true, message := none }

/-- Line 42 of `paymentController.js`: a required field is missing. -/
def missingPaymentFields : Response := failure 400 "All payment fields are required"

/-- The request checks of `createPayment`, lines 25-77: `some r` is the answer sent
to a rejected request, `none` means accepted. -/
def validatePayment (req : PaymentRequest) : Option Response :=
  if !req.user_id.truthy || !req.property_id.truthy || !req.amount_paid.truthy ||
     !req.payment_method.truthy || !req.payment_details.truthy || !req.status.truthy
  then some missingPaymentFields
  else checkMethodAndDetails req.payment_method req.payment_details

/-- The object `sanitizedPaymentDetails` of lines 84-90. -/
def sanitizePaymentDetails (payment_details : JsVal) : JsVal :=
  .obj (.ofList
    [("card_holder", (payment_details.get "card_holder").or .null),
     ("card_number", (payment_details.get "card_number").or .null),
     ("expiry_date", (payment_details.get "expiry_date").or .null),
     ("cvv", (payment_details.get "cvv").or .null),
     ("upi_id", (payment_details.get "upi_id").or .null)])

/-- The record `newPayment` of lines 79-102; `now` is the time of `new Date()`. -/
def newPaymentOf (now : Nat) (req : PaymentRequest) : PaymentModel :=
  { user_id := req.user_id
    property_id := req.property_id
    total_price := req.total_price.or .null
    amount_paid := req.amount_paid
    payment_method :=
      if req.payment_method = .str "card" then .str "credit_card" else req.payment_method
    payment_details := sanitizePaymentDetails req.payment_details
    status := req.status
    payment_date := now
    invoice_number := req.invoice_number.or .null }

/-- What the service `createMyPayment` answers (its `success` flag and message). -/
structure ServiceResult where
  success : Bool
  message : String
  deriving DecidableEq

/-- The outcome of one `createPayment` request: the answer sent, and the record handed
to the persistence service (`none` when the service was not called). -/
structure PaymentRun where
  response : Response
  submitted : Option PaymentModel
  deriving DecidableEq

/-- The controller `createPayment` (lines 10-116).  The service `createMyPayment`
(`services/paymentService.js`) is a parameter: it persists the record and answers a
result, or throws. -/
def createPayment (createMyPayment : PaymentModel → Except String ServiceResult)
    (now : Nat) (req : PaymentRequest) : PaymentRun :=
  match validatePayment req with
  | some r => { response := r, submitted := none }
  | none =>
    let newPayment := newPaymentOf now req
    match createMyPayment newPayment with
    | .ok result =>
      { response :=
          { status := if result.success then 200 else 400, success := result.success,
            message := result.message, error := none, data := none }
        submitted := some newPayment }
    | .error e =>
      { response :=
          { status := 500, success := false,
            message := "Server error while processing payment", error := some e,
            data := none }
        submitted := some newPayment }

/-! ## Objects: assignment and spread -/

/-- Property assignment `o[key] = v`: an existing property is overwritten in place, a
new one is added. -/
def JsFields.set : JsFields → String → JsVal → JsFields
  | .nil, key, v => .cons key v .nil
  | .cons k x fs, key, v => if k = key then .cons k v fs else .cons k x (fs.set key v)

/-- The object `{ ...target, ...source }`: every property of `source` assigned onto a
copy of `target`.  (A field list holds one entry per key; the order in which the
properties end up is not observable by a property read.) -/
def JsFields.assign (target : JsFields) : JsFields → JsFields
  | .nil => target
  | .cons k v rest => (target.assign rest).set k v

/-- The elements of an array as properties named by their index, from index `i` on. -/
def JsList.indexed : JsList → Nat → JsFields
  | .nil, _ => .nil
  | .cons x xs, i => .cons (toString i) x (xs.indexed (i + 1))

/-- The characters of a string as properties named by their index, from index `i` on. -/
def indexedChars : List Char → Nat → JsFields
  | [], _ => .nil
  | c :: cs, i => .cons (toString i) (.str (String.mk [c])) (indexedChars cs (i + 1))

/-- The own enumerable properties an object spread `...v` copies: the properties of an
object, the indexed elements of an array or string, nothing for any other value. -/
def JsVal.ownEntries : JsVal → JsFields
  | .obj fs => fs
  | .arr xs => xs.indexed 0
  | .str s => indexedChars s.data 0
  | _ => .nil

/-- Optional chaining `v?.key`: `undefined` on `null` and `undefined`, the property otherwise. -/
def JsVal.getOpt : JsVal → String → JsVal
  | .undefined, _ => .undefined
  | .null, _ => .undefined
  | v, key => v.get key

/-! ## `generateInvoice`

The two lookups of `generateInvoice` are joins evaluated by the store; what they find
is an input (`InvoiceEnv`).  The row object handed to the code is built from a found
join row as the `SELECT` list says: the columns `p.*` first, then the aliased columns,
a later column replacing an earlier one of the same name.  The summary aggregator
`getPyamentData` (`services/paymentService.js`) and the floating-point operations
of the property fallback figures are inputs as well. -/

/-- The columns `p.*` of a row of `payments`. -/
def PaymentRow.columns (p : PaymentRow) : JsFields :=
  .ofList
    [("id", .num p.id), ("user_id", p.user_id), ("property_id", p.property_id),
     ("total_price", p.total_price), ("amount_paid", p.amount_paid),
     ("payment_method", p.payment_method), ("payment_details", p.payment_details),
     ("status", p.status), ("payment_date", .num p.payment_date),
     ("invoice_number", p.invoice_number)]

/-- One row found by the first lookup (lines 198-207): a row of `payment`, left-joined
with its property and its user. -/
structure PropertyJoin where
  p : JsFields
  property_name : JsVal
  location : JsVal
  user_name : JsVal
  email : JsVal
  deriving DecidableEq

/-- One row found by the second lookup (lines 211-232): a row of `payments` joined with
its booking, the apartment, the unit and the user. -/
structure ApartmentJoin where
  p : PaymentRow
  property_name : JsVal
  location : JsVal
  user_name : JsVal
  email : JsVal
  booking_id : JsVal
  unit : UnitRow
  deriving DecidableEq

/-- The row object of the first query, columns in the order of lines 199-201. -/
def propertyRow (j : PropertyJoin) : JsFields :=
  ((((j.p.set "property_name" j.property_name).set "location" j.location).set
    "user_name" j.user_name).set "email" j.email).set "payment_type" (.str "property")

/-- The row object of the second query, columns in the order of lines 213-224. -/
def apartmentRow (j : ApartmentJoin) : JsFields :=
  ((((((((((j.p.columns.set "property_name" j.property_name).set "location" j.location).set
    "user_name" j.user_name).set "email" j.email).set "payment_type" (.str "apartment")).set
    "booking_id" j.booking_id).set "unit_number" (.str j.unit.unit_number)).set
    "floor_number" (.num j.unit.floor_number)).set "bedrooms" (.num j.unit.bedrooms)).set
    "bathrooms" (.num j.unit.bathrooms)).set "area" (.num j.unit.area)

/-- What `generateInvoice` receives from outside the source.

* `propertyLookup id`, `apartmentLookup id`: the rows found by the first and by the
  second query for the payment id, or the error the query throws;
* `getPyamentData user_id property_id`: the value the aggregator returns, or the error
  it throws;
* `minus a b`, `positive a`, `roundedPercent a b`: the JavaScript `a - b`, `a > 0` and
  `Math.round((a / b) * 100)`. -/
structure InvoiceEnv where
  propertyLookup : JsVal → Except String (List PropertyJoin)
  apartmentLookup : JsVal → Except String (List ApartmentJoin)
  getPyamentData : JsVal → JsVal → Except String JsVal
  minus : JsVal → JsVal → JsVal
  positive : JsVal → Bool
  roundedPercent : JsVal → JsVal → JsVal

/-- The outside calls `generateInvoice` makes. -/
inductive InvoiceOp where
  | propertyLookup
  | apartmentLookup
  | summary
  deriving DecidableEq

/-- What `generateInvoice` sends. -/
structure InvoiceResponse where
  status : Nat
  success : Bool
  message : Option String
  error : Option String
  invoice : Option JsFields
  deriving DecidableEq

/-- The outcome of one `generateInvoice` request: the answer and the outside calls made. -/
structure InvoiceRun where
  response : InvoiceResponse
  log : List InvoiceOp
  deriving DecidableEq

/-- Line 188: the payment id is missing. -/
def paymentIdRequired : InvoiceResponse :=
  { status := 400, success := false, message := some "Payment ID is required",
    error := none, invoice := none }

/-- Line 243: no lookup found a row. -/
def paymentNotFound : InvoiceResponse :=
  { status := 404, success := false, message := some "Payment not found", error := none,
    invoice := none }

/-- Line 312: the answer of the `catch`. -/
def invoiceServerError (e : String) : InvoiceResponse :=
  { status := 500, success := false, message := some "Server error while generating invoice",
    error := some e, invoice := none }

/-- Line 305: the invoice. -/
def invoiceSucceeded (invoiceData : JsFields) : InvoiceResponse :=
  { status := 200, success := true, message := none, error := none,
    invoice := some invoiceData }

/-- The object literal of lines 271-280, used when the aggregator gives no summary. -/
def summaryFallback (env : InvoiceEnv) (payment : JsFields) : JsFields :=
  .ofList
    [("full_property_price", (payment.lookup "price").or (.num 0)),
     ("deposit_amount", (payment.lookup "total_price").or (.num 0)),
     ("total_paid", (payment.lookup "amount_paid").or (.num 0)),
     ("pending_amount",
        env.minus ((payment.lookup "price").or (.num 0))
          ((payment.lookup "amount_paid").or (.num 0))),
     ("percentage_paid",
        if env.positive (payment.lookup "price")
        then env.roundedPercent (payment.lookup "amount_paid") (payment.lookup "price")
        else .num 0)]

/-- The properties added to the row of an apartment booking, lines 290-301. -/
def apartmentFigures (payment : JsFields) : JsFields :=
  .ofList
    [("full_property_price",
        ((payment.lookup "total_price").or (payment.lookup "amount_paid")).or (.num 0)),
     ("deposit_amount", (payment.lookup "amount_paid").or (.num 0)),
     ("total_paid", (payment.lookup "amount_paid").or (.num 0)),
     ("pending_amount", .num 0),
     ("percentage_paid", .num 100),
     ("unit_details", .obj (.ofList
        [("unit_number", payment.lookup "unit_number"),
         ("floor_number", payment.lookup "floor_number"),
         ("bedrooms", payment.lookup "bedrooms"),
         ("bathrooms", payment.lookup "bathrooms"),
         ("area", payment.lookup "area")]))]

/-- Lines 242-317: from the rows of the lookup that answered to the response. -/
def composeInvoice (env : InvoiceEnv) (rows : List JsFields) (log : List InvoiceOp) :
    InvoiceRun :=
  match rows with
  | [] => { response := paymentNotFound, log := log }
  | payment :: _ =>
    if payment.lookup "payment_type" = .str "property" then
      -- lines 258-285; the inner `catch` logs the error and throws it again
      match env.getPyamentData (payment.lookup "user_id") (payment.lookup "property_id") with
      | .error e => { response := invoiceServerError e, log := log ++ [.summary] }
      | .ok paymentData =>
        let figures :=
          ((paymentData.getOpt "payment_summary").or
            (.obj (summaryFallback env payment))).ownEntries
        { response := invoiceSucceeded (payment.assign figures), log := log ++ [.summary] }
    else
      -- lines 287-302
      { response := invoiceSucceeded (payment.assign (apartmentFigures payment)), log := log }

/-- The controller `generateInvoice` (lines 184-318). -/
def generateInvoice (env : InvoiceEnv) (payment_id : JsVal) : InvoiceRun :=
  if !payment_id.truthy then { response := paymentIdRequired, log := [] }
  else
    -- lines 198-207
    match env.propertyLookup payment_id with
    | .error e => { response := invoiceServerError e, log := [.propertyLookup] }
    | .ok propertyRows =>
      if propertyRows.length = 0 then
        -- lines 211-232
        match env.apartmentLookup payment_id with
        | .error e =>
          { response := invoiceServerError e, log := [.propertyLookup, .apartmentLookup] }
        | .ok apartmentRows =>
          composeInvoice env (apartmentRows.map apartmentRow)
            [.propertyLookup, .apartmentLookup]
      else composeInvoice env (propertyRows.map propertyRow) [.propertyLookup]

/-! ## `getAllUserPaymentsController`

The two queries of `getAllUserPaymentsController` are evaluated by the store; what they
find is an input (`HistoryEnv`). -/

/-- A row of either history query as the driver hands it over: `payment_date` is the
time value of the `Date` in that column, `columns` holds the other columns. -/
structure HistoryRow where
  payment_date : Nat
  columns : JsFields
  deriving DecidableEq

/-- What `getAllUserPaymentsController` receives from outside the source: the rows found
by the first query (lines 349-356) and by the second (lines 359-374) for the user id, or
the error the query throws. -/
structure HistoryEnv where
  propertyPayments : JsVal → Except String (List HistoryRow)
  apartmentPayments : JsVal → Except String (List HistoryRow)

/-- What `getAllUserPaymentsController` sends. -/
structure HistoryResponse where
  status : Nat
  success : Bool
  message : Option String
  error : Option String
  payments : Option (List HistoryRow)
  deriving DecidableEq

/-- Line 342: the user id is missing. -/
def userIdRequired : HistoryResponse :=
  { status := 400, success := false, message := some "User ID is required", error := none,
    payments := none }

/-- Line 394: the answer of the `catch`. -/
def historyServerError (e : String) : HistoryResponse :=
  { status := 500, success := false,
    message := some "Server error while fetching payment history", error := some e,
    payments := none }

/-- Line 388: the merged history. -/
def historySucceeded (allPayments : List HistoryRow) : HistoryResponse :=
  { status := 200, success := true, message := none, error := none,
    payments := some allPayments }

/-- The comparator of lines 380-382,
`new Date(b.payment_date) - new Date(a.payment_date)`. -/
def compareByDate (a b : HistoryRow) : Int := (b.payment_date : Int) - (a.payment_date : Int)

/-- The method `Array.prototype.sort` with a comparator: `a` is placed before `b` when the
comparator answers no positive number for them, and elements the comparator does not
tell apart keep their order (the sort is stable).  For a comparator that orders the
elements consistently, as a difference of two numbers does, this arrangement is the one
the language prescribes, whatever algorithm the engine runs. -/
def sortWith {α : Type} (compare : α → α → Int) (xs : List α) : List α :=
  xs.insertionSort (fun a b => compare a b ≤ 0)

/-- The controller `getAllUserPaymentsController` (lines 335-400). -/
def getAllUserPaymentsController (env : HistoryEnv) (user_id : JsVal) : HistoryResponse :=
  if !user_id.truthy then userIdRequired
  else
    -- lines 349-356
    match env.propertyPayments user_id with
    | .error e => historyServerError e
    | .ok propertyPayments =>
      -- lines 359-374
      match env.apartmentPayments user_id with
      | .error e => historyServerError e
      | .ok apartmentPayments =>
        -- lines 377-391
        let allPayments := propertyPayments ++ apartmentPayments
        historySucceeded (sortWith compareByDate allPayments)

/-! ## `PaymentForm`

The client component `PaymentForm.jsx`: the form state, `validateForm` and the request
`handleSubmit` sends.  The built-in `parseFloat` is an input. -/

/-- The state `formData.payment_details` (lines 28-34): the text of each detail input. -/
structure DetailsForm where
  card_holder : String
  card_number : String
  expiry_date : String
  cvv : String
  upi_id : String
  deriving DecidableEq

/-- The state `formData` (lines 25-35).  Every field holds a string: the initial state
does, and each update stores the `value` of an input or the result of `toString()`. -/
structure FormData where
  amount_paid : String
  payment_method : String
  payment_details : DetailsForm
  deriving DecidableEq

/-- The number `parseFloat` answers: `NaN`, an infinity, or a finite number (modelled,
like every number here, as an integer). -/
inductive Parsed where
  | nan
  | infinite (negative : Bool)
  | finite (n : Int)
  deriving DecidableEq

/-- The comparison `x <= 0`; it is false for `NaN`. -/
def Parsed.leZero : Parsed → Bool
  | .nan => false
  | .infinite negative => negative
  | .finite n => decide (n ≤ 0)

/-- The number as it arrives at the server: the request body is sent as JSON text, in
which `NaN` and the infinities are written `null`. -/
def Parsed.sent : Parsed → JsVal
  | .finite n => .num n
  | _ => .null

/-- The characters `String.prototype.trim` strips (white space and line terminators). -/
def isWhiteSpace (c : Char) : Bool :=
  [0x09, 0x0A, 0x0B, 0x0C, 0x0D, 0x20, 0xA0, 0x1680, 0x2028, 0x2029, 0x202F, 0x205F, 0x3000,
    0xFEFF].contains c.toNat || (0x2000 ≤ c.toNat && c.toNat ≤ 0x200A)

/-- The method `s.trim()`. -/
def trim (s : String) : String :=
  String.mk ((s.data.dropWhile isWhiteSpace).reverse.dropWhile isWhiteSpace).reverse

/-- The property `s.length`: the number of UTF-16 code units. -/
def jsLength (s : String) : Nat :=
  (s.data.map (fun c => if c.toNat < 0x10000 then 1 else 2)).sum

/-- The method call `s.includes(c)` for a one-character text `c`. -/
def includes (s : String) (c : Char) : Bool := s.data.contains c

/-- The function `validateForm` (lines 85-129); the calls of `setError` only change the
message shown. -/
def validateForm (parseFloat : String → Parsed) (formData : FormData) : Bool :=
  if formData.amount_paid = "" || (parseFloat formData.amount_paid).leZero then false
  else if formData.payment_method = "credit_card" then
    if trim formData.payment_details.card_holder = "" then false
    else if trim formData.payment_details.card_number = "" ||
        jsLength formData.payment_details.card_number < 16 then false
    else if trim formData.payment_details.expiry_date = "" ||
        !includes formData.payment_details.expiry_date '/' then false
    else if trim formData.payment_details.cvv = "" ||
        jsLength formData.payment_details.cvv < 3 then false
    else true
  else if formData.payment_method = "upi" then
    if trim formData.payment_details.upi_id = "" ||
        !includes formData.payment_details.upi_id '@' then false
    else true
  else true

/-- The props of the component (lines 11-19), as passed by the parent; a prop that is
not passed is `undefined`. -/
structure FormProps where
  propertyId : JsVal
  userId : JsVal
  propertyPrice : JsVal
  propertyName : JsVal
  isApartment : JsVal
  unitId : JsVal
  deriving DecidableEq

/-- A destructured prop with a default value: the default replaces `undefined` only. -/
def withDefault (v fallback : JsVal) : JsVal := if v = .undefined then fallback else v

/-- The object `paymentDetailsToSend` of lines 145-160. -/
def paymentDetailsToSend (formData : FormData) : JsFields :=
  let initial : JsFields :=
    .ofList
      [("card_holder", .null), ("card_number", .null), ("expiry_date", .null),
       ("cvv", .null), ("upi_id", .null)]
  if formData.payment_method = "credit_card" then
    (((initial.set "card_holder" (.str formData.payment_details.card_holder)).set
      "card_number" (.str formData.payment_details.card_number)).set
      "expiry_date" (.str formData.payment_details.expiry_date)).set
      "cvv" (.str formData.payment_details.cvv)
  else if formData.payment_method = "upi" then
    initial.set "upi_id" (.str formData.payment_details.upi_id)
  else initial

/-- The object `paymentData` of lines 162-173 as the server parses it from the request. -/
def paymentData (parseFloat : String → Parsed) (props : FormProps) (formData : FormData) :
    JsFields :=
  .ofList
    [("user_id", props.userId),
     ("property_id", props.propertyId),
     ("total_price", props.propertyPrice),
     ("amount_paid", (parseFloat formData.amount_paid).sent),
     ("payment_method", .str formData.payment_method),
     ("payment_details", .obj (paymentDetailsToSend formData)),
     ("status", .str "completed"),
     ("is_apartment", withDefault props.isApartment (.bool false)),
     ("unit_id", withDefault props.unitId .null),
     ("property_name", props.propertyName)]

/-- The request `handleSubmit` posts. -/
structure Submission where
  endpoint : String
  body : JsFields
  deriving DecidableEq

/-- The function `handleSubmit` (lines 131-181) up to the request it posts: `none` when
`validateForm` rejects the form and nothing is sent. -/
def handleSubmit (parseFloat : String → Parsed) (props : FormProps) (formData : FormData) :
    Option Submission :=
  if !validateForm parseFloat formData then none
  else
    some
      { endpoint :=
          if (withDefault props.isApartment (.bool false)).truthy
          then "http://localhost:3000/api/apartments/bookings"
          else "http://localhost:3000/api/payment"
        body := paymentData parseFloat props formData }

/-- The destructuring of `req.body` in `createPayment` (lines 14-23). -/
def PaymentRequest.ofBody (body : JsFields) : PaymentRequest :=
  { user_id := body.lookup "user_id"
    property_id := body.lookup "property_id"
    total_price := body.lookup "total_price"
    amount_paid := body.lookup "amount_paid"
    payment_method := body.lookup "payment_method"
    payment_details := body.lookup "payment_details"
    status := body.lookup "status"
    invoice_number := body.lookup "invoice_number" }

/-- The destructuring of `req.body` in `bookApartment` (lines 251-261). -/
def BookingRequest.ofBody (body : JsFields) : BookingRequest :=
  { user_id := body.lookup "user_id"
    property_id := body.lookup "property_id"
    unit_id := body.lookup "unit_id"
    total_price := body.lookup "total_price"
    amount_paid := body.lookup "amount_paid"
    payment_method := body.lookup "payment_method"
    payment_details := body.lookup "payment_details"
    status := body.lookup "status"
    property_name := body.lookup "property_name" }

/-- The text is not blank: it has a character that is not white space. -/
def NonBlank (s : String) : Prop := ∃ c ∈ s.data, isWhiteSpace c = false

/-! ## The second lookup of `generateInvoice` over the booking tables -/

/-- A row of `apartments` (the columns the lookup reads). -/
structure ApartmentInfo where
  id : Nat
  name : JsVal
  location : JsVal
  deriving DecidableEq

/-- A row of `users`; `user_name` is `CONCAT(first_name, ' ', last_name)`. -/
structure UserInfo where
  id : Nat
  user_name : JsVal
  email : JsVal
  deriving DecidableEq

/-- The rows the second query of `generateInvoice` (lines 211-232) finds in the given
tables: `payments` inner-joined with `apartment_bookings` on the payment id, with
`apartments` on the booking's `apartment_id`, with `apartment_units` on the booking's
`unit_id` and with `users` on the payment's `user_id`, for the payment the bound
parameter is compared equal to.  `idOf` is the comparison of `Env`. -/
def apartmentInvoiceRows (idOf : JsVal → Option Nat) (db : Store)
    (apartments : List ApartmentInfo) (users : List UserInfo) (payment_id : JsVal) :
    List ApartmentJoin :=
  (db.payments.filter (fun p => idOf payment_id = some p.id)).flatMap fun p =>
  (db.apartment_bookings.filter (fun ab => ab.payment_id = p.id)).flatMap fun ab =>
  (apartments.filter (fun apt => idOf ab.apartment_id = some apt.id)).flatMap fun apt =>
  (db.apartment_units.filter (fun au => idOf ab.unit_id = some au.id)).flatMap fun au =>
  (users.filter (fun u => idOf p.user_id = some u.id)).map fun u =>
    { p := p, property_name := apt.name, location := apt.location,
      user_name := u.user_name, email := u.email, booking_id := .num ab.id, unit := au }

/-! ## Concurrent calls of `bookApartment`

`bookApartment` is an `async` function: at every `await` of a store call the request is
suspended and another request may run.  `Stage` is the point at which a request is
suspended, `InFlight.step` runs it from there to its next `await`.  What the store does
with the calls of several open transactions is taken from section 5 of the
specification (`Txn`). -/

/-- Modelled from the spec: the open transaction of one connection in the store section 5
asks for, a store with read-committed isolation and row write locks.  The store itself
is not part of the source.  `writes` are the writes the transaction has made and not
committed, in the order made; `locked` are the ids of the `apartment_units` rows it has
updated and holds the write lock of until it commits or rolls back. -/
structure Txn where
  writes : List (Store → Store)
  locked : List Nat

/-- Modelled from the spec: read-committed isolation.  A query reads the tables as they
are committed at the moment of the query, with the uncommitted writes of its own
transaction applied; it sees no uncommitted write of another transaction.  A plain
`SELECT` takes no lock and waits for none. -/
def Txn.read (committed : Store) : Option Txn → Store
  | none => committed
  | some t => t.writes.foldl (fun s f => f s) committed

/-- Modelled from the spec: the write lock.  An `UPDATE` of the unit rows with id `u`
waits while another open transaction holds the write lock of such a row. -/
def mustWait (peerLocked : List Nat) (u : Option Nat) : Bool :=
  match u with
  | some id => peerLocked.contains id
  | none => false

/-- Modelled from the spec: commit.  The writes of the transaction are applied to the
committed tables.  (Every write of `bookApartment` touches rows the transaction has
inserted or holds the write lock of.) -/
def Txn.commit (committed : Store) (t : Option Txn) : Store := Txn.read committed t

/-- The store call a suspended request awaits, with the local variables that are live
there; `answered r`: the request has sent `r` and has ended. -/
inductive Stage where
  | getConnection  -- line 318
  | beginTransaction  -- line 321
  | insertPayment  -- lines 324-344
  | insertDemoBooking (stripped : String)  -- lines 355-375, the demo unit
  | selectUnit  -- lines 378-381
  | rollbackUnavailable  -- line 385, after no available row was selected
  | insertBooking  -- lines 392-403
  | updateUnit  -- lines 406-409
  | stampInvoice (invoiceNumber : String)  -- lines 418-421
  | commit (invoiceNumber : String)  -- line 423
  | rollbackFailed (e : String)  -- line 434, the rollback of the catch entered with e
  | answered (r : Response)
  deriving DecidableEq

/-- A request in flight: what it receives from outside, its body, where it is suspended,
the store calls it has made and the transaction of its connection (`none`: none is
open). -/
structure InFlight where
  env : Env
  req : BookingRequest
  stage : Stage
  log : List Op
  txn : Option Txn

/-- The request as it arrives: lines 251-315 run without suspension. -/
def InFlight.start (env : Env) (req : BookingRequest) : InFlight :=
  { env := env, req := req, log := [], txn := none
    stage :=
      match validateBooking req with
      | some r => .answered r
      | none => .getConnection }

/-- The error with which the next store call of the request throws, if it does. -/
def InFlight.thrown (c : InFlight) : Option String := c.env.fault c.log.length

/-- The request after one more store call has been made. -/
def InFlight.logged (op : Op) (c : InFlight) : InFlight := { c with log := c.log ++ [op] }

/-- A write inside the open transaction. -/
def InFlight.write (f : Store → Store) (c : InFlight) : InFlight :=
  { c with txn := c.txn.map (fun t => { t with writes := t.writes ++ [f] }) }

/-- The transaction of the connection has ended (commit or rollback): its writes are no
longer pending and its locks are released. -/
def InFlight.closed (c : InFlight) : InFlight := { c with txn := none }

/-- The transaction takes the write lock of the unit rows with id `u`. -/
def InFlight.lock (u : Option Nat) (c : InFlight) : InFlight :=
  { c with txn := c.txn.map (fun t => { t with locked := t.locked ++ u.toList }) }

/-- The jump into the `catch` of line 433 with the error `e`. -/
def InFlight.caught (e : String) (c : InFlight) : InFlight := { c with stage := .rollbackFailed e }

/-- The answer is sent and the `finally` of line 442 releases the connection. -/
def InFlight.answer (r : Response) (c : InFlight) : InFlight :=
  { c.logged .release with stage := .answered r }

/-- The unit rows the transaction of the request holds the write lock of. -/
def InFlight.locked (c : InFlight) : List Nat :=
  match c.txn with
  | some t => t.locked
  | none => []

/-- Lines 412-415, which follow either booking insert without suspension: the invoice
reference is built and the request awaits the stamp. -/
def InFlight.toInvoice (c : InFlight) : InFlight :=
  match invoiceNumberOf c.req.property_id c.env.dateNow with
  | none => c.caught typeError
  | some invoiceNumber => { c with stage := .stampInvoice invoiceNumber }

/-- One turn of a suspended request: the store call it awaits is made on the committed
tables `committed` while the other open transactions hold the write locks `peerLocked`,
and the request runs on to its next `await` or to its end.  The result is the request
and the committed tables afterwards.  A request whose `UPDATE` must wait stays where it
is. -/
def InFlight.step (committed : Store) (peerLocked : List Nat) (c : InFlight) :
    InFlight × Store :=
  match c.stage with
  | .answered _ => (c, committed)
  | .getConnection =>
    match c.thrown with
    | some e => ({ c.logged .getConnection with stage := .answered (bookingServerError e) },
        committed)
    | none => ({ c.logged .getConnection with stage := .beginTransaction }, committed)
  | .beginTransaction =>
    match c.thrown with
    | some e => ((c.logged .beginTransaction).caught e, committed)
    | none =>
      ({ c.logged .beginTransaction with
          txn := some { writes := [], locked := [] }, stage := .insertPayment }, committed)
  | .insertPayment =>
    match c.thrown with
    | some e => ((c.logged .insertPayment).caught e, committed)
    | none =>
      let c1 := (c.logged .insertPayment).write
        (fun s => { s with payments := s.payments ++ [paymentRowOf c.env c.req] })
      -- line 349
      match c.req.unit_id.callToString with
      | none => (c1.caught typeError, committed)
      | some text =>
        if startsWith text fallbackMarker then
          match c.req.unit_id.replaceFallback with
          | none => (c1.caught typeError, committed)
          | some stripped => ({ c1 with stage := .insertDemoBooking stripped }, committed)
        else ({ c1 with stage := .selectUnit }, committed)
  | .insertDemoBooking stripped =>
    match c.thrown with
    | some e => ((c.logged .insertBooking).caught e, committed)
    | none =>
      (((c.logged .insertBooking).write (fun s => { s with apartment_bookings :=
          s.apartment_bookings ++
            [fallbackBookingRowOf c.env c.req c.env.paymentInsertId stripped] })).toInvoice,
        committed)
  | .selectUnit =>
    match c.thrown with
    | some e => ((c.logged .selectUnit).caught e, committed)
    | none =>
      let unitResult := selectAvailable c.env c.req.unit_id (Txn.read committed c.txn)
      if unitResult.length = 0 then
        ({ c.logged .selectUnit with stage := .rollbackUnavailable }, committed)
      else ({ c.logged .selectUnit with stage := .insertBooking }, committed)
  | .rollbackUnavailable =>
    match c.thrown with
    | some e => ((c.logged .rollback).caught e, committed)
    | none => ((c.logged .rollback).closed.answer unitUnavailable, committed)
  | .insertBooking =>
    match c.thrown with
    | some e => ((c.logged .insertBooking).caught e, committed)
    | none =>
      ({ (c.logged .insertBooking).write (fun s => { s with apartment_bookings :=
            s.apartment_bookings ++ [bookingRowOf c.env c.req c.env.paymentInsertId] }) with
          stage := .updateUnit }, committed)
  | .updateUnit =>
    if mustWait peerLocked (c.env.idOf c.req.unit_id) then (c, committed)
    else
      match c.thrown with
      | some e => ((c.logged .updateUnit).caught e, committed)
      | none =>
        ((((c.logged .updateUnit).lock (c.env.idOf c.req.unit_id)).write
            (markBooked c.env c.req.unit_id)).toInvoice, committed)
  | .stampInvoice invoiceNumber =>
    match c.thrown with
    | some e => ((c.logged .stampInvoice).caught e, committed)
    | none =>
      ({ (c.logged .stampInvoice).write (stampInvoice invoiceNumber c.env.paymentInsertId) with
          stage := .commit invoiceNumber }, committed)
  | .commit invoiceNumber =>
    match c.thrown with
    | some e => ((c.logged .commit).caught e, committed)
    | none =>
      ((c.logged .commit).closed.answer (bookingSucceeded c.env.paymentInsertId invoiceNumber),
        Txn.commit committed c.txn)
  | .rollbackFailed e =>
    match c.thrown with
    | some e2 => ((c.logged .rollback).answer (bookingServerError e2), committed)
    | none => ((c.logged .rollback).closed.answer (bookingFailed e), committed)

/-- A request run alone for the given number of turns. -/
def InFlight.alone : Nat → InFlight → Store → InFlight × Store
  | 0, c, committed => (c, committed)
  | n + 1, c, committed =>
    match c.step committed [] with
    | (c1, committed1) => InFlight.alone n c1 committed1

/-- The connection of a request in flight in the form in which `bookApartment` leaves
it: the tables of the open transaction are what the transaction reads. -/
def InFlight.conn (committed : Store) (c : InFlight) : Conn :=
  { committed := committed
    txn := c.txn.map (fun t => Txn.read committed (some t))
    log := c.log }

/-- The outcome of a request that has ended; `none` while it is suspended. -/
def InFlight.ended (s : InFlight × Store) : Option Run :=
  match s.1.stage with
  | .answered r => some { response := r, conn := s.1.conn s.2 }
  | _ => none

/-- Lines 433-442 as a function of the outcome of the inner `try`: the `catch`, then the
`finally`. -/
def settle (env : Env) : Except String Response × Conn → Run
  | (.ok r, w) => { response := r, conn := w.logged .release }
  | (.error e, w) =>
    match thrown env w with
    | some e2 =>
      { response := bookingServerError e2, conn := (w.logged .rollback).logged .release }
    | none =>
      { response := bookingFailed e, conn := (w.logged .rollback).rollbackTxn.logged .release }

/-- Two requests in flight over one store. -/
structure Concurrent where
  committed : Store
  first : InFlight
  second : InFlight

/-- Two requests arrive at a store with the committed tables `db`. -/
def Concurrent.start (db : Store) (first second : Call) : Concurrent :=
  { committed := db
    first := InFlight.start first.1 first.2
    second := InFlight.start second.1 second.2 }

/-- One turn of the event loop: the second request runs when `turn` is `true`, the first
otherwise. -/
def Concurrent.step (s : Concurrent) (turn : Bool) : Concurrent :=
  if turn then
    match s.second.step s.committed s.first.locked with
    | (c, committed) => { s with committed := committed, second := c }
  else
    match s.first.step s.committed s.second.locked with
    | (c, committed) => { s with committed := committed, first := c }

/-- The turns of a schedule, taken one after the other. -/
def Concurrent.run (s : Concurrent) (schedule : List Bool) : Concurrent :=
  schedule.foldl Concurrent.step s

/-- The confirmed bookings of the real unit with id `u` in the tables, as `idOf`
compares their `unit_id`. -/
def confirmedFor (idOf : JsVal → Option Nat) (u : Nat) (s : Store) : List BookingRow :=
  s.apartment_bookings.filter (fun b => idOf b.unit_id = some u && b.status = "confirmed")

/-! ## Sample data -/

/-- Complete card details. -/
def sampleCard : JsVal :=
  .obj (.ofList
    [("card_holder", .str "A. Buyer"), ("card_number", .str "4111111111111111"),
     ("expiry_date", .str "12/30"), ("cvv", .str "123"), ("upi_id", .null)])

/-- Unit 42 of apartment 9, available. -/
def sampleUnit : UnitRow :=
  { id := 42, apartment_id := 9, unit_number := "A-42", floor_number := 4, price := 1000,
    bedrooms := 2, bathrooms := 1, area := 900, status := "available" }

/-- A store holding the one available unit and nothing else. -/
def sampleStore : Store :=
  { payments := [], apartment_bookings := [], apartment_units := [sampleUnit] }

/-- The same store with the unit already booked. -/
def bookedStore : Store :=
  { payments := [], apartment_bookings := [],
    apartment_units := [{ sampleUnit with status := "booked" }] }

/-- A store that compares a non-negative number with the id of that value, and in which
no call fails. -/
def sampleEnv : Env :=
  { fault := fun _ => none
    paymentInsertId := 7
    bookingInsertId := 3
    storeNow := 1700000000
    dateNow := 1700000000123
    idOf := fun v =>
      match v with
      | .num n => if 0 ≤ n then some n.toNat else none
      | _ => none }

/-- Booking unit 42 for user 1 with amount 1000, paid by card. -/
def sampleRequest : BookingRequest :=
  { user_id := .num 1, property_id := .num 9, unit_id := .num 42, total_price := .undefined,
    amount_paid := .num 1000, payment_method := .str "card", payment_details := sampleCard,
    status := .undefined, property_name := .undefined }

/-- The sample request without its `unit_id`. -/
def incompleteRequest : BookingRequest := { sampleRequest with unit_id := .undefined }

/-- Details of a UPI payment with the given id. -/
def upiDetails (upi : String) : JsVal :=
  .obj (.ofList
    [("card_holder", .null), ("card_number", .null), ("expiry_date", .null), ("cvv", .null),
     ("upi_id", .str upi)])

/-- The sample booking paid by UPI with the given id. -/
def upiBooking (upi : String) : BookingRequest :=
  { sampleRequest with payment_method := .str "upi", payment_details := upiDetails upi }

/-- A standalone payment of 500 for property 9 by user 1, paid by card. -/
def samplePayment : PaymentRequest :=
  { user_id := .num 1, property_id := .num 9, total_price := .num 5000,
    amount_paid := .num 500, payment_method := .str "credit_card",
    payment_details := sampleCard, status := .str "completed", invoice_number := .undefined }

/-- The sample payment paid by UPI with the given id. -/
def upiPayment (upi : String) : PaymentRequest :=
  { samplePayment with payment_method := .str "upi", payment_details := upiDetails upi }

/-- Card details with a one-digit card number and a one-digit CVV. -/
def shortCard : JsVal :=
  .obj (.ofList
    [("card_holder", .str "A. Buyer"), ("card_number", .str "1"),
     ("expiry_date", .str "12/30"), ("cvv", .str "1")])

/-- Complete card details that also carry a UPI id. -/
def mixedDetails : JsVal :=
  .obj (.ofList
    [("card_holder", .str "A. Buyer"), ("card_number", .str "4111111111111111"),
     ("expiry_date", .str "12/30"), ("cvv", .str "123"), ("upi_id", .str "buyer@bank")])

/-- The sample booking with the short card details. -/
def shortCardBooking : BookingRequest := { sampleRequest with payment_details := shortCard }

/-- The sample payment with the short card details. -/
def shortCardPayment : PaymentRequest := { samplePayment with payment_details := shortCard }

/-- The sample card payment whose details also carry a UPI id. -/
def mixedPayment : PaymentRequest := { samplePayment with payment_details := mixedDetails }

/-- A persistence service that stores every record it is handed. -/
def acceptingService : PaymentModel → Except String ServiceResult :=
  fun _ => .ok { success := true, message := "Payment recorded" }

/-- The names of the five payment-detail fields. -/
def detailKeys : List String := ["card_holder", "card_number", "expiry_date", "cvv", "upi_id"]

/-- The sample store answers, except that the fifth store call of the request (call
number 4) fails with a deadlock. -/
def deadlockEnv : Env :=
  { sampleEnv with fault := fun k => if k = 4 then some "ER_LOCK_DEADLOCK" else none }

/-- The sample booking of the demo unit `fallback-7` with amount 500. -/
def fallbackRequest : BookingRequest :=
  { sampleRequest with unit_id := .str "fallback-7", amount_paid := .num 500 }

/-- The sample store without any unit row. -/
def emptyStore : Store := { payments := [], apartment_bookings := [], apartment_units := [] }

/-- The sample booking with a negative amount. -/
def negativeBooking : BookingRequest := { sampleRequest with amount_paid := .num (-1000) }

/-- The sample payment with a negative amount. -/
def negativePayment : PaymentRequest := { samplePayment with amount_paid := .num (-500) }

/-- The sample store answers, one second-fraction later, with other generated ids. -/
def laterEnv : Env :=
  { sampleEnv with paymentInsertId := 8, bookingInsertId := 4, dateNow := 1700000000999 }

/-- Another user booking the demo unit of the same property with another amount, by UPI. -/
def otherRequest : BookingRequest :=
  { (upiBooking "name@bank") with
    user_id := .num 2, unit_id := .str "fallback-3", amount_paid := .num 250 }

/-- A row of `payment` for property 9 by user 1, joined with its property and user. -/
def samplePropertyJoin : PropertyJoin :=
  { p := .ofList
      [("id", .num 5), ("user_id", .num 1), ("property_id", .num 9),
       ("total_price", .num 5000), ("amount_paid", .num 500),
       ("payment_method", .str "upi"), ("status", .str "completed"),
       ("invoice_number", .null)]
    property_name := .str "Lake View", location := .str "Pune",
    user_name := .str "A. Buyer", email := .str "buyer@example.org" }

/-- The payment row of the sample booking, joined with its booking, apartment, unit and user. -/
def sampleApartmentJoin : ApartmentJoin :=
  { p := { paymentRowOf sampleEnv sampleRequest with
      invoice_number := .str "APT-9-1700000000" }
    property_name := .str "Lake Towers", location := .str "Pune",
    user_name := .str "A. Buyer", email := .str "buyer@example.org",
    booking_id := .num 3, unit := { sampleUnit with status := "booked" } }

/-- A value the aggregator returns for user 1 and property 9. -/
def sampleSummaryData : JsVal :=
  .obj (.ofList
    [("payment_summary", .obj (.ofList
      [("full_property_price", .num 50000), ("deposit_amount", .num 5000),
       ("total_paid", .num 1500), ("pending_amount", .num 3500),
       ("percentage_paid", .num 3)]))])

/-- An environment in which payment id `5` is found by the first lookup and also, like
id `7`, by the second; the aggregator answers `summary`; the arithmetic is that of
integers (operands that are not numbers do not occur in the samples and give `null`). -/
def sampleInvoiceEnv (summary : Except String JsVal) : InvoiceEnv :=
  { propertyLookup := fun id => if id = .str "5" then .ok [samplePropertyJoin] else .ok []
    apartmentLookup := fun id =>
      if id = .str "5" ∨ id = .str "7" then .ok [sampleApartmentJoin] else .ok []
    getPyamentData := fun _ _ => summary
    minus := fun a b =>
      match a, b with
      | .num x, .num y => .num (x - y)
      | _, _ => .null
    positive := fun a =>
      match a with
      | .num x => decide (0 < x)
      | _ => false
    roundedPercent := fun a b =>
      match a, b with
      | .num x, .num y => .num ((200 * x + y) / (2 * y))
      | _, _ => .null }

/-- A store connection that is handed out and then lost: every later store call fails. -/
def lostConnectionEnv : Env :=
  { sampleEnv with fault := fun k => if k = 0 then none else some "ECONNRESET" }

/-- The sample payment sent with the legacy method name `card`. -/
def cardPayment : PaymentRequest := { samplePayment with payment_method := .str "card" }

/-- A model instance holding the fields of `cardPayment` as they are. -/
def cardModel : PaymentModel :=
  { user_id := cardPayment.user_id, property_id := cardPayment.property_id,
    total_price := cardPayment.total_price, amount_paid := cardPayment.amount_paid,
    payment_method := cardPayment.payment_method,
    payment_details := cardPayment.payment_details, status := cardPayment.status,
    payment_date := 0, invoice_number := .null }

/-- A model instance holding the fields of `samplePayment` as they are. -/
def sampleModel : PaymentModel := { cardModel with payment_method := .str "credit_card" }

/-- The sample booking of unit 42 (a unit of apartment 9) sent for apartment 8. -/
def crossRequest : BookingRequest := { sampleRequest with property_id := .num 8 }

/-- The value of a text that is a run of decimal digits; `none` for any other text. -/
def digitsValue : List Char → Option Nat
  | [] => none
  | cs => cs.foldl (fun acc c =>
      match acc with
      | some n => if c.isDigit then some (10 * n + (c.toNat - 48)) else none
      | none => none) (some 0)

/-- A store that compares a non-negative number, or a text of decimal digits, with the
id of that value (a route parameter is a text); the ids it generates are 11 and 4. -/
def textEnv : Env :=
  { sampleEnv with
    paymentInsertId := 11
    bookingInsertId := 4
    idOf := fun v =>
      match v with
      | .num n => if 0 ≤ n then some n.toNat else none
      | .str s => digitsValue s.data
      | _ => none }

/-- Apartment 9. -/
def sampleApartments : List ApartmentInfo :=
  [{ id := 9, name := .str "Lake Towers", location := .str "Pune" }]

/-- User 1. -/
def sampleUsers : List UserInfo :=
  [{ id := 1, user_name := .str "A. Buyer", email := .str "buyer@example.org" }]

/-- An invoice environment whose second lookup reads the given tables and whose first
lookup finds nothing. -/
def storeInvoiceEnv (idOf : JsVal → Option Nat) (db : Store) : InvoiceEnv :=
  { sampleInvoiceEnv (.ok .null) with
    propertyLookup := fun _ => .ok []
    apartmentLookup := fun id =>
      .ok (apartmentInvoiceRows idOf db sampleApartments sampleUsers id) }

/-- A history row with the given payment date, id and payment type. -/
def historyRow (date : Nat) (id : Int) (type : String) : HistoryRow :=
  { payment_date := date
    columns := .ofList [("id", .num id), ("payment_type", .str type)] }

/-- User 1 has two property payments and one apartment payment; the apartment payment
and the second property payment carry the same date. -/
def sampleHistoryEnv : HistoryEnv :=
  { propertyPayments := fun user =>
      if user = .str "1" then
        .ok [historyRow 1700000000000 5 "property", historyRow 1700000500000 6 "property"]
      else .ok []
    apartmentPayments := fun user =>
      if user = .str "1" then .ok [historyRow 1700000500000 7 "apartment"] else .ok [] }

/-- What `parseFloat` answers on the amount texts of the samples, `1000` and `abc`: the
value of a short text of decimal digits, `NaN` for a text that does not begin like a
number.  (On other texts, such as `12.5` or `-3`, this sample function answers `NaN`
and is not what JavaScript computes.) -/
def sampleParseFloat (s : String) : Parsed :=
  match digitsValue s.data with
  | some n => .finite n
  | none => .nan

/-- The form filled in for a card payment of 1000. -/
def sampleForm : FormData :=
  { amount_paid := "1000", payment_method := "credit_card"
    payment_details :=
      { card_holder := "A. Buyer", card_number := "4111111111111111",
        expiry_date := "12/30", cvv := "123", upi_id := "" } }

/-- The sample form with an amount text that is no number. -/
def nanForm : FormData := { sampleForm with amount_paid := "abc" }

/-- The form filled in for a UPI payment of 1000. -/
def upiForm : FormData :=
  { amount_paid := "1000", payment_method := "upi"
    payment_details :=
      { card_holder := "", card_number := "", expiry_date := "", cvv := "",
        upi_id := "name@bank" } }

/-- The props of the form shown for unit 42 of apartment 9 to user 1. -/
def sampleProps : FormProps :=
  { propertyId := .num 9, userId := .num 1, propertyPrice := .num 1000,
    propertyName := .str "Lake Towers", isApartment := .bool true, unitId := .num 42 }

/-- User 2 books unit 42 like the sample request does. -/
def rivalRequest : BookingRequest := { sampleRequest with user_id := .num 2 }

/-- The first request takes four turns: it gets its connection, begins its transaction,
inserts its payment and selects the unit. -/
def firstChecks : List Bool := List.replicate 4 false

/-- The second request takes eight turns, from its arrival to its answer. -/
def secondRuns : List Bool := List.replicate 8 true

/-- The first request takes its remaining four turns: booking insert, unit update,
invoice stamp, commit. -/
def firstFinishes : List Bool := List.replicate 4 false

/-- The second request arrives after the `SELECT` of the first and is answered before
the first goes on. -/
def overtakingSchedule : List Bool := firstChecks ++ secondRuns ++ firstFinishes

/-- The two requests take turns one store call at a time, the first one beginning. -/
def alternatingSchedule : List Bool := (List.replicate 10 [false, true]).flatten

/-- The second request arrives after the first has been answered. -/
def sequentialSchedule : List Bool := List.replicate 8 false ++ List.replicate 8 true

/-- The two requests for unit 42 arrive at the sample store; the store inserts the rows
of the first request before those of the second (ids 7 and 3, then 8 and 4). -/
def rivals : Concurrent :=
  Concurrent.start sampleStore (sampleEnv, sampleRequest) (laterEnv, rivalRequest)

/-- What the first request receives when it is overtaken: its payment is inserted first
(id 7), its booking last (id 4), and it reads the clock last. -/
def overtakenEnv : Env := { sampleEnv with bookingInsertId := 4, dateNow := 1700000000999 }

/-- What the second request receives when it overtakes: its payment is inserted last
(id 8), its booking first (id 3). -/
def overtakingEnv : Env := { sampleEnv with paymentInsertId := 8, dateNow := 1700000000500 }

/-- The two requests for unit 42 arrive at the sample store; the second will overtake the
first. -/
def lateRivals : Concurrent :=
  Concurrent.start sampleStore (overtakenEnv, sampleRequest) (overtakingEnv, rivalRequest)

/-! # Theorems -/

open Op

/-! ## How one call changes the connection -/

/-- No row is selected when no row of that id is available. -/
theorem selectAvailable_eq_nil (env : Env) (v : JsVal) (s : Store)
    (h : ∀ u ∈ s.apartment_units, env.idOf v = some u.id → u.status ≠ "available") :
    selectAvailable env v s = [] := by
  unfold selectAvailable
  rw [List.filter_eq_nil_iff]
  intro u hu
  specialize h u hu
  by_cases hid : env.idOf v = some u.id
  · simp [hid, h hid]
  · simp [hid]

/-- A row is selected when a row of that id is available. -/
theorem selectAvailable_ne_nil (env : Env) (v : JsVal) (s : Store)
    (h : ∃ u ∈ s.apartment_units, env.idOf v = some u.id ∧ u.status = "available") :
    selectAvailable env v s ≠ [] := by
  obtain ⟨u, hu, hid, hst⟩ := h
  intro hnil
  have hmem : u ∈ selectAvailable env v s := by
    simp [selectAvailable, hu, hid, hst]
  rw [hnil] at hmem
  simp at hmem

/-- A request that validation rejects is answered without success. -/
theorem validateBooking_failure (req : BookingRequest) (r : Response)
    (h : validateBooking req = some r) : r.status = 400 ∧ r.success = false := by
  simp only [validateBooking, checkMethodAndDetails] at h
  repeat' split at h
  all_goals first | (injection h with h; subst h; exact ⟨rfl, rfl⟩) | simp at h

/-- What the unit branch leaves behind: the committed tables are untouched; an early
answer is the unit-unavailable one; on completion the unit rows of the transaction are
those before (demo unit) or those with the addressed unit marked (real unit). -/
theorem bookUnit_result (env : Env) (req : BookingRequest) (pid : Nat) (w : Conn)
    (s : Store) (hs : w.txn = some s) :
    (bookUnit env req pid w).2.committed = w.committed ∧
    (∀ r, (bookUnit env req pid w).1 = .ok (some r) →
      r = unitUnavailable ∧ (bookUnit env req pid w).2.txn = none) ∧
    ((bookUnit env req pid w).1 = .ok none →
      ∃ text s', req.unit_id.callToString = some text ∧
        (bookUnit env req pid w).2.txn = some s' ∧
        ((startsWith text fallbackMarker = true ∧
            s'.apartment_units = s.apartment_units) ∨
          (startsWith text fallbackMarker = false ∧
            selectAvailable env req.unit_id s ≠ [] ∧
            s'.apartment_units = (markBooked env req.unit_id s).apartment_units))) := by
  unfold bookUnit
  simp only [Conn.write, Conn.logged, Conn.view, Conn.rollbackTxn, hs, Option.getD_some,
    Option.map_some']
  repeat' split
  all_goals simp_all [markBooked]

/-- What the tail of the transaction leaves behind: on an error the committed tables
are untouched; on completion the answer is a success and the committed unit rows are
those of the transaction. -/
theorem finishBooking_result (env : Env) (req : BookingRequest) (pid : Nat) (w : Conn)
    (s : Store) (hs : w.txn = some s) :
    (∀ e, (finishBooking env req pid w).1 = .error e →
      (finishBooking env req pid w).2.committed = w.committed) ∧
    (∀ r, (finishBooking env req pid w).1 = .ok r →
      r.success = true ∧
      (finishBooking env req pid w).2.committed.apartment_units = s.apartment_units) := by
  unfold finishBooking
  simp only [Conn.write, Conn.logged, Conn.view, Conn.commitTxn, hs, Option.getD_some,
    Option.map_some']
  repeat' split
  all_goals simp_all [stampInvoice, bookingSucceeded]

/-- What the transaction body leaves behind. -/
theorem transaction_result (env : Env) (req : BookingRequest) (w : Conn) :
    (∀ e, (transaction env req w).1 = .error e →
      (transaction env req w).2.committed = w.committed) ∧
    (∀ r, (transaction env req w).1 = .ok r →
      (r.success = false ∧ (transaction env req w).2.committed = w.committed) ∨
      (r.success = true ∧
        ∃ text, req.unit_id.callToString = some text ∧
          ((startsWith text fallbackMarker = true ∧
            (transaction env req w).2.committed.apartment_units =
              w.committed.apartment_units) ∨
          (startsWith text fallbackMarker = false ∧
            selectAvailable env req.unit_id w.committed ≠ [] ∧
            (transaction env req w).2.committed.apartment_units =
              (markBooked env req.unit_id w.committed).apartment_units)))) := by
  have hU := bookUnit_result env req env.paymentInsertId
    (Conn.write (fun s => { s with payments := s.payments ++ [paymentRowOf env req] })
      (Conn.logged .insertPayment (Conn.beginTxn (w.logged .beginTransaction))))
    { w.committed with payments := w.committed.payments ++ [paymentRowOf env req] } rfl
  obtain ⟨hc, hret, hnext⟩ := hU
  cases h0 : thrown env w with
  | some e => simp [transaction, h0, Conn.logged]
  | none =>
    cases h1 : thrown env (Conn.beginTxn (w.logged .beginTransaction)) with
    | some e =>
      simp only [transaction, h0, h1]
      simp [Conn.logged, Conn.beginTxn]
    | none =>
      simp only [transaction, h0, h1]
      rcases hb : bookUnit env req env.paymentInsertId
        (Conn.write (fun s => { s with payments := s.payments ++ [paymentRowOf env req] })
          (Conn.logged .insertPayment (Conn.beginTxn (w.logged .beginTransaction))))
        with ⟨res, w3⟩
      rw [hb] at hc hret hnext
      simp only [Conn.write, Conn.logged, Conn.beginTxn] at hc
      rcases res with e | (_ | r)
      · simp [hc]
      · obtain ⟨text, s', hts, htxn, hunits⟩ := hnext rfl
        have hF := finishBooking_result env req env.paymentInsertId w3 s' htxn
        simp only [] at hc htxn
        refine ⟨fun e he => ?_, fun r hr => ?_⟩
        · rw [hF.1 e he, hc]
        · right
          obtain ⟨hsucc, hfin⟩ := hF.2 r hr
          refine ⟨hsucc, text, hts, ?_⟩
          rw [hfin]
          simpa [selectAvailable, markBooked] using hunits
      · obtain ⟨rfl, -⟩ := hret r rfl
        simp [hc, unitUnavailable, failure]

/-- What a call can do to the committed tables: an unsuccessful call leaves them as
they were; a successful call on a demo unit leaves the unit rows as they were; a
successful call on a real unit found an available row and marks the addressed unit. -/
theorem bookApartment_store_cases (env : Env) (db : Store) (req : BookingRequest) :
    ((bookApartment env db req).response.success = false ∧
      (bookApartment env db req).store = db) ∨
    ((bookApartment env db req).response.success = true ∧
      ∃ text, req.unit_id.callToString = some text ∧
        ((startsWith text fallbackMarker = true ∧
          (bookApartment env db req).store.apartment_units = db.apartment_units) ∨
        (startsWith text fallbackMarker = false ∧
          selectAvailable env req.unit_id db ≠ [] ∧
          (bookApartment env db req).store.apartment_units =
            (markBooked env req.unit_id db).apartment_units))) := by
  have hT := transaction_result env req
    (Conn.logged .getConnection { committed := db, txn := none, log := [] })
  cases hv : validateBooking req with
  | some r =>
    left
    simp [bookApartment, hv, Run.store, (validateBooking_failure req r hv).2]
  | none =>
    cases h0 : thrown env { committed := db, txn := none, log := [] } with
    | some e => left; simp [bookApartment, hv, h0, bookingServerError, Run.store, Conn.logged]
    | none =>
      simp only [bookApartment, hv, h0]
      rcases ht : transaction env req
        (Conn.logged .getConnection { committed := db, txn := none, log := [] }) with ⟨res, w1⟩
      rw [ht] at hT
      simp only [Conn.logged] at hT
      rcases res with e | r
      · left
        have hc := hT.1 e rfl
        simp only [] at hc
        cases h1 : thrown env w1 <;>
          simp [h1, bookingServerError, bookingFailed, Run.store, Conn.logged,
            Conn.rollbackTxn, hc]
      · simpa [Run.store, Conn.logged] using hT.2 r rfl

/-! ## Booking a real unit -/

/-- A request for a real unit of which no row is available is not answered with
success and leaves the committed tables as they were, whatever store calls fail. -/
theorem unavailable_unchanged (env : Env) (db : Store) (req : BookingRequest) (text : String)
    (htext : req.unit_id.callToString = some text)
    (hreal : startsWith text fallbackMarker = false)
    (hsel : selectAvailable env req.unit_id db = []) :
    (bookApartment env db req).response.success = false ∧
    (bookApartment env db req).store = db := by
  rcases bookApartment_store_cases env db req with h | ⟨-, text', htext', h | h⟩
  · exact h
  · rw [htext] at htext'
    injection htext' with htext'
    subst htext'
    rw [hreal] at h
    exact absurd h.1 (by decide)
  · exact absurd hsel h.2.1

/-- The run of a valid request for a real unit of which no row is available, when no
store call fails. -/
theorem unavailable_run (env : Env) (db : Store) (req : BookingRequest) (text : String)
    (hvalid : validateBooking req = none)
    (htext : req.unit_id.callToString = some text)
    (hreal : startsWith text fallbackMarker = false)
    (hsel : selectAvailable env req.unit_id db = [])
    (hfault : ∀ k, env.fault k = none) :
    bookApartment env db req =
      { response := unitUnavailable
        conn :=
          { committed := db, txn := none
            log := [getConnection, beginTransaction, insertPayment, selectUnit, rollback,
              release] } } := by
  have hsel' : selectAvailable env req.unit_id
      { payments := db.payments ++ [paymentRowOf env req],
        apartment_bookings := db.apartment_bookings,
        apartment_units := db.apartment_units } = [] := hsel
  simp [bookApartment, hvalid, transaction, bookUnit, htext, hreal, thrown, Conn.logged,
    Conn.write, Conn.view, Conn.beginTxn, Conn.rollbackTxn, hfault, hsel']

/-- C1. A request that passes validation and whose `unit_id` carries no demo marker,
run on a store in which no unit row of that id is `available`: the committed store
after the call equals the store before it whatever store calls fail (the payment row
inserted at the start of the transaction does not survive), and when no store call
fails the answer is the unit-unavailable one (HTTP 400), sent after a rollback. -/
theorem bookApartment_unit_unavailable (env : Env) (db : Store) (req : BookingRequest)
    (text : String)
    (hvalid : validateBooking req = none)
    (htext : req.unit_id.callToString = some text)
    (hreal : startsWith text fallbackMarker = false)
    (hnone : ∀ u ∈ db.apartment_units,
      env.idOf req.unit_id = some u.id → u.status ≠ "available") :
    (bookApartment env db req).store = db ∧
    (bookApartment env db req).response.success = false ∧
    ((∀ k, env.fault k = none) →
      (bookApartment env db req).response = unitUnavailable ∧
      (bookApartment env db req).response.status = 400 ∧
      (bookApartment env db req).conn.txn = none ∧
      (bookApartment env db req).conn.log =
        [getConnection, beginTransaction, insertPayment, selectUnit, rollback, release]) := by
  have hsel := selectAvailable_eq_nil env req.unit_id db hnone
  have h := unavailable_unchanged env db req text htext hreal hsel
  refine ⟨h.2, h.1, fun hfault => ?_⟩
  rw [unavailable_run env db req text hvalid htext hreal hsel hfault]
  exact ⟨rfl, rfl, rfl, rfl⟩

/-- C1 at the sample request on the store whose unit 42 is already booked. -/
theorem bookApartment_unit_unavailable_witness :
    validateBooking sampleRequest = none ∧
    (bookApartment sampleEnv bookedStore sampleRequest).store = bookedStore ∧
    (bookApartment sampleEnv bookedStore sampleRequest).response = unitUnavailable :=
  have h := bookApartment_unit_unavailable sampleEnv bookedStore sampleRequest "42"
    (by decide) (by decide) (by decide) (by decide)
  ⟨by decide, h.1, (h.2.2 (fun _ => rfl)).1⟩

/-- C2. A valid request for a real unit of which a row is `available`, when no store
call fails (and the property id has a string form for the invoice reference): the
answer is the success answer carrying the id of the inserted payment; the committed
payments are the old ones followed by exactly one new row (old rows are untouched when
the generated id is fresh); the committed bookings are the old ones followed by exactly
one new row, whose `payment_id` is that id; and every unit row of the requested id has
status `booked`. -/
theorem bookApartment_success (env : Env) (db : Store) (req : BookingRequest)
    (text invoiceNumber : String)
    (hvalid : validateBooking req = none)
    (htext : req.unit_id.callToString = some text)
    (hreal : startsWith text fallbackMarker = false)
    (havailable : ∃ u ∈ db.apartment_units,
      env.idOf req.unit_id = some u.id ∧ u.status = "available")
    (hinvoice : invoiceNumberOf req.property_id env.dateNow = some invoiceNumber)
    (hfault : ∀ k, env.fault k = none) :
    (bookApartment env db req).response =
      bookingSucceeded env.paymentInsertId invoiceNumber ∧
    (bookApartment env db req).store.payments =
      (stampInvoice invoiceNumber env.paymentInsertId db).payments ++
        [{ paymentRowOf env req with invoice_number := .str invoiceNumber }] ∧
    ((∀ p ∈ db.payments, p.id ≠ env.paymentInsertId) →
      (bookApartment env db req).store.payments =
        db.payments ++ [{ paymentRowOf env req with invoice_number := .str invoiceNumber }]) ∧
    (bookApartment env db req).store.apartment_bookings =
      db.apartment_bookings ++ [bookingRowOf env req env.paymentInsertId] ∧
    (bookingRowOf env req env.paymentInsertId).payment_id = (paymentRowOf env req).id ∧
    (paymentRowOf env req).id = env.paymentInsertId ∧
    (bookApartment env db req).store.apartment_units =
      (markBooked env req.unit_id db).apartment_units ∧
    (∀ u ∈ (bookApartment env db req).store.apartment_units,
      env.idOf req.unit_id = some u.id → u.status = "booked") := by
  have hsel : (selectAvailable env req.unit_id
      { payments := db.payments ++ [paymentRowOf env req],
        apartment_bookings := db.apartment_bookings,
        apartment_units := db.apartment_units } = []) = False :=
    eq_false (selectAvailable_ne_nil env req.unit_id _ havailable)
  have hrun : (bookApartment env db req) =
      { response := bookingSucceeded env.paymentInsertId invoiceNumber
        conn :=
          { committed :=
              { payments := (stampInvoice invoiceNumber env.paymentInsertId
                  { db with payments := db.payments ++ [paymentRowOf env req] }).payments
                apartment_bookings :=
                  db.apartment_bookings ++ [bookingRowOf env req env.paymentInsertId]
                apartment_units := (markBooked env req.unit_id db).apartment_units }
            txn := none
            log := [getConnection, beginTransaction, insertPayment, selectUnit,
              insertBooking, updateUnit, Op.stampInvoice, commit, release] } } := by
    simp [bookApartment, hvalid, transaction, bookUnit, finishBooking, htext, hreal, thrown,
      Conn.logged, Conn.write, Conn.view, Conn.beginTxn, Conn.commitTxn, hfault, hsel,
      hinvoice, markBooked, stampInvoice]
  rw [hrun]
  refine ⟨rfl, ?_, ?_, rfl, rfl, rfl, rfl, ?_⟩
  · simp [Run.store, stampInvoice, paymentRowOf]
  · intro hfresh
    simp only [Run.store, stampInvoice, List.map_append, List.map_cons, List.map_nil]
    congr 1
    · conv_rhs => rw [← List.map_id db.payments]
      apply List.map_congr_left
      intro p hp
      simp [hfresh p hp]
    · simp [paymentRowOf]
  · intro u hu hid
    simp only [Run.store, markBooked, List.mem_map] at hu
    obtain ⟨v, _, rfl⟩ := hu
    by_cases hv : env.idOf req.unit_id = some v.id
    · simp [hv]
    · simp [hv] at hid ⊢

/-- C2 at the sample request on the store whose unit 42 is available. -/
theorem bookApartment_success_witness :
    (bookApartment sampleEnv sampleStore sampleRequest).response =
      bookingSucceeded 7 "APT-9-1700000000" ∧
    (bookApartment sampleEnv sampleStore sampleRequest).store.apartment_units =
      bookedStore.apartment_units :=
  have h := bookApartment_success sampleEnv sampleStore sampleRequest "42" "APT-9-1700000000"
    (by decide) (by decide) (by decide) ⟨sampleUnit, by decide, by decide, by decide⟩
    (by decide) (fun _ => rfl)
  ⟨h.1, h.2.2.2.2.2.2.1.trans (by decide)⟩

/-! ## Failure inside the transaction -/

/-- C3. When the first store call that fails is the unit select, the booking insert,
the unit update, the invoice stamp or the commit (call number `k` of the request, all
earlier calls having succeeded), and the rollback that follows succeeds: the caller
receives the HTTP 500 answer "Failed to process booking", the transaction is closed by
a rollback, the connection is released, and the committed store equals the store
before the call (no new payment row, no new booking row, no unit status change). -/
theorem bookApartment_rollback_on_failure (env : Env) (db : Store) (req : BookingRequest)
    (k : Nat) (e : String) (op : Op)
    (hbefore : ∀ j < k, env.fault j = none)
    (hfail : env.fault k = some e)
    (hop : (bookApartment env db req).conn.log.get? k = some op)
    (hkind : op ∈ [selectUnit, insertBooking, updateUnit, Op.stampInvoice, commit])
    (hrollback : env.fault (k + 1) = none) :
    (bookApartment env db req).response = bookingFailed e ∧
    (bookApartment env db req).response.status = 500 ∧
    (bookApartment env db req).store = db ∧
    (bookApartment env db req).conn.txn = none ∧
    (bookApartment env db req).conn.log.drop k = [op, rollback, release] := by
  cases hv : validateBooking req with
  | some r => simp [bookApartment, hv] at hop
  | none =>
    rcases k with _ | _ | _ | _ | _ | _ | _ | _ | k
    all_goals
      (try have h0 := hbefore 0 (by omega))
      (try have h1 := hbefore 1 (by omega))
      (try have h2 := hbefore 2 (by omega))
      (try have h3 := hbefore 3 (by omega))
      (try have h4 := hbefore 4 (by omega))
      (try have h5 := hbefore 5 (by omega))
      (try have h6 := hbefore 6 (by omega))
      (try have h7 := hbefore 7 (by omega))
      clear hbefore
      try simp only [Nat.zero_add, Nat.reduceAdd] at hrollback
      cases hts : req.unit_id.callToString with
      | none =>
        simp_all [bookApartment, transaction, bookUnit, finishBooking, thrown, Conn.logged,
          Conn.write, Conn.view, Conn.beginTxn, Conn.commitTxn, Conn.rollbackTxn, Run.store,
          bookingFailed] <;>
        (subst hop; simp at hkind)
      | some text =>
        by_cases hfb : startsWith text fallbackMarker = true
        · cases hrf : req.unit_id.replaceFallback <;>
          cases hinv : invoiceNumberOf req.property_id env.dateNow <;>
          simp_all [bookApartment, transaction, bookUnit, finishBooking, thrown, Conn.logged,
            Conn.write, Conn.view, Conn.beginTxn, Conn.commitTxn, Conn.rollbackTxn,
            Run.store, bookingFailed] <;>
          (subst hop; simp at hkind)
        · by_cases hsel : selectAvailable env req.unit_id
            { payments := db.payments ++ [paymentRowOf env req],
              apartment_bookings := db.apartment_bookings,
              apartment_units := db.apartment_units } = [] <;>
          cases hinv : invoiceNumberOf req.property_id env.dateNow <;>
          simp_all [bookApartment, transaction, bookUnit, finishBooking, thrown, Conn.logged,
            Conn.write, Conn.view, Conn.beginTxn, Conn.commitTxn, Conn.rollbackTxn,
            Run.store, bookingFailed] <;>
          first
            | (subst hop; simp at hkind)
            | (cases k <;> simp_all; subst hop; simp at hkind)

/-- C3 at the sample request when the booking insert (call number 4) hits a deadlock. -/
theorem bookApartment_rollback_on_failure_witness :
    (bookApartment deadlockEnv sampleStore sampleRequest).response =
      bookingFailed "ER_LOCK_DEADLOCK" ∧
    (bookApartment deadlockEnv sampleStore sampleRequest).store = sampleStore :=
  have h := bookApartment_rollback_on_failure deadlockEnv sampleStore sampleRequest 4
    "ER_LOCK_DEADLOCK" insertBooking (by decide) (by decide) (by decide) (by decide)
    (by decide)
  ⟨h.1, h.2.2.1⟩

/-! ## Sequential bookings of one unit -/

/-- A call changes each unit row at most by setting its status to `booked`. -/
theorem bookApartment_units (env : Env) (db : Store) (req : BookingRequest) :
    List.Forall₂ UnitRow.keptOrBooked db.apartment_units
      (bookApartment env db req).store.apartment_units := by
  have hrefl : ∀ l : List UnitRow, List.Forall₂ UnitRow.keptOrBooked l l :=
    fun l => List.forall₂_same.mpr (fun _ _ => Or.inl rfl)
  rcases bookApartment_store_cases env db req with h | ⟨-, text, -, h | h⟩
  · rw [h.2]
    exact hrefl _
  · rw [h.2]
    exact hrefl _
  · rw [h.2.2, markBooked, List.forall₂_map_right_iff]
    refine List.forall₂_same.mpr (fun u _ => ?_)
    by_cases hid : env.idOf req.unit_id = some u.id
    · simp [hid, UnitRow.keptOrBooked]
    · simp [hid, UnitRow.keptOrBooked]

/-- The relation `keptOrBooked` composes. -/
theorem UnitRow.keptOrBooked_trans (a b c : UnitRow) (hab : UnitRow.keptOrBooked a b)
    (hbc : UnitRow.keptOrBooked b c) : UnitRow.keptOrBooked a c := by
  rcases hab with rfl | rfl <;> rcases hbc with rfl | rfl <;>
    simp [UnitRow.keptOrBooked]

/-- A row that was `booked` is still `booked`, and a row that is `available` was so. -/
theorem UnitRow.keptOrBooked_status (a b : UnitRow) (h : UnitRow.keptOrBooked a b) :
    b.id = a.id ∧ (a.status = "booked" → b.status = "booked") ∧
      (b.status = "available" → a.status = "available") := by
  rcases h with rfl | rfl
  · exact ⟨rfl, fun h => h, fun h => h⟩
  · exact ⟨rfl, fun _ => rfl, fun h => by simp at h⟩

/-- Pointwise related lists compose when the relation does. -/
theorem forall₂_trans {α : Type} {R : α → α → Prop}
    (htrans : ∀ a b c, R a b → R b c → R a c) :
    ∀ {l₁ l₂ l₃ : List α},
      List.Forall₂ R l₁ l₂ → List.Forall₂ R l₂ l₃ → List.Forall₂ R l₁ l₃
  | _, _, _, .nil, .nil => .nil
  | _, _, _, .cons hab h₁, .cons hbc h₂ =>
    .cons (htrans _ _ _ hab hbc) (forall₂_trans htrans h₁ h₂)

/-- Every element on the right of pointwise related lists has a partner on the left. -/
theorem forall₂_mem_right {α : Type} {R : α → α → Prop} :
    ∀ {l₁ l₂ : List α}, List.Forall₂ R l₁ l₂ → ∀ b ∈ l₂, ∃ a ∈ l₁, R a b
  | _, _, .nil, b, hb => by simp at hb
  | _, _, .cons (a := a) hab h, b, hb => by
    rcases List.mem_cons.mp hb with rfl | hb'
    · exact ⟨a, List.mem_cons_self _ _, hab⟩
    · obtain ⟨a', ha', hk⟩ := forall₂_mem_right h b hb'
      exact ⟨a', List.mem_cons_of_mem _ ha', hk⟩

/-- Any sequence of calls changes each unit row at most by setting its status to `booked`. -/
theorem runAll_units (calls : List Call) (db : Store) :
    List.Forall₂ UnitRow.keptOrBooked db.apartment_units (runAll db calls).apartment_units := by
  induction calls generalizing db with
  | nil => exact List.forall₂_same.mpr (fun _ _ => Or.inl rfl)
  | cons c rest ih =>
    have h1 := bookApartment_units c.1 db c.2
    have h2 := ih (bookApartment c.1 db c.2).store
    exact forall₂_trans UnitRow.keptOrBooked_trans h1 h2

/-- Rows related by `keptOrBooked`: none available before, none available after. -/
theorem NoneAvailable.of_forall₂ (u : Nat) (s t : Store)
    (h : List.Forall₂ UnitRow.keptOrBooked s.apartment_units t.apartment_units)
    (hs : NoneAvailable u s) : NoneAvailable u t := by
  intro r hr hid hav
  obtain ⟨a, ha, hk⟩ := forall₂_mem_right h r hr
  have hst := UnitRow.keptOrBooked_status a r hk
  exact hs a ha (hst.1 ▸ hid) (hst.2.2 hav)

/-- After a successful booking that addresses unit `u`, no row of `u` is available. -/
theorem noneAvailable_after_success (u : Nat) (c : Call) (db : Store)
    (ht : targets u c = true) (hs : (bookApartment c.1 db c.2).response.success = true) :
    NoneAvailable u (bookApartment c.1 db c.2).store := by
  unfold targets at ht
  rcases bookApartment_store_cases c.1 db c.2 with h | ⟨-, text, htext, h | h⟩
  · rw [h.1] at hs
    exact absurd hs (by decide)
  · simp [htext, h.1] at ht
  · simp only [htext, Bool.and_eq_true, decide_eq_true_eq] at ht
    intro r hr hid
    rw [h.2.2, markBooked] at hr
    simp only [List.mem_map] at hr
    obtain ⟨v, -, rfl⟩ := hr
    by_cases hv : c.1.idOf c.2.unit_id = some v.id
    · simp [hv]
    · simp only [hv, if_false] at hid ⊢
      rw [ht.2, hid] at hv
      exact absurd rfl hv

/-- A call that addresses unit `u` while no row of `u` is available is not answered
with success and leaves the committed tables as they were. -/
theorem targets_unavailable (u : Nat) (c : Call) (s : Store)
    (ht : targets u c = true) (hs : NoneAvailable u s) :
    (bookApartment c.1 s c.2).response.success = false ∧
    (bookApartment c.1 s c.2).store = s ∧
    (validateBooking c.2 = none → (∀ k, c.1.fault k = none) →
      (bookApartment c.1 s c.2).response = unitUnavailable) := by
  unfold targets at ht
  cases htext : c.2.unit_id.callToString with
  | none => simp [htext] at ht
  | some text =>
    simp only [htext, Bool.and_eq_true, decide_eq_true_eq, Bool.not_eq_true'] at ht
    have hsel : selectAvailable c.1 c.2.unit_id s = [] := by
      apply selectAvailable_eq_nil
      intro r hr hid
      rw [ht.2] at hid
      injection hid with hid
      exact hs r hr hid.symm
    have h := unavailable_unchanged c.1 s c.2 text htext ht.1 hsel
    refine ⟨h.1, h.2, fun hvalid hfault => ?_⟩
    rw [unavailable_run c.1 s c.2 text hvalid htext ht.1 hsel hfault]

/-- While no row of `u` is available, no call that addresses `u` succeeds. -/
theorem successesFor_eq_zero (u : Nat) (calls : List Call) (db : Store)
    (hs : NoneAvailable u db) : successesFor u db calls = 0 := by
  induction calls generalizing db with
  | nil => rfl
  | cons c rest ih =>
    have hnext : NoneAvailable u (bookApartment c.1 db c.2).store :=
      NoneAvailable.of_forall₂ u db _ (bookApartment_units c.1 db c.2) hs
    simp only [successesFor, ih _ hnext, Nat.add_zero]
    by_cases ht : targets u c = true
    · simp [(targets_unavailable u c db ht hs).1]
    · simp [ht]

/-- C4. Sequential calls on any store.  After a successful booking of the real unit `u`,
every later request for `u`, whatever calls run in between, is not answered with success
and leaves the committed store unchanged; when it is valid and no store call fails
its answer is the unit-unavailable one.  Hence at most one of any sequence of calls
that address `u` succeeds.  And no sequence of calls changes a unit row other than by
setting its status to `booked`: a row that was `booked` stays `booked`. -/
theorem unit_booked_at_most_once (db : Store) (u : Nat) :
    (∀ (first : Call) (between : List Call) (later : Call),
      targets u first = true →
      (bookApartment first.1 db first.2).response.success = true →
      targets u later = true →
      (bookApartment later.1
          (runAll (bookApartment first.1 db first.2).store between) later.2).store =
        runAll (bookApartment first.1 db first.2).store between ∧
      (bookApartment later.1
          (runAll (bookApartment first.1 db first.2).store between)
          later.2).response.success = false ∧
      (validateBooking later.2 = none → (∀ k, later.1.fault k = none) →
        (bookApartment later.1
            (runAll (bookApartment first.1 db first.2).store between) later.2).response =
          unitUnavailable)) ∧
    (∀ calls : List Call, successesFor u db calls ≤ 1) ∧
    (∀ calls : List Call,
      List.Forall₂
        (fun before after =>
          UnitRow.keptOrBooked before after ∧
            (before.status = "booked" → after.status = "booked"))
        db.apartment_units (runAll db calls).apartment_units) := by
  refine ⟨?_, ?_, ?_⟩
  · intro first between later hfirst hsucc hlater
    have h1 := noneAvailable_after_success u first db hfirst hsucc
    have h2 := NoneAvailable.of_forall₂ u _ _
      (runAll_units between (bookApartment first.1 db first.2).store) h1
    have h3 := targets_unavailable u later _ hlater h2
    exact ⟨h3.2.1, h3.1, h3.2.2⟩
  · intro calls
    induction calls generalizing db with
    | nil => simp [successesFor]
    | cons c rest ih =>
      simp only [successesFor]
      by_cases hc : (targets u c && (bookApartment c.1 db c.2).response.success) = true
      · simp only [Bool.and_eq_true] at hc
        have h1 := noneAvailable_after_success u c db hc.1 hc.2
        simp [hc.1, hc.2, successesFor_eq_zero u rest _ h1]
      · have := ih (bookApartment c.1 db c.2).store
        simp only [hc]
        simpa using this
  · intro calls
    refine List.Forall₂.imp ?_ (runAll_units calls db)
    intro a b hab
    exact ⟨hab, (UnitRow.keptOrBooked_status a b hab).2.1⟩

/-- C4 at the sample data: the sample request succeeds on the sample store and, sent
again right after, is answered with the unit-unavailable answer. -/
theorem unit_booked_at_most_once_witness :
    (bookApartment sampleEnv sampleStore sampleRequest).response.success = true ∧
    (bookApartment sampleEnv (bookApartment sampleEnv sampleStore sampleRequest).store
        sampleRequest).response = unitUnavailable :=
  ⟨by decide,
    ((unit_booked_at_most_once sampleStore 42).1 (sampleEnv, sampleRequest) []
      (sampleEnv, sampleRequest) (by decide) (by decide) (by decide)).2.2 (by decide)
      (fun _ => rfl)⟩

/-! ## Request validation -/

/-- C6. The validation of `bookApartment` accepts a request if and only if all of
`user_id`, `property_id`, `unit_id`, `amount_paid`, `payment_method` and
`payment_details` are truthy, the method is one of `credit_card`, `card`, `upi`, and
the details are complete for the method; every other request is answered with an HTTP
400 failure. -/
theorem validateBooking_iff (req : BookingRequest) :
    (validateBooking req = none ↔ req.MeetsPreconditions) ∧
    (∀ r, validateBooking req = some r → r.status = 400 ∧ r.success = false) ∧
    (¬ req.MeetsPreconditions → ∃ r, validateBooking req = some r ∧ r.status = 400) := by
  have hiff : validateBooking req = none ↔ req.MeetsPreconditions := by
    unfold validateBooking checkMethodAndDetails BookingRequest.MeetsPreconditions validMethods
    by_cases h1 : req.user_id.truthy = true <;>
    by_cases h2 : req.property_id.truthy = true <;>
    by_cases h3 : req.unit_id.truthy = true <;>
    by_cases h4 : req.amount_paid.truthy = true <;>
    by_cases h5 : req.payment_method.truthy = true <;>
    by_cases h6 : req.payment_details.truthy = true <;>
    simp only [h1, h2, h3, h4, h5, h6, Bool.not_true, Bool.not_false, Bool.or_false,
      Bool.or_true, Bool.false_or, Bool.true_or, if_true, if_false, false_and, and_false,
      true_and, and_true, reduceCtorEq]
    by_cases hcc : req.payment_method = .str "credit_card"
    · simp [hcc, and_assoc]
    · by_cases hc : req.payment_method = .str "card"
      · simp [hc, and_assoc]
      · by_cases hu : req.payment_method = .str "upi"
        · simp [hu]
        · simp [hcc, hc, hu]
  refine ⟨hiff, validateBooking_failure req, fun hnot => ?_⟩
  cases hv : validateBooking req with
  | none => exact absurd (hiff.mp hv) hnot
  | some r => exact ⟨r, rfl, (validateBooking_failure req r hv).1⟩

/-- C7. A request rejected by validation is answered with the validation failure
and nothing else happens: no store call is made (no connection acquired, no
transaction begun) and the committed store is the one before the call. -/
theorem bookApartment_rejected (env : Env) (db : Store) (req : BookingRequest) (r : Response)
    (h : validateBooking req = some r) :
    (bookApartment env db req).response = r ∧
    (bookApartment env db req).conn.log = [] ∧
    (bookApartment env db req).conn.txn = none ∧
    (bookApartment env db req).store = db := by
  simp [bookApartment, h, Run.store]

/-- C7 at the sample request without its `unit_id`. -/
theorem bookApartment_rejected_witness :
    (bookApartment sampleEnv sampleStore incompleteRequest).response = missingBookingFields ∧
    (bookApartment sampleEnv sampleStore incompleteRequest).conn.log = [] ∧
    (bookApartment sampleEnv sampleStore incompleteRequest).store = sampleStore :=
  have h := bookApartment_rejected sampleEnv sampleStore incompleteRequest missingBookingFields
    (by decide)
  ⟨h.1, h.2.1, h.2.2.2⟩

/-! ## Payment details -/

/-- A string is truthy exactly when it is not empty. -/
theorem truthy_str (s : String) : (JsVal.str s).truthy = true ↔ 1 ≤ s.length := by
  rcases s with ⟨_ | ⟨c, cs⟩⟩
  · decide
  · simp [JsVal.truthy, String.length, String.ext_iff]

/-- C8, the claim as stated fails: a UPI id without `@` is accepted by the validation
of `bookApartment` (the booking goes through and a payment row is committed), by the
checks of `createPayment` (the record reaches the persistence service) and by
`paymentModel.validate`. -/
theorem upi_without_separator_accepted :
    '@' ∉ "nameBank".data ∧
    validateBooking (upiBooking "nameBank") = none ∧
    (bookApartment sampleEnv sampleStore (upiBooking "nameBank")).response.success = true ∧
    (bookApartment sampleEnv sampleStore (upiBooking "nameBank")).store.payments.length = 1 ∧
    validatePayment (upiPayment "nameBank") = none ∧
    (createPayment acceptingService 0 (upiPayment "nameBank")).submitted =
      some (newPaymentOf 0 (upiPayment "nameBank")) ∧
    (newPaymentOf 0 (upiPayment "nameBank")).validate.valid = true := by
  decide

/-- C8 as amended. For a request with method `upi` whose other required fields are
present, each of the three server-side validations accepts exactly when `upi_id` is
truthy: a string id is accepted if and only if it is not empty, so every id that
contains `@` is accepted, and so is a non-empty id without `@`.  A rejected request
is answered "UPI ID is required for UPI payments" before any write: `bookApartment`
makes no store call and `createPayment` does not call the persistence service. -/
theorem upi_validation (b : BookingRequest) (p : PaymentRequest) (m : PaymentModel)
    (hb : b.payment_method = .str "upi")
    (hbreq : b.user_id.truthy = true ∧ b.property_id.truthy = true ∧ b.unit_id.truthy = true ∧
      b.amount_paid.truthy = true ∧ b.payment_details.truthy = true)
    (hp : p.payment_method = .str "upi")
    (hpreq : p.user_id.truthy = true ∧ p.property_id.truthy = true ∧
      p.amount_paid.truthy = true ∧ p.payment_details.truthy = true ∧ p.status.truthy = true)
    (hm : m.payment_method = .str "upi")
    (hmreq : m.user_id.truthy = true ∧ m.property_id.truthy = true ∧
      m.amount_paid.truthy = true ∧ m.payment_details.truthy = true ∧ m.status.truthy = true) :
    (validateBooking b = none ↔ (b.payment_details.get "upi_id").truthy = true) ∧
    (validatePayment p = none ↔ (p.payment_details.get "upi_id").truthy = true) ∧
    (m.validate.valid = true ↔ (m.payment_details.get "upi_id").truthy = true) ∧
    (∀ s : String, (JsVal.str s).truthy = true ↔ 1 ≤ s.length) ∧
    (∀ s : String, '@' ∈ s.data → (JsVal.str s).truthy = true) ∧
    ((b.payment_details.get "upi_id").truthy = false → ∀ env db,
      (bookApartment env db b).response = upiIdRequired ∧
      (bookApartment env db b).conn.log = [] ∧ (bookApartment env db b).store = db) ∧
    ((p.payment_details.get "upi_id").truthy = false → ∀ svc now,
      (createPayment svc now p).response = upiIdRequired ∧
      (createPayment svc now p).submitted = none) := by
  obtain ⟨b1, b2, b3, b4, b5⟩ := hbreq
  obtain ⟨p1, p2, p3, p4, p5⟩ := hpreq
  obtain ⟨m1, m2, m3, m4, m5⟩ := hmreq
  have hupi : (JsVal.str "upi").truthy = true := by decide
  refine ⟨?_, ?_, ?_, truthy_str, ?_, ?_, ?_⟩
  · cases h : (b.payment_details.get "upi_id").truthy <;>
      simp [validateBooking, checkMethodAndDetails, validMethods, hb, b1, b2, b3, b4, b5, hupi, h]
  · cases h : (p.payment_details.get "upi_id").truthy <;>
      simp [validatePayment, checkMethodAndDetails, validMethods, hp, p1, p2, p3, p4, p5, hupi, h]
  · cases h : (m.payment_details.get "upi_id").truthy <;>
      simp [PaymentModel.validate, hm, m1, m2, m3, m4, m5, hupi, h]
  · intro s hs
    rw [truthy_str]
    cases hd : s.data with
    | nil => simp [hd] at hs
    | cons c cs => simp [String.length, hd]
  · intro h env db
    have hv : validateBooking b = some upiIdRequired := by
      simp [validateBooking, checkMethodAndDetails, validMethods, hb, b1, b2, b3, b4, b5, hupi, h]
    simp [bookApartment, hv, Run.store]
  · intro h svc now
    have hv : validatePayment p = some upiIdRequired := by
      simp [validatePayment, checkMethodAndDetails, validMethods, hp, p1, p2, p3, p4, p5, hupi, h]
    simp [createPayment, hv]

/-- C8 as amended, at the sample UPI requests with the id `name@bank`. -/
theorem upi_validation_witness :
    validateBooking (upiBooking "name@bank") = none ∧
    validatePayment (upiPayment "name@bank") = none ∧
    (newPaymentOf 0 (upiPayment "name@bank")).validate.valid = true :=
  have h := upi_validation (upiBooking "name@bank") (upiPayment "name@bank")
    (newPaymentOf 0 (upiPayment "name@bank")) (by decide) (by decide) (by decide) (by decide)
    (by decide) (by decide)
  ⟨h.1.mpr (by decide), h.2.1.mpr (by decide), h.2.2.1.mpr (by decide)⟩

/-- What the `||` with `null` of lines 85-89 yields: the value itself when it is
truthy, `null` otherwise; never `undefined`. -/
theorem or_null (v : JsVal) :
    (v.truthy = true → v.or .null = v) ∧ (v.truthy = false → v.or .null = .null) ∧
    v.or .null ≠ .undefined ∧ (v.or .null = .null ↔ v.truthy = false) ∧
    (v.or .null).truthy = v.truthy := by
  cases h : v.truthy
  · simp only [JsVal.or, h]
    exact ⟨by simp, by simp, by simp, by simp, rfl⟩
  · have hne : v ≠ .null := by rintro rfl; exact absurd h (by decide)
    have hne' : v ≠ .undefined := by rintro rfl; exact absurd h (by decide)
    simp only [JsVal.or, h]
    exact ⟨by simp, by simp, by simpa using hne', by simpa using hne, by simpa using h⟩

/-- Reading a field of the sanitised details: the `||`-with-`null` of the request's field. -/
theorem sanitizePaymentDetails_get (d : JsVal) (key : String) (hkey : key ∈ detailKeys) :
    (sanitizePaymentDetails d).get key = (d.get key).or .null := by
  simp only [detailKeys, List.mem_cons, List.mem_singleton, List.not_mem_nil, or_false] at hkey
  rcases hkey with rfl | rfl | rfl | rfl | rfl <;> rfl

/-- A record reaches the persistence service exactly when the checks accept the
request, and it is the record built from the request. -/
theorem createPayment_submitted (svc : PaymentModel → Except String ServiceResult) (now : Nat)
    (req : PaymentRequest) (m : PaymentModel) :
    (createPayment svc now req).submitted = some m ↔
      validatePayment req = none ∧ m = newPaymentOf now req := by
  cases hv : validatePayment req with
  | some r => simp [createPayment, hv]
  | none =>
    cases hs : svc (newPaymentOf now req) <;>
      simp only [createPayment, hv, hs, true_and, Option.some.injEq] <;> exact eq_comm

/-- The checks accept a card request only with the four card fields truthy. -/
theorem checkMethodAndDetails_card (method details : JsVal)
    (hm : method = .str "credit_card" ∨ method = .str "card")
    (h : checkMethodAndDetails method details = none) :
    (details.get "card_holder").truthy = true ∧ (details.get "card_number").truthy = true ∧
    (details.get "expiry_date").truthy = true ∧ (details.get "cvv").truthy = true := by
  rcases hm with rfl | rfl <;>
    simpa [checkMethodAndDetails, validMethods, and_assoc] using h

/-- The checks accept a UPI request only with a truthy UPI id. -/
theorem checkMethodAndDetails_upi (details : JsVal)
    (h : checkMethodAndDetails (.str "upi") details = none) :
    (details.get "upi_id").truthy = true := by
  simpa [checkMethodAndDetails, validMethods] using h

/-- The checks accept one of the three method names only. -/
theorem checkMethodAndDetails_method (method details : JsVal)
    (h : checkMethodAndDetails method details = none) :
    method = .str "credit_card" ∨ method = .str "card" ∨ method = .str "upi" := by
  by_contra hne
  simp only [not_or] at hne
  simp [checkMethodAndDetails, validMethods, hne.1, hne.2.1, hne.2.2] at h

/-- Whatever passes the required-field test of `bookApartment` goes on to the method checks. -/
theorem validateBooking_none (req : BookingRequest) (h : validateBooking req = none) :
    checkMethodAndDetails req.payment_method req.payment_details = none := by
  unfold validateBooking at h
  split at h
  · simp at h
  · exact h

/-- Whatever passes the required-field test of `createPayment` goes on to the method checks. -/
theorem validatePayment_none (req : PaymentRequest) (h : validatePayment req = none) :
    checkMethodAndDetails req.payment_method req.payment_details = none := by
  unfold validatePayment at h
  split at h
  · simp at h
  · exact h

/-- C9, the claim as stated fails: card details with a one-character card number and a
one-character CVV are accepted by the validation of `bookApartment` (the booking goes
through and the committed payment row carries them), by the checks of `createPayment`
(the record reaches the persistence service) and by `paymentModel.validate`. -/
theorem short_card_accepted :
    "1".length < 16 ∧ "1".length < 3 ∧
    validateBooking shortCardBooking = none ∧
    (bookApartment sampleEnv sampleStore shortCardBooking).response.success = true ∧
    (bookApartment sampleEnv sampleStore shortCardBooking).store.payments.map
      (fun row => (row.payment_details.get "card_number", row.payment_details.get "cvv")) =
      [(.str "1", .str "1")] ∧
    validatePayment shortCardPayment = none ∧
    (createPayment acceptingService 0 shortCardPayment).submitted.map
      (fun m => (m.payment_details.get "card_number", m.payment_details.get "cvv")) =
      some (.str "1", .str "1") ∧
    (newPaymentOf 0 shortCardPayment).validate.valid = true := by
  decide

/-- C9 as amended. Every credit-card request (method `credit_card` or `card`) that the
validation of `bookApartment` or the checks of `createPayment` accept has `card_holder`,
`card_number`, `expiry_date` and `cvv` truthy, and so has the record handed to the
persistence service and every record `paymentModel.validate` reports valid; the
committed payment row of a booking carries the details of the request.  A string is
truthy exactly when its length is at least 1: no longer minimum is enforced. -/
theorem card_validation :
    (∀ b : BookingRequest,
      (b.payment_method = .str "credit_card" ∨ b.payment_method = .str "card") →
      validateBooking b = none →
      (b.payment_details.get "card_holder").truthy = true ∧
      (b.payment_details.get "card_number").truthy = true ∧
      (b.payment_details.get "expiry_date").truthy = true ∧
      (b.payment_details.get "cvv").truthy = true ∧
      ∀ env, (paymentRowOf env b).payment_details = b.payment_details) ∧
    (∀ (p : PaymentRequest) (svc : PaymentModel → Except String ServiceResult) (now : Nat)
      (m : PaymentModel),
      (p.payment_method = .str "credit_card" ∨ p.payment_method = .str "card") →
      (createPayment svc now p).submitted = some m →
      ((p.payment_details.get "card_holder").truthy = true ∧
        (p.payment_details.get "card_number").truthy = true ∧
        (p.payment_details.get "expiry_date").truthy = true ∧
        (p.payment_details.get "cvv").truthy = true) ∧
      m.payment_details.get "card_holder" = p.payment_details.get "card_holder" ∧
      m.payment_details.get "card_number" = p.payment_details.get "card_number" ∧
      m.payment_details.get "expiry_date" = p.payment_details.get "expiry_date" ∧
      m.payment_details.get "cvv" = p.payment_details.get "cvv") ∧
    (∀ m : PaymentModel, m.payment_method = .str "credit_card" → m.validate.valid = true →
      (m.payment_details.get "card_holder").truthy = true ∧
      (m.payment_details.get "card_number").truthy = true ∧
      (m.payment_details.get "expiry_date").truthy = true ∧
      (m.payment_details.get "cvv").truthy = true) ∧
    (∀ s : String, (JsVal.str s).truthy = true ↔ 1 ≤ s.length) := by
  refine ⟨?_, ?_, ?_, truthy_str⟩
  · intro b hm hv
    obtain ⟨h1, h2, h3, h4⟩ := checkMethodAndDetails_card _ _ hm (validateBooking_none b hv)
    exact ⟨h1, h2, h3, h4, fun _ => rfl⟩
  · intro p svc now m hm hsub
    obtain ⟨hv, rfl⟩ := (createPayment_submitted svc now p m).mp hsub
    obtain ⟨h1, h2, h3, h4⟩ := checkMethodAndDetails_card _ _ hm (validatePayment_none p hv)
    refine ⟨⟨h1, h2, h3, h4⟩, ?_, ?_, ?_, ?_⟩
    · exact (sanitizePaymentDetails_get _ _ (by decide)).trans ((or_null _).1 h1)
    · exact (sanitizePaymentDetails_get _ _ (by decide)).trans ((or_null _).1 h2)
    · exact (sanitizePaymentDetails_get _ _ (by decide)).trans ((or_null _).1 h3)
    · exact (sanitizePaymentDetails_get _ _ (by decide)).trans ((or_null _).1 h4)
  · intro m hm hv
    unfold PaymentModel.validate at hv
    simp only [hm] at hv
    repeat' split at hv
    all_goals simp_all [and_assoc]

/-- C9 as amended, at the sample booking and the sample payment. -/
theorem card_validation_witness :
    (sampleRequest.payment_details.get "card_number").truthy = true ∧
    (samplePayment.payment_details.get "cvv").truthy = true :=
  ⟨(card_validation.1 sampleRequest (by decide) (by decide)).2.1,
    (card_validation.2.1 samplePayment acceptingService 0 (newPaymentOf 0 samplePayment)
      (by decide) (by decide)).1.2.2.2⟩

/-- C10, the claim as stated fails: a `credit_card` request whose details also carry a
UPI id passes the checks of `createPayment`, and the record handed to the persistence
service keeps that UPI id next to the four card fields. -/
theorem mixed_details_kept :
    validatePayment mixedPayment = none ∧
    (createPayment acceptingService 0 mixedPayment).submitted.map
      (fun m => (m.payment_method, m.payment_details.get "card_number",
        m.payment_details.get "upi_id")) =
      some (.str "credit_card", .str "4111111111111111", .str "buyer@bank") ∧
    JsVal.str "buyer@bank" ≠ JsVal.null := by
  decide

/-- C10 as amended. For every record `createPayment` hands to the persistence service:
the method is `credit_card` or `upi`; the details are an object that has each of the
five fields, none of them `undefined`; for `credit_card` the four card fields are
truthy, hence not `null`, and for `upi` the UPI id is; and every field, of the chosen
shape or not, is `null` exactly when the request carried no truthy value for it, and is
the request's value otherwise. -/
theorem createPayment_record_shape (svc : PaymentModel → Except String ServiceResult)
    (now : Nat) (req : PaymentRequest) (m : PaymentModel)
    (h : (createPayment svc now req).submitted = some m) :
    (m.payment_method = .str "credit_card" ∨ m.payment_method = .str "upi") ∧
    (∃ fs, m.payment_details = .obj fs ∧ ∀ key ∈ detailKeys, fs.hasKey key = true) ∧
    (∀ key ∈ detailKeys, m.payment_details.get key ≠ .undefined) ∧
    (m.payment_method = .str "credit_card" →
      ∀ key ∈ ["card_holder", "card_number", "expiry_date", "cvv"],
        (m.payment_details.get key).truthy = true ∧ m.payment_details.get key ≠ .null) ∧
    (m.payment_method = .str "upi" →
      (m.payment_details.get "upi_id").truthy = true ∧
        m.payment_details.get "upi_id" ≠ .null) ∧
    (∀ key ∈ detailKeys,
      (m.payment_details.get key = .null ↔ (req.payment_details.get key).truthy = false) ∧
      ((req.payment_details.get key).truthy = true →
        m.payment_details.get key = req.payment_details.get key)) := by
  obtain ⟨hv, rfl⟩ := (createPayment_submitted svc now req m).mp h
  have hcheck := validatePayment_none req hv
  have hget : ∀ key ∈ detailKeys, (newPaymentOf now req).payment_details.get key =
      (req.payment_details.get key).or .null :=
    fun key hkey => sanitizePaymentDetails_get req.payment_details key hkey
  have hnotnull : ∀ v : JsVal, v.truthy = true → v ≠ .null := by
    rintro v hv rfl
    exact absurd hv (by decide)
  have hkeys : ∀ key ∈ detailKeys, (JsFields.ofList
      [("card_holder", (req.payment_details.get "card_holder").or .null),
       ("card_number", (req.payment_details.get "card_number").or .null),
       ("expiry_date", (req.payment_details.get "expiry_date").or .null),
       ("cvv", (req.payment_details.get "cvv").or .null),
       ("upi_id", (req.payment_details.get "upi_id").or .null)]).hasKey key = true := by
    intro key hkey
    simp only [detailKeys, List.mem_cons, List.mem_singleton, List.not_mem_nil,
      or_false] at hkey
    rcases hkey with rfl | rfl | rfl | rfl | rfl <;> rfl
  refine ⟨?_, ⟨_, rfl, hkeys⟩, ?_, ?_, ?_, ?_⟩
  · rcases checkMethodAndDetails_method _ _ hcheck with hm | hm | hm <;>
      simp [newPaymentOf, hm]
  · intro key hkey
    rw [hget key hkey]
    exact (or_null _).2.2.1
  · intro hm key hkey
    have hmethod :
        req.payment_method = .str "credit_card" ∨ req.payment_method = .str "card" := by
      rcases checkMethodAndDetails_method _ _ hcheck with h' | h' | h'
      · exact Or.inl h'
      · exact Or.inr h'
      · simp [newPaymentOf, h'] at hm
    obtain ⟨h1, h2, h3, h4⟩ := checkMethodAndDetails_card _ _ hmethod hcheck
    have htruthy : ((newPaymentOf now req).payment_details.get key).truthy = true := by
      simp only [List.mem_cons, List.mem_singleton, List.not_mem_nil, or_false] at hkey
      rcases hkey with rfl | rfl | rfl | rfl
      · rw [hget _ (by decide), (or_null _).2.2.2.2]; exact h1
      · rw [hget _ (by decide), (or_null _).2.2.2.2]; exact h2
      · rw [hget _ (by decide), (or_null _).2.2.2.2]; exact h3
      · rw [hget _ (by decide), (or_null _).2.2.2.2]; exact h4
    exact ⟨htruthy, hnotnull _ htruthy⟩
  · intro hm
    have hmethod : req.payment_method = .str "upi" := by
      rcases checkMethodAndDetails_method _ _ hcheck with h' | h' | h'
      · simp [newPaymentOf, h'] at hm
      · simp [newPaymentOf, h'] at hm
      · exact h'
    have h1 := checkMethodAndDetails_upi req.payment_details (hmethod ▸ hcheck)
    have htruthy : ((newPaymentOf now req).payment_details.get "upi_id").truthy = true := by
      rw [hget _ (by decide), (or_null _).2.2.2.2]; exact h1
    exact ⟨htruthy, hnotnull _ htruthy⟩
  · intro key hkey
    rw [hget key hkey]
    exact ⟨(or_null _).2.2.2.1, (or_null _).1⟩

/-- C10 as amended, at the sample card payment. -/
theorem createPayment_record_shape_witness :
    (newPaymentOf 0 samplePayment).payment_method = .str "credit_card" ∨
      (newPaymentOf 0 samplePayment).payment_method = .str "upi" :=
  (createPayment_record_shape acceptingService 0 samplePayment (newPaymentOf 0 samplePayment)
    (by decide)).1

/-! ## Object assignment -/

/-- Reading a property after an assignment. -/
theorem JsFields.lookup_set :
    ∀ (fs : JsFields) (key : String) (v : JsVal) (key' : String),
      (fs.set key v).lookup key' = if key = key' then v else fs.lookup key'
  | .nil, key, v, key' => by simp [JsFields.set, JsFields.lookup]
  | .cons k x fs, key, v, key' => by
    have ih := JsFields.lookup_set fs key v key'
    simp only [JsFields.set]
    by_cases hk : k = key
    · subst hk
      by_cases hk' : k = key' <;> simp [JsFields.lookup, hk']
    · by_cases hk' : k = key'
      · subst hk'
        simp [hk, JsFields.lookup, Ne.symm hk]
      · simp [hk, JsFields.lookup, hk', ih]

/-- Reading a property of `{ ...target, ...source }`: the property of `source` when it
has one, that of `target` otherwise. -/
theorem JsFields.lookup_assign (t : JsFields) :
    ∀ (s : JsFields) (key : String),
      (t.assign s).lookup key = if s.hasKey key then s.lookup key else t.lookup key
  | .nil, key => by simp [JsFields.assign, JsFields.hasKey]
  | .cons k v rest, key => by
    have ih := JsFields.lookup_assign t rest key
    simp only [JsFields.assign, JsFields.lookup_set, JsFields.hasKey, JsFields.lookup, ih]
    by_cases hk : k = key <;> simp [hk]

/-! ## The run of a successful booking -/

/-- The unit branch, when it completes: the connection it leaves behind. -/
theorem bookUnit_next (env : Env) (req : BookingRequest) (pid : Nat) (w : Conn) (s : Store)
    (hs : w.txn = some s) (h : (bookUnit env req pid w).1 = .ok none) :
    ∃ text, req.unit_id.callToString = some text ∧
      ((startsWith text fallbackMarker = true ∧
        ∃ stripped, req.unit_id.replaceFallback = some stripped ∧
          (bookUnit env req pid w).2 =
            { committed := w.committed
              txn := some { s with apartment_bookings :=
                s.apartment_bookings ++ [fallbackBookingRowOf env req pid stripped] }
              log := w.log ++ [insertBooking] }) ∨
      (startsWith text fallbackMarker = false ∧
        (bookUnit env req pid w).2 =
          { committed := w.committed
            txn := some (markBooked env req.unit_id { s with apartment_bookings :=
              s.apartment_bookings ++ [bookingRowOf env req pid] })
            log := w.log ++ [selectUnit, insertBooking, updateUnit] })) := by
  rcases w with ⟨c, t, l⟩
  simp only at hs
  subst hs
  unfold bookUnit at h ⊢
  simp only [Conn.write, Conn.logged, Conn.view, Conn.rollbackTxn, Option.getD_some,
    Option.map_some'] at h ⊢
  repeat' split at h
  all_goals simp_all

/-- The tail of the transaction, when it completes: its answer and the connection it
leaves behind. -/
theorem finishBooking_ok (env : Env) (req : BookingRequest) (pid : Nat) (w : Conn) (s : Store)
    (r : Response) (hs : w.txn = some s) (h : (finishBooking env req pid w).1 = .ok r) :
    ∃ inv, invoiceNumberOf req.property_id env.dateNow = some inv ∧
      r = bookingSucceeded pid inv ∧
      (finishBooking env req pid w).2 =
        { committed := stampInvoice inv pid s, txn := none
          log := w.log ++ [Op.stampInvoice, commit] } := by
  rcases w with ⟨c, t, l⟩
  simp only at hs
  subst hs
  unfold finishBooking at h ⊢
  simp only [Conn.write, Conn.logged, Conn.view, Conn.commitTxn, Option.getD_some,
    Option.map_some'] at h ⊢
  repeat' split at h
  all_goals simp_all

/-- The transaction body, when it answers with success: the invoice reference, the
answer and the connection it leaves behind, for a demo unit and for a real unit. -/
theorem transaction_ok (env : Env) (req : BookingRequest) (db : Store) (l : List Op)
    (r : Response)
    (h : (transaction env req { committed := db, txn := none, log := l }).1 = .ok r)
    (hr : r.success = true) :
    ∃ inv text, invoiceNumberOf req.property_id env.dateNow = some inv ∧
      req.unit_id.callToString = some text ∧
      r = bookingSucceeded env.paymentInsertId inv ∧
      ((startsWith text fallbackMarker = true ∧
        ∃ stripped, req.unit_id.replaceFallback = some stripped ∧
          (transaction env req { committed := db, txn := none, log := l }).2 =
            { committed := stampInvoice inv env.paymentInsertId
                { payments := db.payments ++ [paymentRowOf env req]
                  apartment_bookings := db.apartment_bookings ++
                    [fallbackBookingRowOf env req env.paymentInsertId stripped]
                  apartment_units := db.apartment_units }
              txn := none
              log := l ++ [beginTransaction, insertPayment, insertBooking, Op.stampInvoice,
                commit] }) ∨
      (startsWith text fallbackMarker = false ∧
        (transaction env req { committed := db, txn := none, log := l }).2 =
          { committed := stampInvoice inv env.paymentInsertId
              (markBooked env req.unit_id
                { payments := db.payments ++ [paymentRowOf env req]
                  apartment_bookings := db.apartment_bookings ++
                    [bookingRowOf env req env.paymentInsertId]
                  apartment_units := db.apartment_units })
            txn := none
            log := l ++ [beginTransaction, insertPayment, selectUnit, insertBooking,
              updateUnit, Op.stampInvoice, commit] })) := by
  have hU := bookUnit_next env req env.paymentInsertId
    { committed := db
      txn := some { db with payments := db.payments ++ [paymentRowOf env req] }
      log := l ++ [beginTransaction, insertPayment] }
    { db with payments := db.payments ++ [paymentRowOf env req] } rfl
  have hR := (bookUnit_result env req env.paymentInsertId
    { committed := db
      txn := some { db with payments := db.payments ++ [paymentRowOf env req] }
      log := l ++ [beginTransaction, insertPayment] }
    { db with payments := db.payments ++ [paymentRowOf env req] } rfl).2.1
  cases h0 : env.fault l.length with
  | some e => simp [transaction, thrown, h0] at h
  | none =>
    cases h1 : env.fault (l.length + 1) with
    | some e => simp [transaction, thrown, Conn.logged, Conn.beginTxn, h0, h1] at h
    | none =>
      simp only [transaction, thrown, Conn.logged, Conn.beginTxn, Conn.write, h0, h1,
        List.length_append, List.length_singleton, Option.map_some', List.append_assoc,
        List.singleton_append] at h ⊢
      rcases hb : bookUnit env req env.paymentInsertId
        { committed := db
          txn := some { db with payments := db.payments ++ [paymentRowOf env req] }
          log := l ++ [beginTransaction, insertPayment] } with ⟨res, w3⟩
      rw [hb] at hU hR h
      rcases res with e | (_ | r')
      · simp at h
      · obtain ⟨text, htext, hcase⟩ := hU rfl
        simp only at h hcase ⊢
        rcases hcase with ⟨hfb, stripped, hrf, rfl⟩ | ⟨hfb, rfl⟩
        · obtain ⟨inv, hinv, rfl, hfin⟩ :=
            finishBooking_ok env req env.paymentInsertId _ _ r rfl h
          refine ⟨inv, text, hinv, htext, rfl, Or.inl ⟨hfb, stripped, hrf, ?_⟩⟩
          rw [hfin]
          simp
        · obtain ⟨inv, hinv, rfl, hfin⟩ :=
            finishBooking_ok env req env.paymentInsertId _ _ r rfl h
          refine ⟨inv, text, hinv, htext, rfl, Or.inr ⟨hfb, ?_⟩⟩
          rw [hfin]
          simp
      · obtain ⟨rfl, -⟩ := hR r' rfl
        simp only [Except.ok.injEq] at h
        subst h
        exact absurd hr (by decide)

/-- A call answered with success: the request was valid, the answer carries the
generated payment id and the invoice reference, exactly one payment row (stamped with
that reference) and one booking row were added, and the unit rows are untouched (demo
unit) or have the addressed unit marked (real unit). -/
theorem bookApartment_ok (env : Env) (db : Store) (req : BookingRequest)
    (h : (bookApartment env db req).response.success = true) :
    validateBooking req = none ∧
    ∃ inv text, invoiceNumberOf req.property_id env.dateNow = some inv ∧
      req.unit_id.callToString = some text ∧
      (bookApartment env db req).response = bookingSucceeded env.paymentInsertId inv ∧
      (bookApartment env db req).conn.txn = none ∧
      (bookApartment env db req).store.payments =
        (stampInvoice inv env.paymentInsertId db).payments ++
          [{ paymentRowOf env req with invoice_number := .str inv }] ∧
      ((startsWith text fallbackMarker = true ∧
        ∃ stripped, req.unit_id.replaceFallback = some stripped ∧
          (bookApartment env db req).store.apartment_bookings =
            db.apartment_bookings ++
              [fallbackBookingRowOf env req env.paymentInsertId stripped] ∧
          (bookApartment env db req).store.apartment_units = db.apartment_units ∧
          (bookApartment env db req).conn.log =
            [getConnection, beginTransaction, insertPayment, insertBooking,
              Op.stampInvoice, commit, release]) ∨
      (startsWith text fallbackMarker = false ∧
        (bookApartment env db req).store.apartment_bookings =
          db.apartment_bookings ++ [bookingRowOf env req env.paymentInsertId] ∧
        (bookApartment env db req).store.apartment_units =
          (markBooked env req.unit_id db).apartment_units ∧
        (bookApartment env db req).conn.log =
          [getConnection, beginTransaction, insertPayment, selectUnit, insertBooking,
            updateUnit, Op.stampInvoice, commit, release])) := by
  cases hv : validateBooking req with
  | some r =>
    have := (validateBooking_failure req r hv).2
    simp [bookApartment, hv, this] at h
  | none =>
    refine ⟨rfl, ?_⟩
    cases h0 : env.fault 0 with
    | some e => simp [bookApartment, hv, thrown, h0, bookingServerError] at h
    | none =>
      have hT := transaction_ok env req db [getConnection]
      simp only [bookApartment, hv, thrown, h0, Conn.logged, List.length_nil,
        List.nil_append] at h ⊢
      rcases ht : transaction env req
        { committed := db, txn := none, log := [getConnection] } with ⟨res, w1⟩
      rw [ht] at hT h
      rcases res with e | r
      · simp only at h
        cases h1 : env.fault w1.log.length <;>
          simp [h1, bookingServerError, bookingFailed] at h
      · simp only at h hT ⊢
        obtain ⟨inv, text, hinv, htext, rfl, hcase⟩ := hT r rfl h
        refine ⟨inv, text, hinv, htext, rfl, ?_⟩
        rcases hcase with ⟨hfb, stripped, hrf, rfl⟩ | ⟨hfb, rfl⟩
        · refine ⟨rfl, ?_, Or.inl ⟨hfb, stripped, hrf, ?_, ?_, ?_⟩⟩ <;>
            simp [Run.store, stampInvoice, paymentRowOf]
        · refine ⟨rfl, ?_, Or.inr ⟨hfb, ?_, ?_, ?_⟩⟩ <;>
            simp [Run.store, stampInvoice, markBooked, paymentRowOf]

/-- A request that passes the validation has its six required fields truthy. -/
theorem validateBooking_required (req : BookingRequest) (h : validateBooking req = none) :
    req.user_id.truthy = true ∧ req.property_id.truthy = true ∧ req.unit_id.truthy = true ∧
    req.amount_paid.truthy = true ∧ req.payment_method.truthy = true ∧
    req.payment_details.truthy = true := by
  unfold validateBooking at h
  split at h
  · simp at h
  · rename_i hreq
    simp only [Bool.or_eq_true, Bool.not_eq_true', not_or, Bool.not_eq_false] at hreq
    exact ⟨hreq.1.1.1.1.1, hreq.1.1.1.1.2, hreq.1.1.1.2, hreq.1.1.2, hreq.1.2, hreq.2⟩

/-! ## What a successful booking persists -/

/-- Removing the first occurrence of a non-empty pattern from a text that starts with it
leaves the rest of the text. -/
theorem removeFirst_append (pat rest : List Char) (hpat : pat ≠ []) :
    removeFirst pat (pat ++ rest) = rest := by
  cases pat with
  | nil => exact absurd rfl hpat
  | cons p ps =>
    have hpre : (p :: ps).isPrefixOf (p :: (ps ++ rest)) = true := by
      rw [List.isPrefixOf_iff_prefix]
      exact List.prefix_append (p :: ps) rest
    rw [List.cons_append, removeFirst, if_pos hpre]
    simp

/-- C11. The payment method that is persisted is `credit_card` when the request said
`card` and the method of the request otherwise, hence `credit_card` or `upi`: for the
payment row committed by a successful `bookApartment`, and for the record
`createPayment` hands to the persistence service. -/
theorem payment_method_normalised :
    (∀ (env : Env) (db : Store) (req : BookingRequest),
      (bookApartment env db req).response.success = true →
      ∃ inv row, (bookApartment env db req).store.payments =
          (stampInvoice inv env.paymentInsertId db).payments ++ [row] ∧
        row.payment_method =
          (if req.payment_method = .str "card" then .str "credit_card"
            else req.payment_method) ∧
        (row.payment_method = .str "credit_card" ∨ row.payment_method = .str "upi")) ∧
    (∀ (svc : PaymentModel → Except String ServiceResult) (now : Nat) (p : PaymentRequest)
      (m : PaymentModel), (createPayment svc now p).submitted = some m →
      m.payment_method =
        (if p.payment_method = .str "card" then .str "credit_card" else p.payment_method) ∧
      (m.payment_method = .str "credit_card" ∨ m.payment_method = .str "upi")) := by
  constructor
  · intro env db req h
    obtain ⟨hv, inv, text, -, -, -, -, hpay, -⟩ := bookApartment_ok env db req h
    refine ⟨inv, _, hpay, rfl, ?_⟩
    rcases checkMethodAndDetails_method _ _ (validateBooking_none req hv) with hm | hm | hm <;>
      simp [paymentRowOf, hm]
  · intro svc now p m h
    obtain ⟨hv, rfl⟩ := (createPayment_submitted svc now p m).mp h
    refine ⟨rfl, ?_⟩
    rcases checkMethodAndDetails_method _ _ (validatePayment_none p hv) with hm | hm | hm <;>
      simp [newPaymentOf, hm]

/-- C11 at the sample card payment. -/
theorem payment_method_normalised_witness :
    (newPaymentOf 0 samplePayment).payment_method = .str "credit_card" ∨
      (newPaymentOf 0 samplePayment).payment_method = .str "upi" :=
  (payment_method_normalised.2 acceptingService 0 samplePayment (newPaymentOf 0 samplePayment)
    (by decide)).2

/-- C12. A valid request whose `unit_id` is the string `fallback-` followed by `s`, when
no store call fails (and the property id has a string form for the invoice reference):
the booking succeeds whatever the unit rows are; no store call reads or changes the
unit rows, which are committed as they were; and exactly one booking row is added,
with `unit_id` equal to `s` and a note that contains `fallback`. -/
theorem bookApartment_fallback (env : Env) (db : Store) (req : BookingRequest)
    (s inv : String)
    (hvalid : validateBooking req = none)
    (hunit : req.unit_id = .str ("fallback-" ++ s))
    (hinvoice : invoiceNumberOf req.property_id env.dateNow = some inv)
    (hfault : ∀ k, env.fault k = none) :
    (bookApartment env db req).response = bookingSucceeded env.paymentInsertId inv ∧
    (bookApartment env db req).conn.log =
      [getConnection, beginTransaction, insertPayment, insertBooking, Op.stampInvoice,
        commit, release] ∧
    selectUnit ∉ (bookApartment env db req).conn.log ∧
    updateUnit ∉ (bookApartment env db req).conn.log ∧
    (bookApartment env db req).store.apartment_units = db.apartment_units ∧
    (bookApartment env db req).store.apartment_bookings =
      db.apartment_bookings ++ [fallbackBookingRowOf env req env.paymentInsertId s] ∧
    (fallbackBookingRowOf env req env.paymentInsertId s).unit_id = .str s ∧
    ∃ note, (fallbackBookingRowOf env req env.paymentInsertId s).notes = some note ∧
      List.IsInfix "fallback".data note.data := by
  have htext : req.unit_id.callToString = some ("fallback-" ++ s) := by
    rw [hunit]; rfl
  have hfb : startsWith ("fallback-" ++ s) fallbackMarker = true := by
    unfold startsWith fallbackMarker
    rw [String.data_append, List.isPrefixOf_iff_prefix]
    exact List.prefix_append _ _
  have hrf : req.unit_id.replaceFallback = some s := by
    rw [hunit]
    simp only [JsVal.replaceFallback, fallbackMarker, String.data_append]
    rw [removeFirst_append _ _ (by decide)]
  have hrun : (bookApartment env db req) =
      { response := bookingSucceeded env.paymentInsertId inv
        conn :=
          { committed := stampInvoice inv env.paymentInsertId
              { payments := db.payments ++ [paymentRowOf env req]
                apartment_bookings :=
                  db.apartment_bookings ++ [fallbackBookingRowOf env req env.paymentInsertId s]
                apartment_units := db.apartment_units }
            txn := none
            log := [getConnection, beginTransaction, insertPayment, insertBooking,
              Op.stampInvoice, commit, release] } } := by
    simp [bookApartment, hvalid, transaction, bookUnit, finishBooking, htext, hfb, hrf,
      thrown, Conn.logged, Conn.write, Conn.view, Conn.beginTxn, Conn.commitTxn, hfault,
      hinvoice]
  rw [hrun]
  refine ⟨rfl, rfl, by simp, by simp, rfl, rfl, rfl, _, rfl, ?_⟩
  exact ⟨"Demo booking - Unit is a ".data, " demo unit".data, by decide⟩

/-- C12 at the booking of `fallback-7` with amount 500 on a store without unit rows. -/
theorem bookApartment_fallback_witness :
    (bookApartment sampleEnv emptyStore fallbackRequest).response.success = true ∧
    (bookApartment sampleEnv emptyStore fallbackRequest).store.apartment_bookings.map
      (fun b => b.unit_id) = [.str "7"] := by
  have h := bookApartment_fallback sampleEnv emptyStore fallbackRequest "7" "APT-9-1700000000"
    (by decide) (by decide) (by decide) (fun _ => rfl)
  refine ⟨?_, ?_⟩
  · rw [h.1]; rfl
  · rw [h.2.2.2.2.2.1]; rfl

/-- C13, the claim as stated fails: a negative `amount_paid` is accepted.  The sample
booking with amount -1000 passes the validation of `bookApartment`, succeeds and
commits a payment row with that amount; the sample payment with amount -500 passes the
checks of `createPayment` and reaches the persistence service. -/
theorem negative_amount_accepted :
    validateBooking negativeBooking = none ∧
    (bookApartment sampleEnv sampleStore negativeBooking).response.success = true ∧
    (bookApartment sampleEnv sampleStore negativeBooking).store.payments.map
      (fun row => row.amount_paid) = [.num (-1000)] ∧
    validatePayment negativePayment = none ∧
    (createPayment acceptingService 0 negativePayment).submitted.map
      (fun m => m.amount_paid) = some (.num (-500)) ∧
    ¬ ((0 : Int) < -1000) ∧ ¬ ((0 : Int) < -500) := by
  decide

/-- C13 as amended. Every payment persisted by `bookApartment` or handed to persistence
by `createPayment` carries the `amount_paid` of the request, and that value is truthy:
a numeric amount is non-zero.  The server-side validation rejects a zero amount (as a
missing field); it accepts a negative one. -/
theorem amount_paid_nonzero :
    (∀ (env : Env) (db : Store) (req : BookingRequest),
      (bookApartment env db req).response.success = true →
      ∃ inv row, (bookApartment env db req).store.payments =
          (stampInvoice inv env.paymentInsertId db).payments ++ [row] ∧
        row.amount_paid = req.amount_paid ∧ row.amount_paid.truthy = true) ∧
    (∀ (svc : PaymentModel → Except String ServiceResult) (now : Nat) (p : PaymentRequest)
      (m : PaymentModel), (createPayment svc now p).submitted = some m →
      m.amount_paid = p.amount_paid ∧ m.amount_paid.truthy = true) ∧
    (∀ n : Int, (JsVal.num n).truthy = true ↔ n ≠ 0) ∧
    (∀ req : BookingRequest, req.amount_paid = .num 0 →
      validateBooking req = some missingBookingFields) ∧
    (∀ p : PaymentRequest, p.amount_paid = .num 0 →
      validatePayment p = some missingPaymentFields) := by
  refine ⟨?_, ?_, ?_, ?_, ?_⟩
  · intro env db req h
    obtain ⟨hv, inv, text, -, -, -, -, hpay, -⟩ := bookApartment_ok env db req h
    refine ⟨inv, _, hpay, rfl, ?_⟩
    exact (validateBooking_required req hv).2.2.2.1
  · intro svc now p m h
    obtain ⟨hv, rfl⟩ := (createPayment_submitted svc now p m).mp h
    refine ⟨rfl, ?_⟩
    unfold validatePayment at hv
    split at hv
    · simp at hv
    · rename_i hreq
      simp only [Bool.or_eq_true, Bool.not_eq_true', not_or, Bool.not_eq_false] at hreq
      exact hreq.1.1.1.2
  · intro n
    simp [JsVal.truthy]
  · intro req h0
    have : req.amount_paid.truthy = false := by rw [h0]; rfl
    simp [validateBooking, this]
  · intro p h0
    have : p.amount_paid.truthy = false := by rw [h0]; rfl
    simp [validatePayment, this]

/-- C13 as amended, at the sample booking with amount 1000. -/
theorem amount_paid_nonzero_witness :
    (bookApartment sampleEnv sampleStore sampleRequest).store.payments.map
      (fun row => row.amount_paid) = [.num 1000] := by
  obtain ⟨inv, row, hpay, hrow, -⟩ :=
    amount_paid_nonzero.1 sampleEnv sampleStore sampleRequest (by decide)
  rw [hpay, List.map_append, List.map_singleton, hrow]
  rfl

/-- C14. The invoice reference returned by a successful booking is `APT-`, the string
form of the property id, `-`, and the clock reading in whole seconds
(`floor(Date.now() / 1000)`).  Hence two successful bookings with the same property id
whose clock readings fall in the same second return the same reference, whatever the
stores, the generated ids and the other request fields are. -/
theorem invoice_number_of_property_and_second :
    (∀ (env : Env) (db : Store) (req : BookingRequest),
      (bookApartment env db req).response.success = true →
      ∃ p, req.property_id.toStr = some p ∧
        (bookApartment env db req).response.data.map (fun d => d.invoice_number) =
          some ("APT-" ++ p ++ "-" ++ toString (env.dateNow / 1000))) ∧
    (∀ (env₁ env₂ : Env) (db₁ db₂ : Store) (req₁ req₂ : BookingRequest),
      (bookApartment env₁ db₁ req₁).response.success = true →
      (bookApartment env₂ db₂ req₂).response.success = true →
      req₁.property_id = req₂.property_id →
      env₁.dateNow / 1000 = env₂.dateNow / 1000 →
      (bookApartment env₁ db₁ req₁).response.data.map (fun d => d.invoice_number) =
        (bookApartment env₂ db₂ req₂).response.data.map (fun d => d.invoice_number)) := by
  have hfirst : ∀ (env : Env) (db : Store) (req : BookingRequest),
      (bookApartment env db req).response.success = true →
      ∃ p, req.property_id.toStr = some p ∧
        (bookApartment env db req).response.data.map (fun d => d.invoice_number) =
          some ("APT-" ++ p ++ "-" ++ toString (env.dateNow / 1000)) := by
    intro env db req h
    obtain ⟨-, inv, text, hinv, -, hresp, -⟩ := bookApartment_ok env db req h
    unfold invoiceNumberOf at hinv
    cases hp : req.property_id.toStr with
    | none => simp [hp] at hinv
    | some p =>
      simp only [hp, Option.some.injEq] at hinv
      exact ⟨p, rfl, by rw [hresp, ← hinv]; rfl⟩
  refine ⟨hfirst, ?_⟩
  intro env₁ env₂ db₁ db₂ req₁ req₂ h₁ h₂ hprop hsec
  obtain ⟨p₁, hp₁, hd₁⟩ := hfirst env₁ db₁ req₁ h₁
  obtain ⟨p₂, hp₂, hd₂⟩ := hfirst env₂ db₂ req₂ h₂
  rw [hprop, hp₂] at hp₁
  injection hp₁ with hp
  rw [hd₁, hd₂, hp, hsec]

/-- C14 at two bookings of property 9 within one second, by different users, for
different units and amounts and with different generated payment ids. -/
theorem invoice_number_of_property_and_second_witness :
    (bookApartment sampleEnv emptyStore fallbackRequest).response.data.map
        (fun d => d.invoice_number) =
      (bookApartment laterEnv emptyStore otherRequest).response.data.map
        (fun d => d.invoice_number) :=
  invoice_number_of_property_and_second.2 sampleEnv laterEnv emptyStore emptyStore
    fallbackRequest otherRequest (by decide) (by decide) (by decide) (by decide)

/-- C15. After a successful booking the committed payment rows are the old rows
followed by one new row, which has the returned `payment_id`, equals the row as it was
inserted except for `invoice_number`, and carries the returned invoice reference; an
old row is unchanged or changed in `invoice_number` only. -/
theorem payment_stamped_only (env : Env) (db : Store) (req : BookingRequest)
    (h : (bookApartment env db req).response.success = true) :
    ∃ inv old, (bookApartment env db req).response.data =
        some { payment_id := env.paymentInsertId, invoice_number := inv } ∧
      (bookApartment env db req).store.payments =
        old ++ [{ paymentRowOf env req with invoice_number := .str inv }] ∧
      (paymentRowOf env req).id = env.paymentInsertId ∧
      (paymentRowOf env req).invoice_number = .null ∧
      List.Forall₂ (fun before after =>
        after = before ∨ after = { before with invoice_number := .str inv })
        db.payments old := by
  obtain ⟨-, inv, text, -, -, hresp, -, hpay, -⟩ := bookApartment_ok env db req h
  refine ⟨inv, _, by rw [hresp]; rfl, hpay, rfl, rfl, ?_⟩
  rw [stampInvoice, List.forall₂_map_right_iff]
  refine List.forall₂_same.mpr (fun p _ => ?_)
  by_cases hid : p.id = env.paymentInsertId
  · simp [hid]
  · simp [hid]

/-- C15 at the sample booking. -/
theorem payment_stamped_only_witness :
    ∃ inv old, (bookApartment sampleEnv sampleStore sampleRequest).store.payments =
      old ++ [{ paymentRowOf sampleEnv sampleRequest with invoice_number := .str inv }] :=
  have ⟨inv, old, _, hpay, _⟩ :=
    payment_stamped_only sampleEnv sampleStore sampleRequest (by decide)
  ⟨inv, old, hpay⟩

/-- C16. After a successful booking the inserted payment row has status `completed`
whatever status the request carried, and the one inserted booking row has status
`confirmed`, the amount of the request, and the id of the inserted payment. -/
theorem booking_statuses (env : Env) (db : Store) (req : BookingRequest)
    (h : (bookApartment env db req).response.success = true) :
    ∃ old payment booking,
      (bookApartment env db req).store.payments = old ++ [payment] ∧
      payment.status = .str "completed" ∧
      (bookApartment env db req).store.apartment_bookings =
        db.apartment_bookings ++ [booking] ∧
      booking.status = "confirmed" ∧ booking.amount = req.amount_paid ∧
      booking.payment_id = payment.id := by
  obtain ⟨-, inv, text, -, -, -, -, hpay, hcase⟩ := bookApartment_ok env db req h
  rcases hcase with ⟨-, stripped, -, hbook, -⟩ | ⟨-, hbook, -⟩
  · exact ⟨_, _, _, hpay, rfl, hbook, rfl, rfl, rfl⟩
  · exact ⟨_, _, _, hpay, rfl, hbook, rfl, rfl, rfl⟩

/-- C16 at the sample booking sent with the status `pending`. -/
theorem booking_statuses_witness :
    ∃ old payment, (bookApartment sampleEnv sampleStore
        { sampleRequest with status := .str "pending" }).store.payments = old ++ [payment] ∧
      payment.status = .str "completed" :=
  have ⟨old, payment, _, hpay, hstatus, _⟩ :=
    booking_statuses sampleEnv sampleStore { sampleRequest with status := .str "pending" }
      (by decide)
  ⟨old, payment, hpay, hstatus⟩

/-! ## Invoices -/

/-- The row object of the first lookup is tagged `property`. -/
theorem propertyRow_type (j : PropertyJoin) :
    (propertyRow j).lookup "payment_type" = .str "property" := by
  simp [propertyRow, JsFields.lookup_set]

/-- The run of `generateInvoice` when the first lookup finds a row. -/
theorem generateInvoice_property (env : InvoiceEnv) (payment_id : JsVal) (j : PropertyJoin)
    (rest : List PropertyJoin) (hid : payment_id.truthy = true)
    (hlookup : env.propertyLookup payment_id = .ok (j :: rest)) :
    generateInvoice env payment_id =
      match env.getPyamentData ((propertyRow j).lookup "user_id")
          ((propertyRow j).lookup "property_id") with
      | .error e =>
        { response := invoiceServerError e, log := [.propertyLookup, .summary] }
      | .ok paymentData =>
        { response := invoiceSucceeded ((propertyRow j).assign
            ((paymentData.getOpt "payment_summary").or
              (.obj (summaryFallback env (propertyRow j)))).ownEntries)
          log := [.propertyLookup, .summary] } := by
  simp only [generateInvoice, hid, hlookup, composeInvoice, List.map_cons, propertyRow_type]
  simp only [Bool.not_true, Bool.false_eq_true, if_false, List.length_cons]
  simp only [Nat.add_one_ne_zero, if_false, if_true]
  cases env.getPyamentData ((propertyRow j).lookup "user_id")
    ((propertyRow j).lookup "property_id") <;> rfl

/-- C17, the claim as stated fails: for the property payment with id `5`, when the
aggregator throws, `generateInvoice` answers HTTP 500 without an invoice. -/
theorem aggregator_error_fails_invoice :
    (sampleInvoiceEnv (.error "aggregator down")).propertyLookup (.str "5") =
      .ok [samplePropertyJoin] ∧
    (generateInvoice (sampleInvoiceEnv (.error "aggregator down")) (.str "5")).response =
      invoiceServerError "aggregator down" ∧
    (invoiceServerError "aggregator down").status = 500 ∧
    (invoiceServerError "aggregator down").success = false ∧
    (invoiceServerError "aggregator down").invoice = none :=
  ⟨rfl, rfl, rfl, rfl, rfl⟩

/-- C17 as amended. For a payment found by the property lookup: when the aggregator
throws, `generateInvoice` answers HTTP 500 with the error and no invoice; when the
aggregator returns a value without a truthy `payment_summary` (for instance `null`),
`generateInvoice` answers with a successful invoice whose five summary figures are
derived from the row's own `price`, `total_price` and `amount_paid`. -/
theorem generateInvoice_without_summary (env : InvoiceEnv) (payment_id : JsVal)
    (j : PropertyJoin) (rest : List PropertyJoin) (hid : payment_id.truthy = true)
    (hlookup : env.propertyLookup payment_id = .ok (j :: rest)) :
    (∀ e, env.getPyamentData ((propertyRow j).lookup "user_id")
        ((propertyRow j).lookup "property_id") = .error e →
      generateInvoice env payment_id =
        { response := invoiceServerError e, log := [.propertyLookup, .summary] } ∧
      (invoiceServerError e).status = 500 ∧ (invoiceServerError e).invoice = none) ∧
    (∀ data, env.getPyamentData ((propertyRow j).lookup "user_id")
        ((propertyRow j).lookup "property_id") = .ok data →
      (data.getOpt "payment_summary").truthy = false →
      ∃ invoice, (generateInvoice env payment_id).response = invoiceSucceeded invoice ∧
        (invoiceSucceeded invoice).status = 200 ∧
        invoice = (propertyRow j).assign (summaryFallback env (propertyRow j)) ∧
        invoice.lookup "full_property_price" = ((propertyRow j).lookup "price").or (.num 0) ∧
        invoice.lookup "deposit_amount" =
          ((propertyRow j).lookup "total_price").or (.num 0) ∧
        invoice.lookup "total_paid" = ((propertyRow j).lookup "amount_paid").or (.num 0) ∧
        invoice.lookup "pending_amount" =
          env.minus (((propertyRow j).lookup "price").or (.num 0))
            (((propertyRow j).lookup "amount_paid").or (.num 0)) ∧
        invoice.lookup "percentage_paid" =
          (if env.positive ((propertyRow j).lookup "price")
            then env.roundedPercent ((propertyRow j).lookup "amount_paid")
              ((propertyRow j).lookup "price")
            else .num 0)) := by
  have hrun := generateInvoice_property env payment_id j rest hid hlookup
  constructor
  · intro e he
    rw [he] at hrun
    exact ⟨hrun, rfl, rfl⟩
  · intro data hdata hnone
    rw [hdata] at hrun
    simp only [JsVal.or, hnone, Bool.false_eq_true, if_false, JsVal.ownEntries] at hrun
    refine ⟨_, by rw [hrun], rfl, rfl, ?_, ?_, ?_, ?_, ?_⟩ <;>
      simp [JsFields.lookup_assign, summaryFallback, JsFields.ofList, JsFields.hasKey,
        JsFields.lookup, JsVal.or]

/-- C17 as amended, at the sample property payment when the aggregator returns `null`. -/
theorem generateInvoice_without_summary_witness :
    ∃ invoice, (generateInvoice (sampleInvoiceEnv (.ok .null)) (.str "5")).response =
        invoiceSucceeded invoice ∧
      invoice.lookup "total_paid" = .num 500 := by
  obtain ⟨invoice, hresp, -, -, -, -, hpaid, -⟩ :=
    (generateInvoice_without_summary (sampleInvoiceEnv (.ok .null)) (.str "5")
      samplePropertyJoin [] (by decide) rfl).2 .null rfl (by decide)
  exact ⟨invoice, hresp, hpaid.trans (by decide)⟩

/-- C18. `generateInvoice` makes the apartment lookup only after the property lookup
returned no row.  When the property lookup returns a row, the apartment lookup is not
made and its answer is immaterial (the same id may match an apartment booking as
well): the summary branch of a `property` row is taken on that row, and every invoice
produced is that row with the summary figures laid over it, tagged `property` unless
the figures themselves carry a `payment_type`. -/
theorem generateInvoice_property_first :
    (∀ (env : InvoiceEnv) (payment_id : JsVal),
      InvoiceOp.apartmentLookup ∈ (generateInvoice env payment_id).log →
      env.propertyLookup payment_id = .ok []) ∧
    (∀ (env : InvoiceEnv) (payment_id : JsVal) (j : PropertyJoin) (rest : List PropertyJoin),
      payment_id.truthy = true → env.propertyLookup payment_id = .ok (j :: rest) →
      InvoiceOp.apartmentLookup ∉ (generateInvoice env payment_id).log ∧
      (∀ other : JsVal → Except String (List ApartmentJoin),
        generateInvoice { env with apartmentLookup := other } payment_id =
          generateInvoice env payment_id) ∧
      (propertyRow j).lookup "payment_type" = .str "property" ∧
      (generateInvoice env payment_id).log = [.propertyLookup, .summary] ∧
      (∀ invoice, (generateInvoice env payment_id).response.invoice = some invoice →
        ∃ figures, invoice = (propertyRow j).assign figures ∧
          (∀ key, figures.hasKey key = false →
            invoice.lookup key = (propertyRow j).lookup key) ∧
          (figures.hasKey "payment_type" = false →
            invoice.lookup "payment_type" = .str "property"))) := by
  constructor
  · intro env payment_id hmem
    unfold generateInvoice at hmem
    cases hid : payment_id.truthy with
    | false => simp [hid] at hmem
    | true =>
      cases hl : env.propertyLookup payment_id with
      | error e => simp [hid, hl] at hmem
      | ok rows =>
        cases rows with
        | nil => rfl
        | cons j rest =>
          simp only [hid, hl, composeInvoice, List.map_cons, propertyRow_type,
            Bool.not_true, Bool.false_eq_true, if_false, List.length_cons,
            Nat.add_one_ne_zero, if_true] at hmem
          cases hd : env.getPyamentData ((propertyRow j).lookup "user_id")
            ((propertyRow j).lookup "property_id") <;> simp [hd] at hmem
  · intro env payment_id j rest hid hlookup
    have hrun := generateInvoice_property env payment_id j rest hid hlookup
    have hlog : (generateInvoice env payment_id).log = [.propertyLookup, .summary] := by
      rw [hrun]
      cases env.getPyamentData ((propertyRow j).lookup "user_id")
        ((propertyRow j).lookup "property_id") <;> rfl
    refine ⟨by rw [hlog]; decide, fun other => ?_, propertyRow_type j, hlog, ?_⟩
    · rw [hrun, generateInvoice_property { env with apartmentLookup := other } payment_id j
        rest hid hlookup]
      rfl
    · intro invoice hinv
      rw [hrun] at hinv
      cases hd : env.getPyamentData ((propertyRow j).lookup "user_id")
          ((propertyRow j).lookup "property_id") with
      | error e => simp [hd, invoiceServerError] at hinv
      | ok data =>
        simp only [hd, invoiceSucceeded, Option.some.injEq] at hinv
        refine ⟨_, hinv.symm, fun key hkey => ?_, fun hkey => ?_⟩
        · rw [← hinv, JsFields.lookup_assign, hkey]
          rfl
        · rw [← hinv, JsFields.lookup_assign, hkey]
          exact propertyRow_type j

/-- C18 at the sample environment, where payment id `5` matches both lookups. -/
theorem generateInvoice_property_first_witness :
    (sampleInvoiceEnv (.ok sampleSummaryData)).apartmentLookup (.str "5") =
      .ok [sampleApartmentJoin] ∧
    (generateInvoice (sampleInvoiceEnv (.ok sampleSummaryData)) (.str "5")).log =
      [.propertyLookup, .summary] :=
  ⟨rfl, (generateInvoice_property_first.2 (sampleInvoiceEnv (.ok sampleSummaryData)) (.str "5")
    samplePropertyJoin [] (by decide) rfl).2.2.2.1⟩

/-- Reading the row object of the second lookup: the tag, the amount of the payment
row and the values of the joined unit. -/
theorem apartmentRow_lookup (j : ApartmentJoin) :
    (apartmentRow j).lookup "payment_type" = .str "apartment" ∧
    (apartmentRow j).lookup "amount_paid" = j.p.amount_paid ∧
    (apartmentRow j).lookup "unit_number" = .str j.unit.unit_number ∧
    (apartmentRow j).lookup "floor_number" = .num j.unit.floor_number ∧
    (apartmentRow j).lookup "bedrooms" = .num j.unit.bedrooms ∧
    (apartmentRow j).lookup "bathrooms" = .num j.unit.bathrooms ∧
    (apartmentRow j).lookup "area" = .num j.unit.area := by
  have hamount : j.p.columns.lookup "amount_paid" = j.p.amount_paid := by
    simp only [PaymentRow.columns, JsFields.ofList, JsFields.lookup, String.reduceEq,
      if_false, if_true]
  refine ⟨?_, ?_, ?_, ?_, ?_, ?_, ?_⟩ <;>
    simp only [apartmentRow, JsFields.lookup_set, String.reduceEq, if_false, if_true, hamount]

/-- Reading the invoice of an apartment booking built over the row object `row`. -/
theorem apartmentFigures_lookup (row : JsFields) :
    (row.assign (apartmentFigures row)).lookup "payment_type" = row.lookup "payment_type" ∧
    (row.assign (apartmentFigures row)).lookup "percentage_paid" = .num 100 ∧
    (row.assign (apartmentFigures row)).lookup "pending_amount" = .num 0 ∧
    (row.assign (apartmentFigures row)).lookup "total_paid" =
      (row.lookup "amount_paid").or (.num 0) ∧
    (row.assign (apartmentFigures row)).lookup "unit_details" = .obj (.ofList
      [("unit_number", row.lookup "unit_number"),
       ("floor_number", row.lookup "floor_number"),
       ("bedrooms", row.lookup "bedrooms"),
       ("bathrooms", row.lookup "bathrooms"),
       ("area", row.lookup "area")]) := by
  refine ⟨?_, ?_, ?_, ?_, ?_⟩ <;>
    simp only [apartmentFigures, JsFields.ofList, JsFields.assign, JsFields.lookup_set,
      String.reduceEq, if_false, if_true]

/-- The run of `generateInvoice` when only the second lookup finds a row. -/
theorem generateInvoice_apartment_run (env : InvoiceEnv) (payment_id : JsVal)
    (j : ApartmentJoin) (rest : List ApartmentJoin) (hid : payment_id.truthy = true)
    (hproperty : env.propertyLookup payment_id = .ok [])
    (hlookup : env.apartmentLookup payment_id = .ok (j :: rest)) :
    generateInvoice env payment_id =
      { response :=
          invoiceSucceeded ((apartmentRow j).assign (apartmentFigures (apartmentRow j)))
        log := [.propertyLookup, .apartmentLookup] } := by
  simp [generateInvoice, hid, hproperty, hlookup, composeInvoice, (apartmentRow_lookup j).1]

/-- C19. For a payment found by the apartment lookup (the property lookup having found
none), `generateInvoice` answers with an invoice that has `percentage_paid` 100,
`pending_amount` 0, `total_paid` equal to `amount_paid || 0` of the payment row (the
row's `amount_paid` itself whenever that is truthy or the number 0), and a
`unit_details` object whose five fields are the values of the joined unit. -/
theorem generateInvoice_apartment (env : InvoiceEnv) (payment_id : JsVal)
    (j : ApartmentJoin) (rest : List ApartmentJoin) (hid : payment_id.truthy = true)
    (hproperty : env.propertyLookup payment_id = .ok [])
    (hlookup : env.apartmentLookup payment_id = .ok (j :: rest)) :
    ∃ invoice, (generateInvoice env payment_id).response = invoiceSucceeded invoice ∧
      (invoiceSucceeded invoice).status = 200 ∧
      invoice.lookup "payment_type" = .str "apartment" ∧
      invoice.lookup "percentage_paid" = .num 100 ∧
      invoice.lookup "pending_amount" = .num 0 ∧
      invoice.lookup "total_paid" = j.p.amount_paid.or (.num 0) ∧
      ((j.p.amount_paid.truthy = true ∨ j.p.amount_paid = .num 0) →
        invoice.lookup "total_paid" = j.p.amount_paid) ∧
      invoice.lookup "unit_details" = .obj (.ofList
        [("unit_number", .str j.unit.unit_number),
         ("floor_number", .num j.unit.floor_number),
         ("bedrooms", .num j.unit.bedrooms),
         ("bathrooms", .num j.unit.bathrooms),
         ("area", .num j.unit.area)]) := by
  have hrun := generateInvoice_apartment_run env payment_id j rest hid hproperty hlookup
  obtain ⟨htype, hamount, hnumber, hfloor, hbed, hbath, harea⟩ := apartmentRow_lookup j
  obtain ⟨ftype, fpct, fpending, fpaid, funit⟩ := apartmentFigures_lookup (apartmentRow j)
  rw [hamount] at fpaid
  rw [hnumber, hfloor, hbed, hbath, harea] at funit
  refine ⟨_, by rw [hrun], rfl, ftype.trans htype, fpct, fpending, fpaid, ?_, funit⟩
  intro h
  rw [fpaid]
  rcases h with h | h
  · simp [JsVal.or, h]
  · rw [h]; rfl

/-- C19 at the payment of the sample booking, found under id `7`. -/
theorem generateInvoice_apartment_witness :
    ∃ invoice, (generateInvoice (sampleInvoiceEnv (.ok .null)) (.str "7")).response =
        invoiceSucceeded invoice ∧
      invoice.lookup "percentage_paid" = .num 100 ∧
      invoice.lookup "total_paid" = .num 1000 := by
  obtain ⟨invoice, hresp, -, -, hpct, -, -, hpaid, -⟩ :=
    generateInvoice_apartment (sampleInvoiceEnv (.ok .null)) (.str "7") sampleApartmentJoin []
      (by decide) rfl rfl
  exact ⟨invoice, hresp, hpct, (hpaid (Or.inl (by decide))).trans (by decide)⟩

/-- C20. For a payment found by the property lookup for which the aggregator returns a
value whose `payment_summary` is an object `S`: the invoice is the row with the
properties of `S` laid over it, so every field that `S` has (`full_property_price`,
`deposit_amount`, `total_paid`, `pending_amount`, `percentage_paid`, when `S` is a
payment summary) is read from the invoice as it is in `S`, whatever same-named column
the row has; a key `S` lacks is read as in the row. -/
theorem generateInvoice_summary_overrides (env : InvoiceEnv) (payment_id : JsVal)
    (j : PropertyJoin) (rest : List PropertyJoin) (data : JsVal) (summary : JsFields)
    (hid : payment_id.truthy = true)
    (hlookup : env.propertyLookup payment_id = .ok (j :: rest))
    (hdata : env.getPyamentData ((propertyRow j).lookup "user_id")
      ((propertyRow j).lookup "property_id") = .ok data)
    (hsummary : data.getOpt "payment_summary" = .obj summary) :
    ∃ invoice, (generateInvoice env payment_id).response = invoiceSucceeded invoice ∧
      (invoiceSucceeded invoice).status = 200 ∧
      invoice = (propertyRow j).assign summary ∧
      (∀ key ∈ ["full_property_price", "deposit_amount", "total_paid", "pending_amount",
          "percentage_paid"],
        summary.hasKey key = true → invoice.lookup key = summary.lookup key) ∧
      (∀ key, summary.hasKey key = true → invoice.lookup key = summary.lookup key) ∧
      (∀ key, summary.hasKey key = false →
        invoice.lookup key = (propertyRow j).lookup key) := by
  have hrun := generateInvoice_property env payment_id j rest hid hlookup
  rw [hdata] at hrun
  simp only [hsummary, JsVal.or, JsVal.truthy, if_true, JsVal.ownEntries] at hrun
  refine ⟨_, by rw [hrun], rfl, rfl, fun key _ hkey => ?_, fun key hkey => ?_,
    fun key hkey => ?_⟩
  · rw [JsFields.lookup_assign, hkey]; rfl
  · rw [JsFields.lookup_assign, hkey]; rfl
  · rw [JsFields.lookup_assign, hkey]; rfl

/-- C20 at the sample property payment with the sample summary. -/
theorem generateInvoice_summary_overrides_witness :
    ∃ invoice, (generateInvoice (sampleInvoiceEnv (.ok sampleSummaryData)) (.str "5")).response =
        invoiceSucceeded invoice ∧
      invoice.lookup "total_paid" = .num 1500 := by
  obtain ⟨invoice, hresp, -, -, -, hkey, -⟩ :=
    generateInvoice_summary_overrides (sampleInvoiceEnv (.ok sampleSummaryData)) (.str "5")
      samplePropertyJoin [] sampleSummaryData _ (by decide) rfl rfl rfl
  exact ⟨invoice, hresp, (hkey "total_paid" (by decide)).trans (by decide)⟩

/-! ## Invoice lookups that find nothing or fail -/

/-- C21: for a request that carries a payment id, `generateInvoice` answers 404 exactly
when the property-payment lookup and the apartment-booking lookup both return no row,
and the 404 answer is "Payment not found"; it answers 500 with the error of the query
when the first lookup fails, and when the second lookup (made because the first found
no row) fails. -/
theorem generateInvoice_not_found_iff (env : InvoiceEnv) (payment_id : JsVal)
    (hid : payment_id.truthy = true) :
    ((generateInvoice env payment_id).response.status = 404 ↔
      env.propertyLookup payment_id = .ok [] ∧ env.apartmentLookup payment_id = .ok []) ∧
    ((generateInvoice env payment_id).response.status = 404 →
      (generateInvoice env payment_id).response = paymentNotFound) ∧
    (∀ e, env.propertyLookup payment_id = .error e →
      (generateInvoice env payment_id).response = invoiceServerError e ∧
      (generateInvoice env payment_id).response.status = 500) ∧
    (∀ e, env.propertyLookup payment_id = .ok [] →
      env.apartmentLookup payment_id = .error e →
      (generateInvoice env payment_id).response = invoiceServerError e ∧
      (generateInvoice env payment_id).response.status = 500) := by
  have hcompose : ∀ (row : JsFields) (rest : List JsFields) (log : List InvoiceOp),
      (composeInvoice env (row :: rest) log).response.status ≠ 404 := by
    intro row rest log
    unfold composeInvoice
    simp only []
    split
    · split <;> simp [invoiceServerError, invoiceSucceeded]
    · simp [invoiceSucceeded]
  unfold generateInvoice
  simp only [hid, Bool.not_true, Bool.false_eq_true, if_false]
  cases hp : env.propertyLookup payment_id with
  | error e => simp [invoiceServerError]
  | ok propertyRows =>
    cases propertyRows with
    | cons j rest =>
      have := hcompose (propertyRow j) (rest.map propertyRow) [.propertyLookup]
      simp [this]
    | nil =>
      cases ha : env.apartmentLookup payment_id with
      | error e => simp [invoiceServerError]
      | ok apartmentRows =>
        cases apartmentRows with
        | nil => simp [composeInvoice, paymentNotFound]
        | cons j rest =>
          have := hcompose (apartmentRow j) (rest.map apartmentRow)
            [.propertyLookup, .apartmentLookup]
          simp [this]

/-- C21 at work: no lookup of the sample environment finds payment id `8`. -/
theorem generateInvoice_not_found_iff_witness :
    (JsVal.str "8").truthy = true ∧
    (generateInvoice (sampleInvoiceEnv (.ok .null)) (.str "8")).response.status = 404 :=
  ⟨by decide,
    (generateInvoice_not_found_iff (sampleInvoiceEnv (.ok .null)) (.str "8")
      (by decide)).1.2 ⟨rfl, rfl⟩⟩

/-! ## The merged payment history -/

/-- C22: for a request that carries a user id and whose two queries answer, the
controller answers 200 with a list that is a rearrangement of the property-payment
rows followed by the apartment-payment rows (so its length is the sum of the two) in
which no row comes before a row of a later `payment_date`; `sortWith` is a total
function, so rows of equal dates yield a list like any others. -/
theorem getAllUserPayments_sorted (env : HistoryEnv) (user_id : JsVal)
    (propertyPayments apartmentPayments : List HistoryRow)
    (hid : user_id.truthy = true)
    (hproperty : env.propertyPayments user_id = .ok propertyPayments)
    (hapartment : env.apartmentPayments user_id = .ok apartmentPayments) :
    ∃ allPayments,
      getAllUserPaymentsController env user_id = historySucceeded allPayments ∧
      allPayments.Perm (propertyPayments ++ apartmentPayments) ∧
      allPayments.length = propertyPayments.length + apartmentPayments.length ∧
      allPayments.Pairwise (fun a b => b.payment_date ≤ a.payment_date) := by
  refine ⟨sortWith compareByDate (propertyPayments ++ apartmentPayments), ?_, ?_, ?_, ?_⟩
  · simp [getAllUserPaymentsController, hid, hproperty, hapartment]
  · exact List.perm_insertionSort _ _
  · rw [sortWith, List.length_insertionSort, List.length_append]
  · have htotal : IsTotal HistoryRow (fun a b => compareByDate a b ≤ 0) :=
      ⟨fun a b => by simp only [compareByDate]; omega⟩
    have htrans : IsTrans HistoryRow (fun a b => compareByDate a b ≤ 0) :=
      ⟨fun a b c => by simp only [compareByDate]; omega⟩
    have hsorted := List.sorted_insertionSort (fun a b : HistoryRow => compareByDate a b ≤ 0)
      (propertyPayments ++ apartmentPayments)
    refine List.Pairwise.imp ?_ hsorted
    intro a b hab
    simp only [compareByDate] at hab
    omega

/-- C22 at the sample user with two property payments and one apartment payment, two
of the three with the same date: three rows, most recent first, the rows of equal
date in the order of the concatenation. -/
theorem getAllUserPayments_sorted_witness :
    getAllUserPaymentsController sampleHistoryEnv (.str "1") =
      historySucceeded
        [historyRow 1700000500000 6 "property", historyRow 1700000500000 7 "apartment",
          historyRow 1700000000000 5 "property"] ∧
    ∃ allPayments,
      getAllUserPaymentsController sampleHistoryEnv (.str "1") =
        historySucceeded allPayments ∧
      allPayments.length = 2 + 1 :=
  have ⟨allPayments, hrun, _, hlength, _⟩ :=
    getAllUserPayments_sorted sampleHistoryEnv (.str "1")
      [historyRow 1700000000000 5 "property", historyRow 1700000500000 6 "property"]
      [historyRow 1700000500000 7 "apartment"] (by decide) rfl rfl
  ⟨by decide, allPayments, hrun, hlength⟩

/-! ## The model's validation against the controller's checks -/

/-- C23, the claim as stated fails: the sample payment sent with the legacy method name
`card` passes the checks of `createPayment`, while `paymentModel.validate` on a record
with the very same fields answers invalid, "Only credit card and UPI payments are
accepted": the model's list of methods holds `credit_card` and `upi` only. -/
theorem card_alias_rejected_by_model :
    (cardModel.user_id = cardPayment.user_id ∧
      cardModel.property_id = cardPayment.property_id ∧
      cardModel.amount_paid = cardPayment.amount_paid ∧
      cardModel.payment_method = cardPayment.payment_method ∧
      cardModel.payment_details = cardPayment.payment_details ∧
      cardModel.status = cardPayment.status) ∧
    cardPayment.payment_method = .str "card" ∧
    validatePayment cardPayment = none ∧
    cardModel.validate =
      { valid := false, message := some "Only credit card and UPI payments are accepted" } := by
  decide

/-- C23 as amended. On a record and a request with the same `user_id`, `property_id`,
`amount_paid`, `payment_method`, `payment_details` and `status`: when the method is not
the legacy name `card`, `paymentModel.validate` answers valid exactly when the checks of
`createPayment` accept, a valid answer carries no message, and when the checks reject,
the model answers the message of the rejection.  When the method is `card` and the
required fields are present, the model answers invalid with the message of an
unaccepted method, which the checks of `createPayment` never answer for `card`: they
treat `card` as `credit_card`. -/
theorem validate_agrees_except_card (m : PaymentModel) (req : PaymentRequest)
    (huser : m.user_id = req.user_id) (hproperty : m.property_id = req.property_id)
    (hamount : m.amount_paid = req.amount_paid)
    (hmethod : m.payment_method = req.payment_method)
    (hdetails : m.payment_details = req.payment_details) (hstatus : m.status = req.status) :
    (req.payment_method ≠ .str "card" →
      m.validate.valid = (validatePayment req).isNone ∧
      m.validate.message = (validatePayment req).map Response.message) ∧
    (req.payment_method = .str "card" →
      req.user_id.truthy = true → req.property_id.truthy = true →
      req.amount_paid.truthy = true → req.payment_details.truthy = true →
      req.status.truthy = true →
      m.validate =
        { valid := false, message := some "Only credit card and UPI payments are accepted" } ∧
      validatePayment req =
        checkMethodAndDetails (.str "credit_card") req.payment_details ∧
      validatePayment req ≠ some invalidMethod) := by
  rcases m with ⟨mu, mp, mt, ma, mm, md, ms, mdate, minv⟩
  simp only at huser hproperty hamount hmethod hdetails hstatus
  subst huser hproperty hamount hmethod hdetails hstatus
  refine ⟨fun hcard => ?_, fun hcard h1 h2 h3 h4 h5 => ?_⟩
  · unfold PaymentModel.validate validatePayment
    simp only []
    split
    · simp [missingPaymentFields, failure]
    · unfold checkMethodAndDetails
      by_cases hcc : req.payment_method = .str "credit_card"
      · simp only [hcc, validMethods]
        simp only [cardDetailsRequired, upiIdRequired, failure]
        split_ifs <;> simp_all
      · by_cases hupi : req.payment_method = .str "upi"
        · simp only [hupi, validMethods]
          simp only [cardDetailsRequired, upiIdRequired, failure]
          split_ifs <;> simp_all
        · simp [validMethods, hcc, hupi, hcard, invalidMethod, failure]
  · have hcardT : (JsVal.str "card").truthy = true := by decide
    have hv : validatePayment req =
        checkMethodAndDetails (.str "credit_card") req.payment_details := by
      simp [validatePayment, hcard, h1, h2, h3, h4, h5, hcardT, checkMethodAndDetails,
        validMethods]
    refine ⟨?_, hv, ?_⟩
    · simp [PaymentModel.validate, hcard, h1, h2, h3, h4, h5, hcardT]
    · rw [hv]
      simp [checkMethodAndDetails, validMethods, cardDetailsRequired, invalidMethod, failure]

/-- C23 as amended, at the sample payment by `credit_card` (both layers accept) and at
the sample payment by `card` (the model rejects the method, the controller accepts). -/
theorem validate_agrees_except_card_witness :
    (sampleModel.validate.valid = (validatePayment samplePayment).isNone ∧
      sampleModel.validate.message = (validatePayment samplePayment).map Response.message) ∧
    cardModel.validate.valid = false ∧ validatePayment cardPayment ≠ some invalidMethod :=
  ⟨(validate_agrees_except_card sampleModel samplePayment rfl rfl rfl rfl rfl rfl).1
      (by decide),
    congrArg Validation.valid
      ((validate_agrees_except_card cardModel cardPayment rfl rfl rfl rfl rfl rfl).2
        rfl (by decide) (by decide) (by decide) (by decide) (by decide)).1,
    ((validate_agrees_except_card cardModel cardPayment rfl rfl rfl rfl rfl rfl).2
        rfl (by decide) (by decide) (by decide) (by decide) (by decide)).2.2⟩

/-- C26: for a request that passes the checks of `createPayment`, the record the
controller builds from it (method `card` replaced by `credit_card`, each detail field
passed through `|| null`) is answered valid by `paymentModel.validate`, and it is the
record handed to the persistence service. -/
theorem createPayment_builds_valid_model (svc : PaymentModel → Except String ServiceResult)
    (now : Nat) (req : PaymentRequest) (h : validatePayment req = none) :
    (newPaymentOf now req).validate = { valid := true, message := none } ∧
    (createPayment svc now req).submitted = some (newPaymentOf now req) := by
  refine ⟨?_, (createPayment_submitted svc now req _).mpr ⟨h, rfl⟩⟩
  have hcheck := validatePayment_none req h
  have hreq : req.user_id.truthy = true ∧ req.property_id.truthy = true ∧
      req.amount_paid.truthy = true ∧ req.payment_method.truthy = true ∧
      req.payment_details.truthy = true ∧ req.status.truthy = true := by
    unfold validatePayment at h
    split at h
    · simp at h
    · rename_i hr
      simp only [Bool.or_eq_true, Bool.not_eq_true', not_or, Bool.not_eq_false] at hr
      exact ⟨hr.1.1.1.1.1, hr.1.1.1.1.2, hr.1.1.1.2, hr.1.1.2, hr.1.2, hr.2⟩
  obtain ⟨h1, h2, h3, h4, h5, h6⟩ := hreq
  have hget : ∀ key ∈ detailKeys,
      ((sanitizePaymentDetails req.payment_details).get key).truthy =
        (req.payment_details.get key).truthy := by
    intro key hkey
    rw [sanitizePaymentDetails_get _ _ hkey]
    exact (or_null _).2.2.2.2
  have hcc : (JsVal.str "credit_card").truthy = true := by decide
  have hupiT : (JsVal.str "upi").truthy = true := by decide
  have hobj : (sanitizePaymentDetails req.payment_details).truthy = true := rfl
  rcases checkMethodAndDetails_method _ _ hcheck with hm | hm | hm
  · obtain ⟨c1, c2, c3, c4⟩ := checkMethodAndDetails_card _ _ (Or.inl hm) hcheck
    simp [PaymentModel.validate, newPaymentOf, hm, h1, h2, h3, h6, hcc, hobj,
      hget "card_holder" (by decide), hget "card_number" (by decide),
      hget "expiry_date" (by decide), hget "cvv" (by decide), c1, c2, c3, c4]
  · obtain ⟨c1, c2, c3, c4⟩ := checkMethodAndDetails_card _ _ (Or.inr hm) hcheck
    simp [PaymentModel.validate, newPaymentOf, hm, h1, h2, h3, h6, hcc, hobj,
      hget "card_holder" (by decide), hget "card_number" (by decide),
      hget "expiry_date" (by decide), hget "cvv" (by decide), c1, c2, c3, c4]
  · rw [hm] at hcheck
    have c1 := checkMethodAndDetails_upi _ hcheck
    simp [PaymentModel.validate, newPaymentOf, hm, h1, h2, h3, h6, hupiT, hobj,
      hget "upi_id" (by decide), c1]

/-- C26 at the sample payment sent with the method name `card`. -/
theorem createPayment_builds_valid_model_witness :
    validatePayment cardPayment = none ∧
    (newPaymentOf 0 cardPayment).payment_method = .str "credit_card" ∧
    (newPaymentOf 0 cardPayment).validate.valid = true :=
  ⟨by decide, by decide,
    congrArg Validation.valid
      (createPayment_builds_valid_model acceptingService 0 cardPayment (by decide)).1⟩

/-! ## Release of the connection -/

/-- The unit branch only adds store calls, none of them `release`. -/
theorem bookUnit_release (env : Env) (req : BookingRequest) (pid : Nat) (w : Conn) :
    (bookUnit env req pid w).2.log.count release = w.log.count release ∧
    w.log <+: (bookUnit env req pid w).2.log := by
  unfold bookUnit
  simp only [Conn.write, Conn.logged, Conn.rollbackTxn]
  repeat' split
  all_goals simp

/-- The tail of the transaction only adds store calls, none of them `release`. -/
theorem finishBooking_release (env : Env) (req : BookingRequest) (pid : Nat) (w : Conn) :
    (finishBooking env req pid w).2.log.count release = w.log.count release ∧
    w.log <+: (finishBooking env req pid w).2.log := by
  unfold finishBooking
  simp only [Conn.write, Conn.logged, Conn.commitTxn]
  repeat' split
  all_goals simp

/-- The transaction body only adds store calls, none of them `release`. -/
theorem transaction_release (env : Env) (req : BookingRequest) (w : Conn) :
    (transaction env req w).2.log.count release = w.log.count release ∧
    w.log <+: (transaction env req w).2.log := by
  have hU := bookUnit_release env req env.paymentInsertId
    (Conn.write (fun s => { s with payments := s.payments ++ [paymentRowOf env req] })
      (Conn.logged .insertPayment (Conn.beginTxn (w.logged .beginTransaction))))
  cases h0 : thrown env w with
  | some e => simp [transaction, h0, Conn.logged]
  | none =>
    cases h1 : thrown env (Conn.beginTxn (w.logged .beginTransaction)) with
    | some e =>
      simp only [transaction, h0, h1]
      simp [Conn.logged, Conn.beginTxn]
    | none =>
      simp only [transaction, h0, h1]
      rcases hb : bookUnit env req env.paymentInsertId
        (Conn.write (fun s => { s with payments := s.payments ++ [paymentRowOf env req] })
          (Conn.logged .insertPayment (Conn.beginTxn (w.logged .beginTransaction))))
        with ⟨res, w3⟩
      rw [hb] at hU
      simp only [Conn.write, Conn.logged, Conn.beginTxn] at hU
      have hw3 : w3.log.count release = w.log.count release ∧ w.log <+: w3.log := by
        refine ⟨by simpa using hU.1, List.IsPrefix.trans ?_ hU.2⟩
        simp
      rcases res with e | (_ | r)
      · exact hw3
      · have hF := finishBooking_release env req env.paymentInsertId w3
        exact ⟨hF.1.trans hw3.1, hw3.2.trans hF.2⟩
      · exact hw3

/-- C24: a call that acquires a connection (the request passes the validation and
`getConnection` answers) makes exactly one `release` call, and it is the last store
call of the request; this holds whatever later store call fails, the rollback of the
`catch` included. -/
theorem bookApartment_releases_once (env : Env) (db : Store) (req : BookingRequest)
    (hvalid : validateBooking req = none) (hacquired : env.fault 0 = none) :
    (bookApartment env db req).conn.log.head? = some getConnection ∧
    (bookApartment env db req).conn.log.count release = 1 ∧
    (bookApartment env db req).conn.log.getLast? = some release := by
  have hT := transaction_release env req
    (Conn.logged .getConnection { committed := db, txn := none, log := [] })
  simp only [bookApartment, hvalid, thrown, hacquired, List.length_nil]
  rcases ht : transaction env req
    (Conn.logged .getConnection { committed := db, txn := none, log := [] }) with ⟨res, w1⟩
  rw [ht] at hT
  simp only [Conn.logged, List.nil_append] at hT
  obtain ⟨hcount, rest, hrest⟩ := hT
  have hcount0 : w1.log.count release = 0 := by simpa using hcount
  have key : ∀ extra : List Op, extra.count release = 0 →
      (w1.log ++ extra ++ [release]).head? = some getConnection ∧
      (w1.log ++ extra ++ [release]).count release = 1 ∧
      (w1.log ++ extra ++ [release]).getLast? = some release := by
    intro extra hextra
    refine ⟨?_, ?_, ?_⟩
    · rw [← hrest]; rfl
    · simp [List.count_append, hcount0, hextra]
    · simp
  rcases res with e | r
  · cases h1 : env.fault w1.log.length
    · simp only [h1, Conn.logged, Conn.rollbackTxn]
      exact key [rollback] (by decide)
    · simp only [h1, Conn.logged]
      exact key [rollback] (by decide)
  · simp only [Conn.logged]
    simpa using key [] (by decide)

/-- C24 on four exit paths: the committed sample booking, the booking of a unit that is
not available, a deadlock in the middle of the transaction, and a lost connection on
which the rollback fails as well. -/
theorem bookApartment_releases_once_witness :
    (bookApartment sampleEnv sampleStore sampleRequest).conn.log.count release = 1 ∧
    (bookApartment sampleEnv bookedStore sampleRequest).conn.log.count release = 1 ∧
    (bookApartment deadlockEnv sampleStore sampleRequest).conn.log.count release = 1 ∧
    (bookApartment lostConnectionEnv sampleStore sampleRequest).conn.log =
      [getConnection, beginTransaction, rollback, release] ∧
    (bookApartment lostConnectionEnv sampleStore sampleRequest).conn.log.count release = 1 :=
  ⟨(bookApartment_releases_once sampleEnv sampleStore sampleRequest
      (by decide) (by decide)).2.1,
    (bookApartment_releases_once sampleEnv bookedStore sampleRequest
      (by decide) (by decide)).2.1,
    (bookApartment_releases_once deadlockEnv sampleStore sampleRequest
      (by decide) (by decide)).2.1,
    by decide,
    (bookApartment_releases_once lostConnectionEnv sampleStore sampleRequest
      (by decide) (by decide)).2.1⟩

/-! ## The payment form -/

/-- The trimmed text is empty exactly when the text is blank. -/
theorem trim_eq_empty (s : String) : trim s = "" ↔ ¬ NonBlank s := by
  have hdrop : ∀ l : List Char,
      (l.dropWhile isWhiteSpace).reverse.dropWhile isWhiteSpace = [] ↔
        ∀ c ∈ l, isWhiteSpace c = true := by
    intro l
    rw [List.dropWhile_eq_nil_iff]
    constructor
    · intro h
      have hnil : l.dropWhile isWhiteSpace = [] := by
        cases hd : l.dropWhile isWhiteSpace with
        | nil => rfl
        | cons c cs =>
          have hc : isWhiteSpace c = true := h c (by simp [hd])
          have hhead := List.head_dropWhile_not isWhiteSpace l (by simp [hd])
          simp only [hd, List.head_cons] at hhead
          rw [hc] at hhead
          exact absurd hhead (by decide)
      exact List.dropWhile_eq_nil_iff.mp hnil
    · intro h c hc
      have hnil : l.dropWhile isWhiteSpace = [] := List.dropWhile_eq_nil_iff.mpr h
      simp [hnil] at hc
  have hmk : trim s = "" ↔
      (s.data.dropWhile isWhiteSpace).reverse.dropWhile isWhiteSpace = [] := by
    constructor
    · intro h
      have hdata := congrArg String.data h
      simpa [trim] using hdata
    · intro h
      simp only [trim, h]
      rfl
  rw [hmk, hdrop]
  simp [NonBlank]

/-- A text is not blank exactly when its trimmed text is not empty. -/
theorem nonBlank_iff (s : String) : NonBlank s ↔ trim s ≠ "" := by
  rw [Ne, trim_eq_empty, not_not]

/-- A text that is not blank is not empty, so it is truthy. -/
theorem NonBlank.truthy (s : String) (h : NonBlank s) : (JsVal.str s).truthy = true := by
  obtain ⟨c, hc, -⟩ := h
  have hne : s ≠ "" := by
    rintro rfl
    simp at hc
  simpa [JsVal.truthy] using hne

/-- The comparison `x <= 0` is false for `NaN`, for `Infinity` and for a finite number
above 0, and for nothing else. -/
theorem Parsed.leZero_eq_false (x : Parsed) :
    x.leZero = false ↔ x = .nan ∨ x = .infinite false ∨ ∃ n, 0 < n ∧ x = .finite n := by
  cases x with
  | nan => simp [Parsed.leZero]
  | infinite negative => cases negative <;> simp [Parsed.leZero]
  | finite n => simp [Parsed.leZero]

/-- The value of `validateForm` as the conjunction of the tests it makes. -/
theorem validateForm_eq_true (parseFloat : String → Parsed) (f : FormData) :
    validateForm parseFloat f = true ↔
      (f.amount_paid ≠ "" ∧ (parseFloat f.amount_paid).leZero = false) ∧
      (f.payment_method = "credit_card" →
        NonBlank f.payment_details.card_holder ∧
        (NonBlank f.payment_details.card_number ∧
          16 ≤ jsLength f.payment_details.card_number) ∧
        (NonBlank f.payment_details.expiry_date ∧ '/' ∈ f.payment_details.expiry_date.data) ∧
        (NonBlank f.payment_details.cvv ∧ 3 ≤ jsLength f.payment_details.cvv)) ∧
      (f.payment_method = "upi" →
        NonBlank f.payment_details.upi_id ∧ '@' ∈ f.payment_details.upi_id.data) := by
  have hupi : ¬ ("upi" = "credit_card") := by decide
  have hupi' : ¬ ("credit_card" = "upi") := by decide
  unfold validateForm
  simp only [nonBlank_iff]
  by_cases hcc : f.payment_method = "credit_card"
  · simp [hcc, hupi', includes]
  · by_cases hu : f.payment_method = "upi"
    · simp [hu, hupi, includes]
    · simp [hcc, hu]

/-- C25, the claim as stated fails: the sample card form with the amount text `abc`,
which parses to `NaN` and so to no number above 0, is accepted by `validateForm`: the
test `parseFloat(amount_paid) <= 0` is false for `NaN`. -/
theorem validateForm_accepts_nan :
    nanForm.amount_paid = "abc" ∧ sampleParseFloat nanForm.amount_paid = .nan ∧
    validateForm sampleParseFloat nanForm = true := by
  decide

/-- C25 as amended. `validateForm` returns true exactly when `amount_paid` is not empty
and does not parse to a number that is 0 or below (it parses to `NaN`, to `Infinity` or
to a finite number above 0) and one of three holds: the method is `credit_card`, and
`card_holder` is not blank, `card_number` is not blank and has length at least 16,
`expiry_date` is not blank and contains `/`, and `cvv` is not blank and has length at
least 3; or the method is `upi`, and `upi_id` is not blank and contains `@`; or the
method is neither `credit_card` nor `upi`. -/
theorem validateForm_iff (parseFloat : String → Parsed) (f : FormData) :
    validateForm parseFloat f = true ↔
      (f.amount_paid ≠ "" ∧
        (parseFloat f.amount_paid = .nan ∨ parseFloat f.amount_paid = .infinite false ∨
          ∃ n, 0 < n ∧ parseFloat f.amount_paid = .finite n)) ∧
      ((f.payment_method = "credit_card" ∧
          NonBlank f.payment_details.card_holder ∧
          NonBlank f.payment_details.card_number ∧
          16 ≤ jsLength f.payment_details.card_number ∧
          NonBlank f.payment_details.expiry_date ∧
          '/' ∈ f.payment_details.expiry_date.data ∧
          NonBlank f.payment_details.cvv ∧ 3 ≤ jsLength f.payment_details.cvv) ∨
        (f.payment_method = "upi" ∧
          NonBlank f.payment_details.upi_id ∧ '@' ∈ f.payment_details.upi_id.data) ∨
        (f.payment_method ≠ "credit_card" ∧ f.payment_method ≠ "upi")) := by
  have hupi : ¬ ("upi" = "credit_card") := by decide
  have hupi' : ¬ ("credit_card" = "upi") := by decide
  rw [validateForm_eq_true, Parsed.leZero_eq_false]
  by_cases hcc : f.payment_method = "credit_card"
  · simp only [hcc, hupi', true_implies, false_implies, and_true, true_and, false_and,
      or_false, and_assoc, ne_eq, not_true_eq_false]
  · by_cases hu : f.payment_method = "upi"
    · simp only [hu, hupi, true_implies, false_implies, and_true, true_and, false_and,
        or_false, false_or, ne_eq, not_true_eq_false, and_false]
    · simp [hcc, hu]

/-- The request `createPayment` destructures from the body `handleSubmit` sends. -/
theorem paymentData_payment (parseFloat : String → Parsed) (props : FormProps)
    (f : FormData) :
    PaymentRequest.ofBody (paymentData parseFloat props f) =
      { user_id := props.userId, property_id := props.propertyId,
        total_price := props.propertyPrice,
        amount_paid := (parseFloat f.amount_paid).sent,
        payment_method := .str f.payment_method,
        payment_details := .obj (paymentDetailsToSend f), status := .str "completed",
        invoice_number := .undefined } := by
  simp only [PaymentRequest.ofBody, paymentData, JsFields.ofList, JsFields.lookup,
    String.reduceEq, if_false, if_true]

/-- The request `bookApartment` destructures from the body `handleSubmit` sends. -/
theorem paymentData_booking (parseFloat : String → Parsed) (props : FormProps)
    (f : FormData) :
    BookingRequest.ofBody (paymentData parseFloat props f) =
      { user_id := props.userId, property_id := props.propertyId,
        unit_id := withDefault props.unitId .null, total_price := props.propertyPrice,
        amount_paid := (parseFloat f.amount_paid).sent,
        payment_method := .str f.payment_method,
        payment_details := .obj (paymentDetailsToSend f), status := .str "completed",
        property_name := props.propertyName } := by
  simp only [BookingRequest.ofBody, paymentData, JsFields.ofList, JsFields.lookup,
    String.reduceEq, if_false, if_true]

/-- The details object sent for each of the two methods of the form. -/
theorem paymentDetailsToSend_eq (f : FormData) :
    (f.payment_method = "credit_card" →
      paymentDetailsToSend f = .ofList
        [("card_holder", .str f.payment_details.card_holder),
         ("card_number", .str f.payment_details.card_number),
         ("expiry_date", .str f.payment_details.expiry_date),
         ("cvv", .str f.payment_details.cvv), ("upi_id", .null)]) ∧
    (f.payment_method = "upi" →
      paymentDetailsToSend f = .ofList
        [("card_holder", .null), ("card_number", .null), ("expiry_date", .null),
         ("cvv", .null), ("upi_id", .str f.payment_details.upi_id)]) := by
  constructor
  · intro h
    simp only [paymentDetailsToSend, h, if_true, JsFields.ofList, JsFields.set,
      String.reduceEq, if_false]
  · intro h
    have hne : ¬ ("upi" = "credit_card") := by decide
    simp only [paymentDetailsToSend, h, hne, if_true, JsFields.ofList, JsFields.set,
      String.reduceEq, if_false]

/-- C27, the claim as stated fails: the sample card form with the amount text `abc` is
accepted by `validateForm`, `handleSubmit` posts its body with every prop present, and
the server answers both to `createPayment` and to `bookApartment` that required
fields are missing: the amount `NaN` is written `null` in the body. -/
theorem nan_amount_rejected_by_server :
    validateForm sampleParseFloat nanForm = true ∧
    handleSubmit sampleParseFloat sampleProps nanForm =
      some { endpoint := "http://localhost:3000/api/apartments/bookings"
             body := paymentData sampleParseFloat sampleProps nanForm } ∧
    sampleProps.userId.truthy = true ∧ sampleProps.propertyId.truthy = true ∧
    sampleProps.unitId.truthy = true ∧
    (paymentData sampleParseFloat sampleProps nanForm).lookup "amount_paid" = .null ∧
    validatePayment (PaymentRequest.ofBody (paymentData sampleParseFloat sampleProps nanForm)) =
      some missingPaymentFields ∧
    validateBooking (BookingRequest.ofBody (paymentData sampleParseFloat sampleProps nanForm)) =
      some missingBookingFields := by
  decide

/-- C27 as amended. For a form state that `validateForm` accepts, whose amount parses
to a finite number and whose method is `credit_card` or `upi`, `handleSubmit` posts a
body that passes the checks of `createPayment` when `userId` and `propertyId` are
present, and the validation of `bookApartment` when `unitId` is present as well; its
details object holds the texts of the four card fields and a `null` UPI id for
`credit_card`, and four `null` card fields and the text of the UPI id for `upi`. -/
theorem handleSubmit_body_accepted (parseFloat : String → Parsed) (props : FormProps)
    (f : FormData) (n : Int)
    (haccepted : validateForm parseFloat f = true)
    (hamount : parseFloat f.amount_paid = .finite n)
    (hmethod : f.payment_method = "credit_card" ∨ f.payment_method = "upi")
    (huser : props.userId.truthy = true) (hproperty : props.propertyId.truthy = true) :
    ∃ sub, handleSubmit parseFloat props f = some sub ∧
      sub.body = paymentData parseFloat props f ∧
      validatePayment (PaymentRequest.ofBody sub.body) = none ∧
      (props.unitId.truthy = true →
        validateBooking (BookingRequest.ofBody sub.body) = none) ∧
      (f.payment_method = "credit_card" →
        sub.body.lookup "payment_details" = .obj (.ofList
          [("card_holder", .str f.payment_details.card_holder),
           ("card_number", .str f.payment_details.card_number),
           ("expiry_date", .str f.payment_details.expiry_date),
           ("cvv", .str f.payment_details.cvv), ("upi_id", .null)])) ∧
      (f.payment_method = "upi" →
        sub.body.lookup "payment_details" = .obj (.ofList
          [("card_holder", .null), ("card_number", .null), ("expiry_date", .null),
           ("cvv", .null), ("upi_id", .str f.payment_details.upi_id)])) := by
  have hdetails : (paymentData parseFloat props f).lookup "payment_details" =
      .obj (paymentDetailsToSend f) := by
    simp only [paymentData, JsFields.ofList, JsFields.lookup, String.reduceEq, if_false,
      if_true]
  obtain ⟨⟨-, hle⟩, hcard, hupi⟩ := (validateForm_eq_true parseFloat f).mp haccepted
  have hn : n ≠ 0 := by
    rw [hamount] at hle
    simp only [Parsed.leZero, decide_eq_false_iff_not] at hle
    omega
  have hsent : ((parseFloat f.amount_paid).sent).truthy = true := by
    rw [hamount]
    simpa [Parsed.sent, JsVal.truthy] using hn
  have hobj : (JsVal.obj (paymentDetailsToSend f)).truthy = true := rfl
  have hstatus : (JsVal.str "completed").truthy = true := by decide
  have hcheck : checkMethodAndDetails (.str f.payment_method)
      (.obj (paymentDetailsToSend f)) = none ∧ (JsVal.str f.payment_method).truthy = true := by
    rcases hmethod with hm | hm
    · obtain ⟨c1, ⟨c2, -⟩, ⟨c3, -⟩, c4, -⟩ := hcard hm
      have t1 := NonBlank.truthy _ c1
      have t2 := NonBlank.truthy _ c2
      have t3 := NonBlank.truthy _ c3
      have t4 := NonBlank.truthy _ c4
      rw [(paymentDetailsToSend_eq f).1 hm, hm]
      refine ⟨?_, by decide⟩
      simp only [checkMethodAndDetails, validMethods, JsVal.get, JsFields.ofList,
        JsFields.lookup, String.reduceEq, if_false, if_true, t1, t2, t3, t4]
      simp
    · obtain ⟨c1, -⟩ := hupi hm
      have t1 := NonBlank.truthy _ c1
      rw [(paymentDetailsToSend_eq f).2 hm, hm]
      refine ⟨?_, by decide⟩
      simp only [checkMethodAndDetails, validMethods, JsVal.get, JsFields.ofList,
        JsFields.lookup, String.reduceEq, if_false, if_true, t1]
      simp
  refine ⟨{ endpoint :=
              if (withDefault props.isApartment (.bool false)).truthy
              then "http://localhost:3000/api/apartments/bookings"
              else "http://localhost:3000/api/payment"
            body := paymentData parseFloat props f },
    by simp [handleSubmit, haccepted], rfl, ?_, ?_, ?_, ?_⟩
  · simp only [paymentData_payment, validatePayment, huser, hproperty, hsent, hcheck.1,
      hcheck.2, hobj, hstatus]
    simp
  · intro hunit
    have hunit' : (withDefault props.unitId .null).truthy = true := by
      unfold withDefault
      split
      · rename_i hundef
        rw [hundef] at hunit
        exact absurd hunit (by decide)
      · exact hunit
    simp only [paymentData_booking, validateBooking, huser, hproperty, hsent, hcheck.1,
      hcheck.2, hobj, hunit']
    simp
  · intro hm
    simp only [hdetails, (paymentDetailsToSend_eq f).1 hm]
  · intro hm
    simp only [hdetails, (paymentDetailsToSend_eq f).2 hm]

/-- C27 as amended, at the sample card form shown for unit 42 of apartment 9. -/
theorem handleSubmit_body_accepted_witness :
    validateForm sampleParseFloat sampleForm = true ∧
    ∃ sub, handleSubmit sampleParseFloat sampleProps sampleForm = some sub ∧
      validatePayment (PaymentRequest.ofBody sub.body) = none ∧
      validateBooking (BookingRequest.ofBody sub.body) = none :=
  have ⟨sub, hsub, _, hpayment, hbooking, _⟩ :=
    handleSubmit_body_accepted sampleParseFloat sampleProps sampleForm 1000
      (by decide) (by decide) (Or.inl rfl) (by decide) (by decide)
  ⟨by decide, sub, hsub, hpayment, hbooking (by decide)⟩

/-! ## The unit inventory after a booking -/

/-- C28: a successful call for a real unit addresses a unit id `u` of which a row was
available, and the committed unit rows afterwards are the rows before, in the same
order, where each row of another id is unchanged and a row of id `u` differs in
`status` only, which is `booked`. -/
theorem bookApartment_unit_frame (env : Env) (db : Store) (req : BookingRequest)
    (text : String)
    (hok : (bookApartment env db req).response.success = true)
    (htext : req.unit_id.callToString = some text)
    (hreal : startsWith text fallbackMarker = false) :
    ∃ u, env.idOf req.unit_id = some u ∧
      (∃ row ∈ db.apartment_units, row.id = u ∧ row.status = "available") ∧
      List.Forall₂
        (fun before after =>
          (before.id ≠ u → after = before) ∧
          (before.id = u → after = { before with status := "booked" }))
        db.apartment_units (bookApartment env db req).store.apartment_units := by
  rcases bookApartment_store_cases env db req with ⟨hfail, -⟩ | ⟨-, text', htext', hcase⟩
  · rw [hok] at hfail
    exact absurd hfail (by decide)
  · rw [htext] at htext'
    obtain rfl := Option.some.inj htext'
    rcases hcase with ⟨hdemo, -⟩ | ⟨-, hsel, hunits⟩
    · rw [hreal] at hdemo
      exact absurd hdemo (by decide)
    · obtain ⟨row, hrow⟩ := List.exists_mem_of_ne_nil _ hsel
      simp only [selectAvailable, List.mem_filter, Bool.and_eq_true, decide_eq_true_eq] at hrow
      obtain ⟨hmem, hid, havail⟩ := hrow
      refine ⟨row.id, hid, ⟨row, hmem, rfl, havail⟩, ?_⟩
      rw [hunits, markBooked, List.forall₂_map_right_iff]
      refine List.forall₂_same.mpr (fun r _ => ?_)
      by_cases hr : r.id = row.id
      · simp [hid, hr]
      · have hne : ¬ row.id = r.id := fun h => hr h.symm
        simp [hid, hr, hne]

/-- C28 at the sample booking: unit 42 is the only row and becomes `booked`. -/
theorem bookApartment_unit_frame_witness :
    (bookApartment sampleEnv sampleStore sampleRequest).response.success = true ∧
    ∃ u, sampleEnv.idOf sampleRequest.unit_id = some u ∧
      List.Forall₂
        (fun before after =>
          (before.id ≠ u → after = before) ∧
          (before.id = u → after = { before with status := "booked" }))
        sampleStore.apartment_units
        (bookApartment sampleEnv sampleStore sampleRequest).store.apartment_units :=
  have ⟨u, hu, _, hframe⟩ :=
    bookApartment_unit_frame sampleEnv sampleStore sampleRequest "42"
      (by decide) (by decide) (by decide)
  ⟨by decide, u, hu, hframe⟩

/-- C29: a store state and a valid request exist for which `bookApartment` succeeds and
records a booking for apartment 8 (the `property_id` of the request) on unit 42, which
it marks `booked` although the unit row belongs to apartment 9: the availability query
compares the unit id and the status only. -/
theorem booking_ignores_unit_apartment :
    ∃ (env : Env) (db : Store) (req : BookingRequest),
      validateBooking req = none ∧
      (bookApartment env db req).response.success = true ∧
      ∃ before ∈ db.apartment_units,
      ∃ booking ∈ (bookApartment env db req).store.apartment_bookings,
      ∃ after ∈ (bookApartment env db req).store.apartment_units,
        booking ∉ db.apartment_bookings ∧
        booking.apartment_id = req.property_id ∧
        env.idOf booking.unit_id = some after.id ∧
        before.id = after.id ∧ before.status = "available" ∧ after.status = "booked" ∧
        after.apartment_id = before.apartment_id ∧
        env.idOf booking.apartment_id ≠ some after.apartment_id ∧
        booking.apartment_id ≠ .num after.apartment_id :=
  ⟨sampleEnv, sampleStore, crossRequest, by decide, by decide,
    sampleUnit, by decide, bookingRowOf sampleEnv crossRequest 7, by decide,
    { sampleUnit with status := "booked" }, by decide, by decide, by decide, by decide,
    by decide, by decide, by decide, by decide, by decide, by decide⟩

/-! ## The invoice of a demo booking -/

/-- C30: after a successful booking of a demo unit whose stripped unit id the store
compares equal to the id of no unit row, with no earlier booking row already naming
the generated payment id, a `generateInvoice` request for the returned payment id
whose first lookup finds no property payment is answered 404 "Payment not found": the
second lookup, evaluated on the committed tables, inner-joins `apartment_units` on the
`unit_id` of the booking and so finds no row. -/
theorem fallback_invoice_not_found (env : Env) (db : Store) (req : BookingRequest)
    (text stripped : String) (apartments : List ApartmentInfo) (users : List UserInfo)
    (ienv : InvoiceEnv) (payment_id : JsVal)
    (hok : (bookApartment env db req).response.success = true)
    (htext : req.unit_id.callToString = some text)
    (hdemo : startsWith text fallbackMarker = true)
    (hstripped : req.unit_id.replaceFallback = some stripped)
    (hunit : ∀ u ∈ db.apartment_units, env.idOf (.str stripped) ≠ some u.id)
    (hbookings : ∀ b ∈ db.apartment_bookings, b.payment_id ≠ env.paymentInsertId)
    (hid : payment_id.truthy = true)
    (hreturned : env.idOf payment_id = some env.paymentInsertId)
    (hproperty : ienv.propertyLookup payment_id = .ok [])
    (hapartment : ienv.apartmentLookup payment_id =
      .ok (apartmentInvoiceRows env.idOf (bookApartment env db req).store apartments users
        payment_id)) :
    (bookApartment env db req).response.data.map BookingData.payment_id =
      some env.paymentInsertId ∧
    apartmentInvoiceRows env.idOf (bookApartment env db req).store apartments users
      payment_id = [] ∧
    (generateInvoice ienv payment_id).response = paymentNotFound := by
  obtain ⟨-, inv, text', -, htext', hresp, -, hpay, hcase⟩ := bookApartment_ok env db req hok
  rw [htext] at htext'
  obtain rfl := Option.some.inj htext'
  rcases hcase with ⟨-, stripped', hstripped', hbook, hunits, -⟩ | ⟨hreal, -⟩
  · rw [hstripped] at hstripped'
    obtain rfl := Option.some.inj hstripped'
    have hrows : apartmentInvoiceRows env.idOf (bookApartment env db req).store apartments
        users payment_id = [] := by
      unfold apartmentInvoiceRows
      rw [hbook, hunits]
      simp only [List.flatMap_eq_nil_iff, List.mem_filter, List.mem_append,
        List.mem_singleton, decide_eq_true_eq, and_imp]
      intro p _ hp b hb hbp apt _ _ au hau hmatch
      rcases hb with hb | rfl
      · rw [hreturned] at hp
        exact absurd (hbp.trans (Option.some.inj hp).symm) (hbookings b hb)
      · exact absurd hmatch (hunit au hau)
    refine ⟨by rw [hresp]; rfl, hrows, ?_⟩
    simp [generateInvoice, hid, hproperty, hapartment, hrows, composeInvoice]
  · rw [hdemo] at hreal
    exact absurd hreal (by decide)

/-- C30 at the sample booking of the demo unit `fallback-7` on the store whose only
unit has id 42: the invoice request for the returned payment id 11 is answered 404. -/
theorem fallback_invoice_not_found_witness :
    (bookApartment textEnv sampleStore fallbackRequest).response.success = true ∧
    (bookApartment textEnv sampleStore fallbackRequest).response.data.map
      BookingData.payment_id = some 11 ∧
    (generateInvoice
      (storeInvoiceEnv textEnv.idOf (bookApartment textEnv sampleStore fallbackRequest).store)
      (.str "11")).response = paymentNotFound :=
  have h := fallback_invoice_not_found textEnv sampleStore fallbackRequest "fallback-7" "7"
    sampleApartments sampleUsers
    (storeInvoiceEnv textEnv.idOf (bookApartment textEnv sampleStore fallbackRequest).store)
    (.str "11") (by decide) (by decide) (by decide) (by decide) (by decide) (by decide)
    (by decide) (by decide) rfl rfl
  ⟨by decide, h.1, h.2.2⟩

/-! ## Requests in flight -/

/-- A request that has ended takes no further turn. -/
theorem alone_answered (n : Nat) (c : InFlight) (db : Store) (r : Response)
    (h : c.stage = .answered r) : InFlight.alone n c db = (c, db) := by
  induction n with
  | zero => rfl
  | succ n ih =>
    rw [InFlight.alone]
    simp only [InFlight.step, h]
    exact ih

/-- What the transaction reads after one more write. -/
theorem Txn.read_write (db : Store) (t : Txn) (f : Store → Store) :
    Txn.read db (some { t with writes := t.writes ++ [f] }) = f (Txn.read db (some t)) := by
  simp [Txn.read, List.foldl_append]

/-- The `catch`, run alone, ends the request as `settle` says. -/
theorem ended_catch (env : Env) (req : BookingRequest) (log : List Op) (txn : Option Txn)
    (db : Store) (e : String) (n : Nat) :
    InFlight.ended (InFlight.alone (n + 1)
        { env := env, req := req, stage := .rollbackFailed e, log := log, txn := txn } db)
      = some (settle env (.error e,
          { committed := db, txn := txn.map (fun t => Txn.read db (some t)), log := log })) := by
  rw [InFlight.alone]
  cases h : env.fault log.length with
  | some e2 =>
    simp only [InFlight.step, InFlight.thrown, h, InFlight.answer, InFlight.logged]
    rw [alone_answered _ _ _ _ rfl]
    simp [InFlight.ended, settle, thrown, InFlight.conn, h, Conn.logged]
  | none =>
    simp only [InFlight.step, InFlight.thrown, h, InFlight.answer, InFlight.logged,
      InFlight.closed]
    rw [alone_answered _ _ _ _ rfl]
    simp [InFlight.ended, settle, thrown, InFlight.conn, h, Conn.logged, Conn.rollbackTxn]

/-- The invoice stamp and the commit, run alone, end the request as `finishBooking`
followed by `settle` says. -/
theorem ended_finish (env : Env) (req : BookingRequest) (stage : Stage) (log : List Op)
    (t : Txn) (db : Store) (n : Nat) :
    InFlight.ended (InFlight.alone (n + 3)
        (InFlight.toInvoice
          { env := env, req := req, stage := stage, log := log, txn := some t }) db)
      = some (settle env (finishBooking env req env.paymentInsertId
          { committed := db, txn := some (Txn.read db (some t)), log := log })) := by
  cases hi : invoiceNumberOf req.property_id env.dateNow with
  | none =>
    simp only [InFlight.toInvoice, hi, InFlight.caught, finishBooking]
    exact ended_catch env req log (some t) db typeError (n + 2)
  | some invoiceNumber =>
    simp only [InFlight.toInvoice, hi, finishBooking, thrown]
    rw [InFlight.alone]
    cases h0 : env.fault log.length with
    | some e =>
      simp only [InFlight.step, InFlight.thrown, h0, InFlight.caught, InFlight.logged,
        Conn.logged]
      exact ended_catch env req (log ++ [Op.stampInvoice]) (some t) db e (n + 1)
    | none =>
      simp only [InFlight.step, InFlight.thrown, h0, InFlight.logged, InFlight.write,
        Option.map_some']
      rw [InFlight.alone]
      cases h1 : env.fault (log ++ [Op.stampInvoice]).length with
      | some e =>
        simp only [InFlight.step, InFlight.thrown, h1, InFlight.caught, InFlight.logged,
          Conn.logged, Conn.write, Option.map_some']
        rw [ended_catch env req ((log ++ [Op.stampInvoice]) ++ [Op.commit]) _ db e n]
        simp [Txn.read, List.foldl_append]
      | none =>
        simp only [InFlight.step, InFlight.thrown, h1, InFlight.answer, InFlight.closed,
          InFlight.logged, Conn.logged, Conn.write, Option.map_some']
        rw [alone_answered _ _ _ _ rfl]
        simp [InFlight.ended, settle, InFlight.conn, Conn.logged, Conn.commitTxn, Conn.view,
          Txn.commit, Txn.read, List.foldl_append]

/-- No update waits while no other transaction holds a lock. -/
theorem mustWait_nil (u : Option Nat) : mustWait [] u = false := by
  cases u <;> rfl

/-- The demo branch, run alone, ends the request as `bookUnit`, `finishBooking` and
`settle` say. -/
theorem ended_demo (env : Env) (req : BookingRequest) (log : List Op) (t : Txn) (db : Store)
    (n : Nat) (text stripped : String) (hs : req.unit_id.callToString = some text)
    (hf : startsWith text fallbackMarker = true)
    (hr : req.unit_id.replaceFallback = some stripped) :
    InFlight.ended (InFlight.alone (n + 4)
        { env := env, req := req, stage := .insertDemoBooking stripped, log := log,
          txn := some t } db)
      = some (settle env
          (match bookUnit env req env.paymentInsertId
              { committed := db, txn := some (Txn.read db (some t)), log := log } with
            | (.error e, w3) => (.error e, w3)
            | (.ok (some r), w3) => (.ok r, w3)
            | (.ok none, w3) => finishBooking env req env.paymentInsertId w3)) := by
  rw [InFlight.alone]
  cases h0 : env.fault log.length with
  | some e =>
    simp only [InFlight.step, InFlight.thrown, h0, InFlight.caught, InFlight.logged, bookUnit,
      hs, hf, hr, thrown, Conn.logged, if_true]
    exact ended_catch env req (log ++ [Op.insertBooking]) (some t) db e (n + 2)
  | none =>
    simp only [InFlight.step, InFlight.thrown, h0, InFlight.logged, InFlight.write, bookUnit,
      hs, hf, hr, thrown, Conn.logged, Conn.write, if_true, Option.map_some']
    rw [ended_finish env req _ (log ++ [Op.insertBooking]) _ db n]
    simp [Txn.read, List.foldl_append]

/-- The branch of a real unit, run alone, ends the request as `bookUnit`, `finishBooking`
and `settle` say. -/
theorem ended_real (env : Env) (req : BookingRequest) (log : List Op) (t : Txn) (db : Store)
    (n : Nat) (text : String) (hs : req.unit_id.callToString = some text)
    (hf : ¬ startsWith text fallbackMarker = true) :
    InFlight.ended (InFlight.alone (n + 6)
        { env := env, req := req, stage := .selectUnit, log := log, txn := some t } db)
      = some (settle env
          (match bookUnit env req env.paymentInsertId
              { committed := db, txn := some (Txn.read db (some t)), log := log } with
            | (.error e, w3) => (.error e, w3)
            | (.ok (some r), w3) => (.ok r, w3)
            | (.ok none, w3) => finishBooking env req env.paymentInsertId w3)) := by
  rw [InFlight.alone]
  cases h0 : env.fault log.length with
  | some e =>
    simp only [InFlight.step, InFlight.thrown, h0, InFlight.caught, InFlight.logged, bookUnit,
      hs, hf, thrown, Conn.logged, if_false]
    exact ended_catch env req (log ++ [Op.selectUnit]) (some t) db e (n + 4)
  | none =>
    by_cases hl : (selectAvailable env req.unit_id (Txn.read db (some t))).length = 0
    · simp only [InFlight.step, InFlight.thrown, h0, InFlight.logged, bookUnit,
        hs, hf, thrown, Conn.logged, Conn.view, Option.getD_some, if_false, hl, if_true]
      rw [InFlight.alone]
      cases h1 : env.fault (log ++ [Op.selectUnit]).length with
      | some e =>
        simp only [InFlight.step, InFlight.thrown, h1, InFlight.caught, InFlight.logged]
        exact ended_catch env req (log ++ [Op.selectUnit] ++ [Op.rollback]) (some t) db e (n + 3)
      | none =>
        simp only [InFlight.step, InFlight.thrown, h1, InFlight.answer, InFlight.closed,
          InFlight.logged]
        rw [alone_answered _ _ _ _ rfl]
        simp [InFlight.ended, settle, InFlight.conn, Conn.logged, Conn.rollbackTxn]
    · simp only [InFlight.step, InFlight.thrown, h0, InFlight.logged, bookUnit,
        hs, hf, thrown, Conn.logged, Conn.view, Option.getD_some, if_false, hl]
      rw [InFlight.alone]
      cases h1 : env.fault (log ++ [Op.selectUnit]).length with
      | some e =>
        simp only [InFlight.step, InFlight.thrown, h1, InFlight.caught, InFlight.logged]
        exact ended_catch env req (log ++ [Op.selectUnit] ++ [Op.insertBooking]) (some t) db e
          (n + 3)
      | none =>
        simp only [InFlight.step, InFlight.thrown, h1, InFlight.logged, InFlight.write,
          Conn.write, Option.map_some']
        rw [InFlight.alone]
        cases h2 : env.fault (log ++ [Op.selectUnit] ++ [Op.insertBooking]).length with
        | some e =>
          simp only [InFlight.step, InFlight.thrown, h2, InFlight.caught, InFlight.logged,
            mustWait_nil, Bool.false_eq_true, if_false]
          rw [ended_catch env req (log ++ [Op.selectUnit] ++ [Op.insertBooking] ++ [Op.updateUnit])
            _ db e (n + 2)]
          simp [Txn.read, List.foldl_append]
        | none =>
          simp only [InFlight.step, InFlight.thrown, h2, InFlight.logged, InFlight.write,
            InFlight.lock, Conn.write, Option.map_some', mustWait_nil,
            Bool.false_eq_true, if_false]
          rw [ended_finish env req _ (log ++ [Op.selectUnit] ++ [Op.insertBooking] ++
            [Op.updateUnit]) _ db n]
          simp [Txn.read, List.foldl_append]

/-- The transaction, run alone, ends the request as `transaction` and `settle` say. -/
theorem ended_transaction (env : Env) (req : BookingRequest) (log : List Op) (db : Store)
    (n : Nat) :
    InFlight.ended (InFlight.alone (n + 8)
        { env := env, req := req, stage := .beginTransaction, log := log, txn := none } db)
      = some (settle env (transaction env req { committed := db, txn := none, log := log })) := by
  rw [InFlight.alone]
  cases h0 : env.fault log.length with
  | some e =>
    simp only [InFlight.step, InFlight.thrown, h0, InFlight.caught, InFlight.logged,
      transaction, thrown, Conn.logged]
    exact ended_catch env req (log ++ [Op.beginTransaction]) none db e (n + 6)
  | none =>
    simp only [InFlight.step, InFlight.thrown, h0, InFlight.logged]
    rw [InFlight.alone]
    cases h1 : env.fault (log ++ [Op.beginTransaction]).length with
    | some e =>
      simp only [InFlight.step, InFlight.thrown, h1, InFlight.caught, InFlight.logged,
        transaction, thrown, Conn.logged, Conn.beginTxn, h0]
      rw [ended_catch env req (log ++ [Op.beginTransaction] ++ [Op.insertPayment]) _ db e
        (n + 5)]
      simp [Txn.read]
    | none =>
      have ht : transaction env req { committed := db, txn := none, log := log }
          = (match bookUnit env req env.paymentInsertId
              { committed := db
                txn := some (Txn.read db (some
                  { writes := [fun s => { s with payments := s.payments ++ [paymentRowOf env req] }]
                    locked := [] }))
                log := log ++ [Op.beginTransaction] ++ [Op.insertPayment] } with
            | (.error e, w3) => (.error e, w3)
            | (.ok (some r), w3) => (.ok r, w3)
            | (.ok none, w3) => finishBooking env req env.paymentInsertId w3) := by
        simp only [transaction, thrown, Conn.logged, Conn.beginTxn, Conn.write, h0, h1,
          Option.map_some', Txn.read, List.foldl_cons, List.foldl_nil] <;> rfl
      rw [ht]
      cases hs : req.unit_id.callToString with
      | none =>
        simp only [InFlight.step, InFlight.thrown, h1, InFlight.caught, InFlight.logged,
          InFlight.write, Option.map_some', hs, bookUnit, List.nil_append]
        exact ended_catch env req (log ++ [Op.beginTransaction] ++ [Op.insertPayment]) _ db
          typeError (n + 5)
      | some text =>
        by_cases hf : startsWith text fallbackMarker = true
        · cases hr : req.unit_id.replaceFallback with
          | none =>
            simp only [InFlight.step, InFlight.thrown, h1, InFlight.caught, InFlight.logged,
              InFlight.write, Option.map_some', hs, hf, hr, bookUnit, List.nil_append, if_true]
            exact ended_catch env req (log ++ [Op.beginTransaction] ++ [Op.insertPayment]) _ db
              typeError (n + 5)
          | some stripped =>
            simp only [InFlight.step, InFlight.thrown, h1, InFlight.logged,
              InFlight.write, Option.map_some', hs, hf, hr, List.nil_append, if_true]
            exact ended_demo env req _ _ db (n + 2) text stripped hs hf hr
        · simp only [InFlight.step, InFlight.thrown, h1, InFlight.logged,
            InFlight.write, Option.map_some', hs, hf, List.nil_append, if_false]
          exact ended_real env req _ _ db n text hs hf

/-- A request run alone, turn by turn, ends as `bookApartment` says: with the same answer,
the same committed tables and the same store calls. -/
theorem alone_eq_bookApartment (env : Env) (db : Store) (req : BookingRequest) :
    InFlight.ended (InFlight.alone 9 (InFlight.start env req) db)
      = some (bookApartment env db req) := by
  cases hv : validateBooking req with
  | some r =>
    rw [alone_answered _ _ _ r (by simp [InFlight.start, hv])]
    simp [InFlight.ended, InFlight.start, hv, bookApartment, InFlight.conn]
  | none =>
    rw [InFlight.alone]
    cases h0 : env.fault 0 with
    | some e =>
      simp only [InFlight.start, hv, InFlight.step, InFlight.thrown, List.length_nil, h0,
        InFlight.logged]
      rw [alone_answered _ _ _ _ rfl]
      simp [InFlight.ended, bookApartment, hv, thrown, h0, InFlight.conn, Conn.logged]
    | none =>
      simp only [InFlight.start, hv, InFlight.step, InFlight.thrown, List.length_nil, h0,
        InFlight.logged]
      rw [ended_transaction env req _ db 0]
      simp only [bookApartment, hv, thrown, List.length_nil, h0, Conn.logged]
      generalize transaction env req _ = outcome
      rcases outcome with ⟨_ | _, w⟩
      · simp only [settle, thrown, Conn.logged] <;> rfl
      · rfl

/-- When the second request arrives after the first has been answered, it is answered
that the unit is not available, and one booking is committed. -/
theorem sequential_second_unavailable :
    (rivals.run sequentialSchedule).first.stage
        = .answered (bookingSucceeded 7 "APT-9-1700000000") ∧
      (rivals.run sequentialSchedule).second.stage = .answered unitUnavailable ∧
      confirmedFor sampleEnv.idOf 42 (rivals.run sequentialSchedule).committed
        = [bookingRowOf sampleEnv sampleRequest 7] := by
  refine ⟨by decide, by decide, by decide⟩

/-- While the first transaction holds the write lock of unit 42, the `UPDATE` of the
second waits: in the alternating schedule the second request stands at its `UPDATE` from
turn 10 until the first has committed in turn 15. -/
theorem second_update_waits :
    (rivals.run (alternatingSchedule.take 10)).second.stage = .updateUnit ∧
      (rivals.run (alternatingSchedule.take 15)).second.stage = .updateUnit ∧
      (rivals.run (alternatingSchedule.take 15)).first.stage
        = .answered (bookingSucceeded 7 "APT-9-1700000000") ∧
      (rivals.run (alternatingSchedule.take 16)).second.stage
        = .stampInvoice "APT-9-1700000000" := by
  refine ⟨by decide, by decide, by decide, by decide⟩

/-- C5 (the code does not keep it).  Two requests book the real unit 42, which is
available, over a store with read-committed isolation and row write locks.  The first
request has made its `SELECT` (line 379, a plain read that takes no lock) and has
committed nothing when the second request arrives; the second request selects the unit
too, finds it available and is answered with HTTP 200 while the first request still
stands before its booking insert; then the first request goes on and is answered with
HTTP 200 as well.  Two confirmed bookings of unit 42 are committed, one for each
request, and the second request never observes the unit-unavailable answer.  The same
happens when the two requests take turns one store call at a time: the `UPDATE` of the
second request (line 407, no condition on the status) waits for the commit of the first
and then goes through. -/
theorem concurrent_double_booking :
    targets 42 (overtakenEnv, sampleRequest) = true ∧
      targets 42 (overtakingEnv, rivalRequest) = true ∧
      (lateRivals.run firstChecks).first.stage = .insertBooking ∧
      (lateRivals.run firstChecks).second.stage = .getConnection ∧
      (lateRivals.run firstChecks).committed = sampleStore ∧
      (lateRivals.run (firstChecks ++ secondRuns)).first.stage = .insertBooking ∧
      (lateRivals.run (firstChecks ++ secondRuns)).second.stage
        = .answered (bookingSucceeded 8 "APT-9-1700000000") ∧
      (lateRivals.run overtakingSchedule).first.stage
        = .answered (bookingSucceeded 7 "APT-9-1700000000") ∧
      (lateRivals.run overtakingSchedule).second.stage
        = .answered (bookingSucceeded 8 "APT-9-1700000000") ∧
      confirmedFor sampleEnv.idOf 42 (lateRivals.run overtakingSchedule).committed
        = [bookingRowOf overtakingEnv rivalRequest 8,
            bookingRowOf overtakenEnv sampleRequest 7] ∧
      targets 42 (laterEnv, rivalRequest) = true ∧
      (rivals.run alternatingSchedule).first.stage
        = .answered (bookingSucceeded 7 "APT-9-1700000000") ∧
      (rivals.run alternatingSchedule).second.stage
        = .answered (bookingSucceeded 8 "APT-9-1700000000") ∧
      confirmedFor sampleEnv.idOf 42 (rivals.run alternatingSchedule).committed
        = [bookingRowOf sampleEnv sampleRequest 7, bookingRowOf laterEnv rivalRequest 8] := by
  refine ⟨by decide, by decide, by decide, by decide, by decide, by decide, by decide,
    by decide, by decide, by decide, by decide, by decide, by decide, by decide⟩

end RealEstate
